import Mathlib

/-!
Verification of the `gha` Go package (typed YAML data-binding for GitHub
Actions workflow and manifest documents) against its natural-language
specification.  The Go source is shallowly embedded: YAML node trees become
the inductive type `Gha.Yaml`, Go maps become association lists, and fallible
Go functions return `Except String _`.
-/

namespace Gha

/-- A YAML node / dynamic decoded value, as exposed by the external YAML
library.  A string scalar also carries its same-line comment (Go
`yaml.Node.LineComment` without the leading marker, `""` when absent).
Integer and boolean scalars model `!!int` / `!!bool` tagged nodes as decoded
into Go `any` values. -/
inductive Yaml where
  | str : String → String → Yaml
  | int : Int → Yaml
  | bool : Bool → Yaml
  | seq : List Yaml → Yaml
  | map : List (String × Yaml) → Yaml
deriving Repr, Inhabited

mutual

/-- Structural (deep) equality of dynamic YAML values, used to model Go
interface comparison of decoded scalars during matrix include/exclude
matching. -/
def Yaml.beq : Yaml → Yaml → Bool
  | .str s c, .str t d => s == t && c == d
  | .int i, .int j => i == j
  | .bool a, .bool b => a == b
  | .seq xs, .seq ys => Yaml.beqList xs ys
  | .map xs, .map ys => Yaml.beqPairs xs ys
  | _, _ => false

/-- Structural equality of YAML sequences. -/
def Yaml.beqList : List Yaml → List Yaml → Bool
  | [], [] => true
  | x :: xs, y :: ys => Yaml.beq x y && Yaml.beqList xs ys
  | _, _ => false

/-- Structural equality of YAML mappings. -/
def Yaml.beqPairs : List (String × Yaml) → List (String × Yaml) → Bool
  | [], [] => true
  | (k, x) :: xs, (k₁, y) :: ys => k == k₁ && Yaml.beq x y && Yaml.beqPairs xs ys
  | _, _ => false

end

mutual

/-- The structural equality test decides propositional equality. -/
theorem Yaml.beq_iff : (a b : Yaml) → (Yaml.beq a b = true ↔ a = b)
  | .str s c, .str t d => by simp [Yaml.beq]
  | .int i, .int j => by simp [Yaml.beq]
  | .bool a, .bool b => by simp [Yaml.beq]
  | .seq xs, .seq ys => by simp [Yaml.beq, Yaml.beqList_iff xs ys]
  | .map xs, .map ys => by simp [Yaml.beq, Yaml.beqPairs_iff xs ys]
  | .str s c, .int j => by simp [Yaml.beq]
  | .str s c, .bool b => by simp [Yaml.beq]
  | .str s c, .seq ys => by simp [Yaml.beq]
  | .str s c, .map ys => by simp [Yaml.beq]
  | .int i, .str t d => by simp [Yaml.beq]
  | .int i, .bool b => by simp [Yaml.beq]
  | .int i, .seq ys => by simp [Yaml.beq]
  | .int i, .map ys => by simp [Yaml.beq]
  | .bool a, .str t d => by simp [Yaml.beq]
  | .bool a, .int j => by simp [Yaml.beq]
  | .bool a, .seq ys => by simp [Yaml.beq]
  | .bool a, .map ys => by simp [Yaml.beq]
  | .seq xs, .str t d => by simp [Yaml.beq]
  | .seq xs, .int j => by simp [Yaml.beq]
  | .seq xs, .bool b => by simp [Yaml.beq]
  | .seq xs, .map ys => by simp [Yaml.beq]
  | .map xs, .str t d => by simp [Yaml.beq]
  | .map xs, .int j => by simp [Yaml.beq]
  | .map xs, .bool b => by simp [Yaml.beq]
  | .map xs, .seq ys => by simp [Yaml.beq]

/-- Sequence-level structural equality decides propositional equality. -/
theorem Yaml.beqList_iff : (xs ys : List Yaml) → (Yaml.beqList xs ys = true ↔ xs = ys)
  | [], [] => by simp [Yaml.beqList]
  | [], y :: ys => by simp [Yaml.beqList]
  | x :: xs, [] => by simp [Yaml.beqList]
  | x :: xs, y :: ys => by
      simp [Yaml.beqList, Yaml.beq_iff x y, Yaml.beqList_iff xs ys]

/-- Mapping-level structural equality decides propositional equality. -/
theorem Yaml.beqPairs_iff :
    (xs ys : List (String × Yaml)) → (Yaml.beqPairs xs ys = true ↔ xs = ys)
  | [], [] => by simp [Yaml.beqPairs]
  | [], y :: ys => by simp [Yaml.beqPairs]
  | x :: xs, [] => by simp [Yaml.beqPairs]
  | (k, x) :: xs, (k₁, y) :: ys => by
      simp [Yaml.beqPairs, Yaml.beq_iff x y, Yaml.beqPairs_iff xs ys, and_assoc,
        Prod.ext_iff]

end

instance : DecidableEq Yaml := fun a b => decidable_of_iff _ (Yaml.beq_iff a b)

/-- Association-list lookup, modelling Go map indexing `m[k]`. -/
def alookup {β : Type} (k : String) : List (String × β) → Option β
  | [] => none
  | (k₁, v) :: rest => if k = k₁ then some v else alookup k rest

/-- Association-list key removal, modelling Go `delete(m, k)`. -/
def aerase {β : Type} (k : String) : List (String × β) → List (String × β)
  | [] => []
  | (k₁, v) :: rest => if k = k₁ then aerase k rest else (k₁, v) :: aerase k rest

/-- Association-list insert-or-update, modelling Go map assignment `m[k] = v`. -/
def aupsert {β : Type} (k : String) (v : β) : List (String × β) → List (String × β)
  | [] => [(k, v)]
  | (k₁, v₁) :: rest => if k = k₁ then (k, v) :: rest else (k₁, v₁) :: aupsert k v rest

/-! ## Scalar shorthand codec for the `uses:` value

Source: `src/step.go` (`Uses`, `Uses.UnmarshalYAML`, identical to
`src/unnamed/part_003` lines 36-60) and `src/unnamed/part_003` lines 62-89
(`Uses.MarshalYAML`, the generation whose decoder matches `src/step.go`).
-/

/-- Model of Go `unicode.IsPrint` used by `Uses.MarshalYAML` to strip
non-printable runes from the comment.  The model is exact on the ASCII and
Latin-1 ranges (C0 and C1 control characters and DEL are not printable) and
treats all other runes as printable. -/
def isPrintChar (c : Char) : Bool :=
  if c.val < 0x20 then false
  else if c.val = 0x7f then false
  else if 0x80 ≤ c.val && c.val ≤ 0x9f then false
  else true

/-- Go `strings.Map` dropping non-printable runes, from `Uses.MarshalYAML`. -/
def filterPrintable (s : String) : String := String.mk (s.data.filter isPrintChar)

/-- Go `strings.TrimLeft(s, "# ")`: drop every leading `#` or space. -/
def trimHashSpace (s : String) : String :=
  String.mk (s.data.dropWhile (fun c => c == '#' || c == ' '))

/-- Index of the last `'@'` in a character list: Go
`strings.LastIndex(s, "@")`, with `none` for Go's `-1`. -/
def lastAtIdx : List Char → Option Nat
  | [] => none
  | c :: rest =>
    match lastAtIdx rest with
    | some i => some (i + 1)
    | none => if c = '@' then some 0 else none

/-- Model of a step `uses:` value.  The Go field `Annotation` is called
`Annot` here. -/
structure Uses where
  Name : String
  Ref : String
  Annot : String
deriving DecidableEq, Repr, Inhabited

/-- Go `Uses.UnmarshalYAML` from `src/step.go` lines 53-77: a non-scalar node
is an error; the empty scalar leaves the zero value; otherwise the value is
split at the last `'@'`, with an error when that occurrence is at position 0 or at
the final index; with no `'@'` the whole value is the name.  The comment is
left-trimmed of `#` and spaces. -/
def usesUnmarshalY : Yaml → Except String Uses
  | .str v comment =>
    if v = "" then .ok ⟨"", "", ""⟩
    else
      match lastAtIdx v.data with
      | some i =>
        if i = 0 ∨ i = v.data.length - 1 then .error ("invalid uses value " ++ v)
        else
          .ok ⟨String.mk (v.data.take i), String.mk (v.data.drop (i + 1)),
               trimHashSpace comment⟩
      | none => .ok ⟨v, "", trimHashSpace comment⟩
  | _ => .error "cannot unmarshal non-scalar into a gha.Uses struct"

/-- Go `Uses.MarshalYAML` from `src/unnamed/part_003` lines 62-89: the doubly
empty value encodes as the empty scalar; a ref without a name is an error;
otherwise the scalar is `name` or `name@ref`, with the printable-filtered
comment attached. -/
def usesMarshal (u : Uses) : Except String Yaml :=
  if u.Name = "" ∧ u.Ref = "" then .ok (.str "" "")
  else if u.Name = "" ∧ u.Ref ≠ "" then .error "missing name value"
  else
    .ok (.str (if u.Ref ≠ "" then u.Name ++ "@" ++ u.Ref else u.Name)
          (filterPrintable u.Annot))

/-! ## Matrix expansion

Source: `Matrix.UnmarshalYAML` in `src/workflow.go` lines 287-410.  A matrix
row is a decoded `map[string]any`; the axes mapping decoded by `n.Decode` is
a Go map, whose `range` iteration order Go leaves unspecified, so the
iteration order is made explicit by passing the axes as a pair list.
-/

/-- A matrix row or include/exclude entry: a decoded `map[string]any`. -/
abbrev Row : Type := List (String × Yaml)

/-- Axis value normalization (lines 338-346): a sequence is used as is, a
bare string scalar becomes a one-element list, any other value is an
error. -/
def axisValues (k : String) : Yaml → Except String (List Yaml)
  | .seq vs => .ok vs
  | .str s c => .ok [.str s c]
  | _ => .error ("invalid matrix entry " ++ k)

/-- Cartesian-product step for one axis (lines 348-359): for each axis value,
every existing row is copied and extended with the axis key. -/
def expandAxis (k : String) (vs : List Yaml) (result : List Row) : List Row :=
  vs.flatMap (fun v => result.map (fun src => aupsert k v src))

/-- Axis iteration (lines 333-360): the working set starts as one empty row
when there is at least one axis, and each axis multiplies it. -/
def expandAxes (axes : List (String × Yaml)) : Except String (List Row) :=
  axes.foldlM
    (fun result kv => do
      let vs ← axisValues kv.1 kv.2
      pure (expandAxis kv.1 vs result))
    (if axes.isEmpty then ([] : List Row) else [[]])

/-- Include matching (lines 366-371): `found` stays non-nil exactly when
every key of the row is present in the include entry with an equal value. -/
def rowMatchesInclude (entry inc : Row) : Bool :=
  entry.all (fun kv =>
    match alookup kv.1 inc with
    | some got => Yaml.beq got kv.2
    | none => false)

/-- Merging an include entry into a row (lines 374-376): every include pair
is written into the row, include values winning on conflict. -/
def mergeRow (inc row : Row) : Row :=
  inc.foldl (fun acc kv => aupsert kv.1 kv.2 acc) row

/-- First-match patching of the working set by one include entry
(lines 365-380): the first row matching the entry is merged in place;
`none` when no row matches. -/
def patchFirst (inc : Row) : List Row → Option (List Row)
  | [] => none
  | entry :: rest =>
    if rowMatchesInclude entry inc then some (mergeRow inc entry :: rest)
    else
      match patchFirst inc rest with
      | some rest₁ => some (entry :: rest₁)
      | none => none

/-- Include processing (lines 362-384): each entry patches the first matching
row of the working set; entries matching no row are collected in `extend` and
appended only after the last entry has been processed. -/
def processIncludes (result : List Row) (includes : List Row) : List Row :=
  let p := includes.foldl
    (fun st inc =>
      match patchFirst inc st.1 with
      | some r => (r, st.2)
      | none => (st.1, st.2 ++ [inc]))
    (result, ([] : List Row))
  p.1 ++ p.2

/-- Exclude matching (lines 389-394): the row is removed when every key of
the exclude entry is present in the row with an equal value. -/
def rowMatchesExclude (exc entry : Row) : Bool :=
  exc.all (fun kv =>
    match alookup kv.1 entry with
    | some got => Yaml.beq got kv.2
    | none => false)

/-- One exclude entry (lines 386-405): the indices of all matching rows are
collected in ascending order, sorted descending (here: reversed, as they are
already ascending), and removed one by one. -/
def processExclude (result : List Row) (exc : Row) : List Row :=
  let omitted := (result.enum.filter (fun q => rowMatchesExclude exc q.2)).map Prod.fst
  omitted.reverse.foldl (fun acc i => acc.eraseIdx i) result

/-- All exclude entries, in list order (lines 386-405). -/
def processExcludes (result : List Row) (excludes : List Row) : List Row :=
  excludes.foldl processExclude result

/-- Extraction of the `include`/`exclude` key (lines 296-331): when present,
the key must map to a sequence of mappings, which is removed from the raw
map. -/
def extractRows (k : String) (raw : List (String × Yaml)) :
    Except String (List Row × List (String × Yaml)) :=
  match alookup k raw with
  | none => .ok ([], raw)
  | some (.seq tmp) => do
    let rows ← tmp.mapM (fun e =>
      match e with
      | .map m => Except.ok (m : Row)
      | _ => Except.error ("invalid matrix." ++ k ++ " entry"))
    .ok (rows, aerase k raw)
  | some _ => .error ("invalid matrix." ++ k)

/-- Go `Matrix.UnmarshalYAML` from `src/workflow.go` lines 287-410, with the
axes iterated in the mapping's pair order. -/
def matrixUnmarshal (n : Yaml) : Except String (List Row) :=
  match n with
  | .map raw => do
    let (incl, raw₁) ← extractRows "include" raw
    let (excl, raw₂) ← extractRows "exclude" raw₁
    let result ← expandAxes raw₂
    .ok (processExcludes (processIncludes result incl) excl)
  | _ => .error "invalid matrix"

/-! ### Specification-side definitions for the include step (claim C2)

These follow the wording of the amended claim, not the Go code: the first
matching row is located by an index search and replaced, and an entry
matching no row is kept aside and appended after all entries are
processed. -/

/-- Match predicate of the amended claim C2: every key/value pair of the row
is present, with an equal value, in the include entry. -/
def amendedRowMatch (row inc : Row) : Bool :=
  decide (∀ kv ∈ row, alookup kv.1 inc = some kv.2)

/-- One include entry under the amended claim: the first matching row (found
by index search) is replaced by the merged row; the flag reports whether some
row matched. -/
def amendedPatch (ws : List Row) (inc : Row) : List Row × Bool :=
  match ws.findIdx? (fun row => amendedRowMatch row inc) with
  | some i => (ws.set i (mergeRow inc (ws.getD i [])), true)
  | none => (ws, false)

/-- Include processing as worded by the amended claim C2. -/
def amendedIncludes (ws includes : List Row) : List Row :=
  let p := includes.foldl
    (fun st inc =>
      let r := amendedPatch st.1 inc
      if r.2 then (r.1, st.2) else (st.1, st.2 ++ [inc]))
    (ws, ([] : List Row))
  p.1 ++ p.2

/-- Replacement of a bare string-scalar axis value by its one-element list
(claim C9). -/
def wrapBareStr (kv : String × Yaml) : String × Yaml :=
  match kv.2 with
  | .str s c => (kv.1, .seq [.str s c])
  | _ => kv

/-! ## Permissions codec

Source: `Permissions`, `Permissions.UnmarshalYAML` and
`Permissions.MarshalYAML` in `src/unnamed/part_007` lines 108-282 (the
unmarshaler is identical to the one in the current `src/workflow.go`
lines 148-257; the marshaler is identical to `src/unnamed/part_009`
lines 153-216).
-/

/-- Model of the `permissions:` object: 14 named scopes. -/
structure Permissions where
  Actions : String
  Attestations : String
  Checks : String
  Contents : String
  Deployments : String
  Discussions : String
  IdToken : String
  Issues : String
  Models : String
  Packages : String
  Pages : String
  PullRequests : String
  SecurityEvents : String
  Statuses : String
deriving DecidableEq, Repr, Inhabited

/-- Go closure `all` of `Permissions.UnmarshalYAML`: every scope set to
`s`. -/
def Permissions.allScopes (s : String) : Permissions :=
  ⟨s, s, s, s, s, s, s, s, s, s, s, s, s, s⟩

/-- Go closure `all` of `Permissions.MarshalYAML`: every scope equals `s`. -/
def permsAll (p : Permissions) (s : String) : Bool :=
  p.Actions == s && p.Attestations == s && p.Checks == s && p.Contents == s
    && p.Deployments == s && p.Discussions == s && p.IdToken == s && p.Issues == s
    && p.Models == s && p.Packages == s && p.Pages == s && p.PullRequests == s
    && p.SecurityEvents == s && p.Statuses == s

/-- Decoding a YAML mapping into a Go `map[string]string`: every value must
be a string scalar. -/
def decodeStrMap : Yaml → Except String (List (String × String))
  | .map pairs => pairs.mapM (fun kv =>
      match kv.2 with
      | .str s _ => Except.ok (kv.1, s)
      | _ => Except.error "cannot unmarshal into a string map")
  | _ => .error "cannot unmarshal into a string map"

/-- One scope of the mapping branch of `Permissions.UnmarshalYAML`: after
`all("none")`, a scope present in the decoded map overwrites the default.
(The triplicated `issues`/`models` lookups in the source are idempotent
re-assignments of the same values and collapse to a single lookup.) -/
def applyScope (perms : List (String × String)) (k : String) : String :=
  match alookup k perms with
  | some v => v
  | none => "none"

/-- Go `Permissions.UnmarshalYAML`: the scalars `read-all`/`write-all` fan
out to all scopes, every other scalar is an error; a mapping decodes as a
string map whose listed scopes overwrite the default `"none"`. -/
def permsUnmarshal : Yaml → Except String Permissions
  | .str v _ =>
    if v = "read-all" then .ok (Permissions.allScopes "read")
    else if v = "write-all" then .ok (Permissions.allScopes "write")
    else .error ("invalid permissions value " ++ v)
  | .map pairs => do
    let perms ← decodeStrMap (.map pairs)
    .ok ⟨applyScope perms "actions", applyScope perms "attestations",
         applyScope perms "checks", applyScope perms "contents",
         applyScope perms "deployments", applyScope perms "discussions",
         applyScope perms "id-token", applyScope perms "issues",
         applyScope perms "models", applyScope perms "packages",
         applyScope perms "pages", applyScope perms "pull-requests",
         applyScope perms "security-events", applyScope perms "statuses"⟩
  | _ => .error "invalid permissions"

/-- One scope of the mapping branch of `Permissions.MarshalYAML`: emitted
exactly when the value differs from `"none"`. -/
def optScope (k v : String) : List (String × Yaml) :=
  if v ≠ "none" then [(k, .str v "")] else []

/-- The mapping emitted by the default branch of `Permissions.MarshalYAML`,
with the Go map's unspecified emission order fixed to field declaration
order. -/
def permPairs (p : Permissions) : List (String × Yaml) :=
  optScope "actions" p.Actions ++ optScope "attestations" p.Attestations
    ++ optScope "checks" p.Checks ++ optScope "contents" p.Contents
    ++ optScope "deployments" p.Deployments ++ optScope "discussions" p.Discussions
    ++ optScope "id-token" p.IdToken ++ optScope "issues" p.Issues
    ++ optScope "models" p.Models ++ optScope "packages" p.Packages
    ++ optScope "pages" p.Pages ++ optScope "pull-requests" p.PullRequests
    ++ optScope "security-events" p.SecurityEvents ++ optScope "statuses" p.Statuses

/-- Go `Permissions.MarshalYAML`: the uniform all-`read` / all-`write`
values collapse to a scalar shorthand; everything else becomes the mapping
of non-`none` scopes. -/
def permsMarshal (p : Permissions) : Yaml :=
  if permsAll p "read" then .str "read-all" ""
  else if permsAll p "write" then .str "write-all" ""
  else .map (permPairs p)

/-- The 14 scope names paired with their field accessors, in declaration
order. -/
def scopeGetters : List (String × (Permissions → String)) :=
  [("actions", Permissions.Actions), ("attestations", Permissions.Attestations),
   ("checks", Permissions.Checks), ("contents", Permissions.Contents),
   ("deployments", Permissions.Deployments), ("discussions", Permissions.Discussions),
   ("id-token", Permissions.IdToken), ("issues", Permissions.Issues),
   ("models", Permissions.Models), ("packages", Permissions.Packages),
   ("pages", Permissions.Pages), ("pull-requests", Permissions.PullRequests),
   ("security-events", Permissions.SecurityEvents), ("statuses", Permissions.Statuses)]

/-! ## Document model and tag-driven codec (round-trip generation)

Source of the model types with custom marshalers: `src/unnamed/part_003`
(`Step`, `Uses`) and `src/unnamed/part_007` (`Workflow`, `Job`,
`Concurrency`, `Defaults`, `DefaultsRun`, `Environment`, `Permissions`,
`Service`, `ServiceCredentials`, `Strategy`, `Matrix`), plus
`src/manifest.go` (`Manifest`, `Branding`, `Input`, `Output`, `Runs`).
Types without custom `MarshalYAML`/`UnmarshalYAML` methods use the YAML
library's tag-driven struct codec: encoding emits the fields in declaration
order, skipping a field tagged `omitempty` whose value is the zero value;
decoding reads each field's key from the mapping (a missing key leaves the
zero value), since YAML mapping keys are unique.  Go map-typed fields are
association lists, emitted in list order.
-/

/-- Field of a struct without `omitempty`: always emitted. -/
def reqField (k : String) (y : Yaml) : List (String × Yaml) := [(k, y)]

/-- Field of a struct with `omitempty`: emitted under `present` (the value
differs from its zero value). -/
def optField (k : String) (y : Yaml) (present : Prop) [Decidable present] :
    List (String × Yaml) :=
  if present then [(k, y)] else []

/-- Decoding one field of a struct from its mapping: a missing key leaves the
zero value `z`. -/
def fieldD {α : Type} (o : Option Yaml) (z : α) (d : Yaml → Except String α) :
    Except String α :=
  match o with
  | none => .ok z
  | some y => d y

/-- Scalar string codec. -/
def encStr (s : String) : Yaml := .str s ""

/-- Decoding a string field. -/
def decStr : Yaml → Except String String
  | .str s _ => .ok s
  | _ => .error "cannot unmarshal into a string"

/-- Decoding a boolean field. -/
def decBool : Yaml → Except String Bool
  | .bool b => .ok b
  | _ => .error "cannot unmarshal into a bool"

/-- Decoding an integer field. -/
def decInt : Yaml → Except String Int
  | .int i => .ok i
  | _ => .error "cannot unmarshal into an int"

/-- Encoding a Go `map[string]string`. -/
def encStrMap (l : List (String × String)) : Yaml :=
  .map (l.map (fun kv => (kv.1, Yaml.str kv.2 "")))

/-- Encoding a Go `[]string`. -/
def encStrList (l : List String) : Yaml := .seq (l.map (fun s => Yaml.str s ""))

/-- Decoding a Go `[]string`. -/
def decStrList : Yaml → Except String (List String)
  | .seq ys => ys.mapM decStr
  | _ => .error "cannot unmarshal into a string list"

/-- Encoding a Go `[]int`. -/
def encIntList (l : List Int) : Yaml := .seq (l.map Yaml.int)

/-- Decoding a Go `[]int`. -/
def decIntList : Yaml → Except String (List Int)
  | .seq ys => ys.mapM decInt
  | _ => .error "cannot unmarshal into an int list"

/-- Encoding a Go map with an element encoder. -/
def encPairsM (enc : α → Except String Yaml) (l : List (String × α)) :
    Except String (List (String × Yaml)) :=
  l.mapM (fun kv => do
    let y ← enc kv.2
    pure (kv.1, y))

/-- Decoding a Go map with an element decoder. -/
def decPairs (dec : Yaml → Except String α) : Yaml → Except String (List (String × α))
  | .map pairs => pairs.mapM (fun kv => do
      let v ← dec kv.2
      pure (kv.1, v))
  | _ => .error "cannot unmarshal into a map"

/-- Model of the `environment:` object (part_007 lines 66-69). -/
structure Environment where
  Name : String
  Url : String
deriving DecidableEq, Repr, Inhabited

/-- Go `Environment.UnmarshalYAML` (part_007 lines 71-90): a scalar is the
name; a mapping contributes `name` and `url`.  The source discards the error
of decoding the mapping into `map[string]string`, leaving the fields unset in
that case, which is modelled by using an empty map on a failed decode. -/
def environmentUnmarshal : Yaml → Except String Environment
  | .str v _ => .ok ⟨v, ""⟩
  | .map pairs =>
    let env := match decodeStrMap (.map pairs) with
      | .ok l => l
      | .error _ => []
    .ok ⟨(alookup "name" env).getD "", (alookup "url" env).getD ""⟩
  | _ => .error "invalid environment"

/-- Go `Environment.MarshalYAML` (part_007 lines 92-106): an empty url
collapses to the bare name scalar, otherwise a `name`/`url` mapping is
emitted (the YAML library sorts map keys on encode; `name` precedes
`url`). -/
def environmentMarshal (e : Environment) : Yaml :=
  if e.Url = "" then .str e.Name ""
  else .map [("name", .str e.Name ""), ("url", .str e.Url "")]

/-- Model of the `concurrency:` object of this generation (part_007
lines 49-52): no custom codec, plain tag-driven fields. -/
structure Concurrency where
  CancelInProgress : Bool
  Group : String
deriving DecidableEq, Repr, Inhabited

/-- Tag-driven encode of `Concurrency` (fields `cancel-in-progress` and
`group`, both `omitempty`). -/
def concurrencyMarshal (c : Concurrency) : Yaml :=
  .map (optField "cancel-in-progress" (.bool c.CancelInProgress) (c.CancelInProgress ≠ false)
    ++ optField "group" (encStr c.Group) (c.Group ≠ ""))

/-- Tag-driven decode of `Concurrency`. -/
def concurrencyUnmarshal : Yaml → Except String Concurrency
  | .map pairs => do
    let cip ← fieldD (alookup "cancel-in-progress" pairs) false decBool
    let grp ← fieldD (alookup "group" pairs) "" decStr
    .ok ⟨cip, grp⟩
  | _ => .error "cannot unmarshal into Concurrency"

/-- Model of the `defaults.run:` object (part_007 lines 59-63). -/
structure DefaultsRun where
  Shell : String
  WorkingDirectory : String
deriving DecidableEq, Repr, Inhabited

/-- Tag-driven encode of `DefaultsRun` (`shell`, `working-directory`, both
`omitempty`). -/
def defaultsRunMarshal (d : DefaultsRun) : Yaml :=
  .map (optField "shell" (encStr d.Shell) (d.Shell ≠ "")
    ++ optField "working-directory" (encStr d.WorkingDirectory) (d.WorkingDirectory ≠ ""))

/-- Tag-driven decode of `DefaultsRun`. -/
def defaultsRunUnmarshal : Yaml → Except String DefaultsRun
  | .map pairs => do
    let sh ← fieldD (alookup "shell" pairs) "" decStr
    let wd ← fieldD (alookup "working-directory" pairs) "" decStr
    .ok ⟨sh, wd⟩
  | _ => .error "cannot unmarshal into DefaultsRun"

/-- Model of the `defaults:` object (part_007 lines 55-57). -/
structure Defaults where
  Run : DefaultsRun
deriving DecidableEq, Repr, Inhabited

/-- Tag-driven encode of `Defaults` (`run`, `omitempty`). -/
def defaultsMarshal (d : Defaults) : Yaml :=
  .map (optField "run" (defaultsRunMarshal d.Run) (d.Run ≠ ⟨"", ""⟩))

/-- Tag-driven decode of `Defaults`. -/
def defaultsUnmarshal : Yaml → Except String Defaults
  | .map pairs => do
    let r ← fieldD (alookup "run" pairs) ⟨"", ""⟩ defaultsRunUnmarshal
    .ok ⟨r⟩
  | _ => .error "cannot unmarshal into Defaults"

/-- Model of the unexpanded `strategy.matrix:` object (part_007
lines 308-312): axes plus the extracted `include`/`exclude` lists. -/
structure Matrix where
  Matrix : List (String × Yaml)
  Include : List Row
  Exclude : List Row
deriving DecidableEq, Repr, Inhabited

/-- Go `Matrix.UnmarshalYAML` of part_007 (lines 314-365): the node must be
a mapping; `include` and `exclude` must be sequences of mappings and are
removed from the axes. -/
def matrixStructUnmarshal : Yaml → Except String Matrix
  | .map raw => do
    let (incl, raw₁) ← extractRows "include" raw
    let (excl, raw₂) ← extractRows "exclude" raw₁
    .ok ⟨raw₂, incl, excl⟩
  | _ => .error "invalid matrix"

/-- Go `Matrix.MarshalYAML` of part_007 (lines 367-383): the axes map is
copied and the non-empty `include`/`exclude` lists are written back under
their keys (Go map assignment, hence `aupsert`). -/
def matrixStructMarshal (m : Matrix) : Yaml :=
  let l₁ := m.Matrix
  let l₂ := if m.Include.isEmpty then l₁
    else aupsert "include" (.seq (m.Include.map Yaml.map)) l₁
  let l₃ := if m.Exclude.isEmpty then l₂
    else aupsert "exclude" (.seq (m.Exclude.map Yaml.map)) l₂
  .map l₃

/-- Model of the `strategy:` object (part_007 lines 301-305). -/
structure Strategy where
  Matrix : Matrix
  FailFast : Bool
  MaxParallel : Int
deriving DecidableEq, Repr, Inhabited

/-- Tag-driven encode of `Strategy` (`matrix`, `fail-fast`, `max-parallel`,
all `omitempty`; the `Matrix` field uses its custom marshaler). -/
def strategyMarshal (s : Strategy) : Yaml :=
  .map (optField "matrix" (matrixStructMarshal s.Matrix) (s.Matrix ≠ ⟨[], [], []⟩)
    ++ optField "fail-fast" (.bool s.FailFast) (s.FailFast ≠ false)
    ++ optField "max-parallel" (.int s.MaxParallel) (s.MaxParallel ≠ 0))

/-- Tag-driven decode of `Strategy`. -/
def strategyUnmarshal : Yaml → Except String Strategy
  | .map pairs => do
    let m ← fieldD (alookup "matrix" pairs) ⟨[], [], []⟩ matrixStructUnmarshal
    let ff ← fieldD (alookup "fail-fast" pairs) false decBool
    let mp ← fieldD (alookup "max-parallel" pairs) 0 decInt
    .ok ⟨m, ff, mp⟩
  | _ => .error "cannot unmarshal into Strategy"

/-- Model of the `services.credentials:` object (part_007 lines 295-298). -/
structure ServiceCredentials where
  Username : String
  Password : String
deriving DecidableEq, Repr, Inhabited

/-- Tag-driven encode of `ServiceCredentials` (`username`, `password`, no
`omitempty`). -/
def serviceCredentialsMarshal (c : ServiceCredentials) : Yaml :=
  .map (reqField "username" (encStr c.Username) ++ reqField "password" (encStr c.Password))

/-- Tag-driven decode of `ServiceCredentials`. -/
def serviceCredentialsUnmarshal : Yaml → Except String ServiceCredentials
  | .map pairs => do
    let u ← fieldD (alookup "username" pairs) "" decStr
    let p ← fieldD (alookup "password" pairs) "" decStr
    .ok ⟨u, p⟩
  | _ => .error "cannot unmarshal into ServiceCredentials"

/-- Model of the `services:` object entries (part_007 lines 285-292, with
`Ports []int` in this generation). -/
structure Service where
  Image : String
  Credentials : ServiceCredentials
  Env : List (String × String)
  Ports : List Int
  Volumes : List String
  Options : String
deriving DecidableEq, Repr, Inhabited

/-- Tag-driven encode of `Service` (`image` mandatory, the rest
`omitempty`). -/
def serviceMarshal (s : Service) : Yaml :=
  .map (reqField "image" (encStr s.Image)
    ++ optField "credentials" (serviceCredentialsMarshal s.Credentials)
        (s.Credentials ≠ ⟨"", ""⟩)
    ++ optField "env" (encStrMap s.Env) (s.Env ≠ [])
    ++ optField "ports" (encIntList s.Ports) (s.Ports ≠ [])
    ++ optField "volumes" (encStrList s.Volumes) (s.Volumes ≠ [])
    ++ optField "options" (encStr s.Options) (s.Options ≠ ""))

/-- Tag-driven decode of `Service`. -/
def serviceUnmarshal : Yaml → Except String Service
  | .map pairs => do
    let im ← fieldD (alookup "image" pairs) "" decStr
    let cr ← fieldD (alookup "credentials" pairs) ⟨"", ""⟩ serviceCredentialsUnmarshal
    let ev ← fieldD (alookup "env" pairs) [] decodeStrMap
    let po ← fieldD (alookup "ports" pairs) [] decIntList
    let vo ← fieldD (alookup "volumes" pairs) [] decStrList
    let op ← fieldD (alookup "options" pairs) "" decStr
    .ok ⟨im, cr, ev, po, vo, op⟩
  | _ => .error "cannot unmarshal into Service"

/-- Model of a step of this generation (part_003 lines 14-22: `With`, `Env`,
`Name`, `Run`, `Shell`, `Uses`, none tagged `omitempty`). -/
structure Step where
  With : List (String × String)
  Env : List (String × String)
  Name : String
  Run : String
  Shell : String
  Uses : Uses
deriving DecidableEq, Repr, Inhabited

/-- Tag-driven encode of `Step`: every field emitted, the `uses` node coming
from the custom `Uses.MarshalYAML`. -/
def stepMarshal (s : Step) : Except String Yaml := do
  let uy ← usesMarshal s.Uses
  .ok (.map (reqField "with" (encStrMap s.With) ++ reqField "env" (encStrMap s.Env)
    ++ reqField "name" (encStr s.Name) ++ reqField "run" (encStr s.Run)
    ++ reqField "shell" (encStr s.Shell) ++ reqField "uses" uy))

/-- Tag-driven decode of `Step`, the `uses` node going through the custom
`Uses.UnmarshalYAML`. -/
def stepUnmarshal : Yaml → Except String Step
  | .map pairs => do
    let w ← fieldD (alookup "with" pairs) [] decodeStrMap
    let e ← fieldD (alookup "env" pairs) [] decodeStrMap
    let n ← fieldD (alookup "name" pairs) "" decStr
    let r ← fieldD (alookup "run" pairs) "" decStr
    let sh ← fieldD (alookup "shell" pairs) "" decStr
    let u ← fieldD (alookup "uses" pairs) ⟨"", "", ""⟩ usesUnmarshalY
    .ok ⟨w, e, n, r, sh, u⟩
  | _ => .error "cannot unmarshal into Step"

/-- Encoding a `[]Step`. -/
def encSteps (l : List Step) : Except String Yaml := do
  let ys ← l.mapM stepMarshal
  pure (.seq ys)

/-- Decoding a `[]Step`. -/
def decSteps : Yaml → Except String (List Step)
  | .seq ys => ys.mapM stepUnmarshal
  | _ => .error "cannot unmarshal into a step list"

/-- Model of a workflow job of this generation (part_007 lines 23-46): every
field tagged `omitempty`, `Needs` a plain `[]string`. -/
structure Job where
  Name : String
  Environment : Environment
  ContinueOnError : Bool
  TimeoutMinutes : Int
  If : String
  Needs : List String
  Concurrency : Concurrency
  Defaults : Defaults
  Strategy : Strategy
  Services : List (String × Service)
  Outputs : List (String × String)
  Permissions : Permissions
  Env : List (String × String)
  Steps : List Step
  Uses : String
  With : List (String × String)
deriving DecidableEq, Repr, Inhabited

/-- Tag-driven encode of `Job` in field declaration order, using the custom
marshalers for `environment`, `strategy.matrix` and `permissions`. -/
def jobMarshal (j : Job) : Except String Yaml := do
  let stepsY ← encSteps j.Steps
  let servicesY := j.Services.map (fun kv => (kv.1, serviceMarshal kv.2))
  .ok (.map (optField "name" (encStr j.Name) (j.Name ≠ "")
    ++ optField "environment" (environmentMarshal j.Environment) (j.Environment ≠ ⟨"", ""⟩)
    ++ optField "continue-on-error" (.bool j.ContinueOnError) (j.ContinueOnError ≠ false)
    ++ optField "timeout-minutes" (.int j.TimeoutMinutes) (j.TimeoutMinutes ≠ 0)
    ++ optField "if" (encStr j.If) (j.If ≠ "")
    ++ optField "needs" (encStrList j.Needs) (j.Needs ≠ [])
    ++ optField "concurrency" (concurrencyMarshal j.Concurrency) (j.Concurrency ≠ ⟨false, ""⟩)
    ++ optField "defaults" (defaultsMarshal j.Defaults) (j.Defaults ≠ ⟨⟨"", ""⟩⟩)
    ++ optField "strategy" (strategyMarshal j.Strategy) (j.Strategy ≠ ⟨⟨[], [], []⟩, false, 0⟩)
    ++ optField "services" (.map servicesY) (j.Services ≠ [])
    ++ optField "outputs" (encStrMap j.Outputs) (j.Outputs ≠ [])
    ++ optField "permissions" (permsMarshal j.Permissions)
        (j.Permissions ≠ Permissions.allScopes "")
    ++ optField "env" (encStrMap j.Env) (j.Env ≠ [])
    ++ optField "steps" stepsY (j.Steps ≠ [])
    ++ optField "uses" (encStr j.Uses) (j.Uses ≠ "")
    ++ optField "with" (encStrMap j.With) (j.With ≠ [])))

/-- Tag-driven decode of `Job`. -/
def jobUnmarshal : Yaml → Except String Job
  | .map pairs => do
    let nm ← fieldD (alookup "name" pairs) "" decStr
    let ev ← fieldD (alookup "environment" pairs) ⟨"", ""⟩ environmentUnmarshal
    let ce ← fieldD (alookup "continue-on-error" pairs) false decBool
    let tm ← fieldD (alookup "timeout-minutes" pairs) 0 decInt
    let cif ← fieldD (alookup "if" pairs) "" decStr
    let nd ← fieldD (alookup "needs" pairs) [] decStrList
    let cc ← fieldD (alookup "concurrency" pairs) ⟨false, ""⟩ concurrencyUnmarshal
    let df ← fieldD (alookup "defaults" pairs) ⟨⟨"", ""⟩⟩ defaultsUnmarshal
    let st ← fieldD (alookup "strategy" pairs) ⟨⟨[], [], []⟩, false, 0⟩ strategyUnmarshal
    let sv ← fieldD (alookup "services" pairs) [] (decPairs serviceUnmarshal)
    let ou ← fieldD (alookup "outputs" pairs) [] decodeStrMap
    let pm ← fieldD (alookup "permissions" pairs) (Permissions.allScopes "") permsUnmarshal
    let en ← fieldD (alookup "env" pairs) [] decodeStrMap
    let sp ← fieldD (alookup "steps" pairs) [] decSteps
    let us ← fieldD (alookup "uses" pairs) "" decStr
    let wi ← fieldD (alookup "with" pairs) [] decodeStrMap
    .ok ⟨nm, ev, ce, tm, cif, nd, cc, df, st, sv, ou, pm, en, sp, us, wi⟩
  | _ => .error "cannot unmarshal into Job"

/-- Model of a workflow of this generation (part_007 lines 12-20): every
field `omitempty` except `jobs`. -/
structure Workflow where
  Name : String
  RunName : String
  Permissions : Permissions
  Concurrency : Concurrency
  Defaults : Defaults
  Env : List (String × String)
  Jobs : List (String × Job)
deriving DecidableEq, Repr, Inhabited

/-- Tag-driven encode of `Workflow`. -/
def workflowMarshal (w : Workflow) : Except String Yaml := do
  let jobsY ← encPairsM jobMarshal w.Jobs
  .ok (.map (optField "name" (encStr w.Name) (w.Name ≠ "")
    ++ optField "run-name" (encStr w.RunName) (w.RunName ≠ "")
    ++ optField "permissions" (permsMarshal w.Permissions)
        (w.Permissions ≠ Permissions.allScopes "")
    ++ optField "concurrency" (concurrencyMarshal w.Concurrency) (w.Concurrency ≠ ⟨false, ""⟩)
    ++ optField "defaults" (defaultsMarshal w.Defaults) (w.Defaults ≠ ⟨⟨"", ""⟩⟩)
    ++ optField "env" (encStrMap w.Env) (w.Env ≠ [])
    ++ reqField "jobs" (.map jobsY)))

/-- Tag-driven decode of `Workflow`. -/
def workflowUnmarshal : Yaml → Except String Workflow
  | .map pairs => do
    let nm ← fieldD (alookup "name" pairs) "" decStr
    let rn ← fieldD (alookup "run-name" pairs) "" decStr
    let pm ← fieldD (alookup "permissions" pairs) (Permissions.allScopes "") permsUnmarshal
    let cc ← fieldD (alookup "concurrency" pairs) ⟨false, ""⟩ concurrencyUnmarshal
    let df ← fieldD (alookup "defaults" pairs) ⟨⟨"", ""⟩⟩ defaultsUnmarshal
    let en ← fieldD (alookup "env" pairs) [] decodeStrMap
    let jb ← fieldD (alookup "jobs" pairs) [] (decPairs jobUnmarshal)
    .ok ⟨nm, rn, pm, cc, df, en, jb⟩
  | _ => .error "cannot unmarshal into Workflow"

/-- Model of an action manifest `branding:` object (src/manifest.go
lines 25-28). -/
structure Branding where
  Color : String
  Icon : String
deriving DecidableEq, Repr, Inhabited

/-- Tag-driven encode of `Branding` (`color`, `icon`, no `omitempty`). -/
def brandingMarshal (b : Branding) : Yaml :=
  .map (reqField "color" (encStr b.Color) ++ reqField "icon" (encStr b.Icon))

/-- Tag-driven decode of `Branding`. -/
def brandingUnmarshal : Yaml → Except String Branding
  | .map pairs => do
    let c ← fieldD (alookup "color" pairs) "" decStr
    let i ← fieldD (alookup "icon" pairs) "" decStr
    .ok ⟨c, i⟩
  | _ => .error "cannot unmarshal into Branding"

/-- Model of a manifest input (src/manifest.go lines 31-36). -/
structure Input where
  Description : String
  Default : String
  Required : Bool
  DeprecationMessage : String
deriving DecidableEq, Repr, Inhabited

/-- Tag-driven encode of `Input` (`description` mandatory; `default`,
`required`, `deprecationMessage` `omitempty`). -/
def inputMarshal (i : Input) : Yaml :=
  .map (reqField "description" (encStr i.Description)
    ++ optField "default" (encStr i.Default) (i.Default ≠ "")
    ++ optField "required" (.bool i.Required) (i.Required ≠ false)
    ++ optField "deprecationMessage" (encStr i.DeprecationMessage)
        (i.DeprecationMessage ≠ ""))

/-- Tag-driven decode of `Input`. -/
def inputUnmarshal : Yaml → Except String Input
  | .map pairs => do
    let d ← fieldD (alookup "description" pairs) "" decStr
    let df ← fieldD (alookup "default" pairs) "" decStr
    let rq ← fieldD (alookup "required" pairs) false decBool
    let dm ← fieldD (alookup "deprecationMessage" pairs) "" decStr
    .ok ⟨d, df, rq, dm⟩
  | _ => .error "cannot unmarshal into Input"

/-- Model of a manifest output (src/manifest.go lines 39-42). -/
structure Output where
  Description : String
  Value : String
deriving DecidableEq, Repr, Inhabited

/-- Tag-driven encode of `Output` (`description`, `value`, no
`omitempty`). -/
def outputMarshal (o : Output) : Yaml :=
  .map (reqField "description" (encStr o.Description) ++ reqField "value" (encStr o.Value))

/-- Tag-driven decode of `Output`. -/
def outputUnmarshal : Yaml → Except String Output
  | .map pairs => do
    let d ← fieldD (alookup "description" pairs) "" decStr
    let v ← fieldD (alookup "value" pairs) "" decStr
    .ok ⟨d, v⟩
  | _ => .error "cannot unmarshal into Output"

/-- Model of the manifest `runs:` object (src/manifest.go lines 45-68). -/
structure Runs where
  Using : String
  Steps : List Step
  Image : String
  PreEntrypoint : String
  Entrypoint : String
  PostEntrypoint : String
  Args : List String
  Env : List (String × String)
  Pre : String
  PreIf : String
  Main : String
  Post : String
  PostIf : String
deriving DecidableEq, Repr, Inhabited

/-- Tag-driven encode of `Runs` (`using` mandatory, everything else
`omitempty`). -/
def runsMarshal (r : Runs) : Except String Yaml := do
  let stepsY ← encSteps r.Steps
  .ok (.map (reqField "using" (encStr r.Using)
    ++ optField "steps" stepsY (r.Steps ≠ [])
    ++ optField "image" (encStr r.Image) (r.Image ≠ "")
    ++ optField "pre-entrypoint" (encStr r.PreEntrypoint) (r.PreEntrypoint ≠ "")
    ++ optField "entrypoint" (encStr r.Entrypoint) (r.Entrypoint ≠ "")
    ++ optField "post-entrypoint" (encStr r.PostEntrypoint) (r.PostEntrypoint ≠ "")
    ++ optField "args" (encStrList r.Args) (r.Args ≠ [])
    ++ optField "env" (encStrMap r.Env) (r.Env ≠ [])
    ++ optField "pre" (encStr r.Pre) (r.Pre ≠ "")
    ++ optField "pre-if" (encStr r.PreIf) (r.PreIf ≠ "")
    ++ optField "main" (encStr r.Main) (r.Main ≠ "")
    ++ optField "post" (encStr r.Post) (r.Post ≠ "")
    ++ optField "post-if" (encStr r.PostIf) (r.PostIf ≠ "")))

/-- Tag-driven decode of `Runs`. -/
def runsUnmarshal : Yaml → Except String Runs
  | .map pairs => do
    let us ← fieldD (alookup "using" pairs) "" decStr
    let sp ← fieldD (alookup "steps" pairs) [] decSteps
    let im ← fieldD (alookup "image" pairs) "" decStr
    let pe ← fieldD (alookup "pre-entrypoint" pairs) "" decStr
    let en ← fieldD (alookup "entrypoint" pairs) "" decStr
    let po ← fieldD (alookup "post-entrypoint" pairs) "" decStr
    let ar ← fieldD (alookup "args" pairs) [] decStrList
    let ev ← fieldD (alookup "env" pairs) [] decodeStrMap
    let pr ← fieldD (alookup "pre" pairs) "" decStr
    let pi ← fieldD (alookup "pre-if" pairs) "" decStr
    let mn ← fieldD (alookup "main" pairs) "" decStr
    let ps ← fieldD (alookup "post" pairs) "" decStr
    let pf ← fieldD (alookup "post-if" pairs) "" decStr
    .ok ⟨us, sp, im, pe, en, po, ar, ev, pr, pi, mn, ps, pf⟩
  | _ => .error "cannot unmarshal into Runs"

/-- Model of an action manifest (src/manifest.go lines 12-22). -/
structure Manifest where
  Name : String
  Author : String
  Description : String
  Branding : Branding
  Inputs : List (String × Input)
  Outputs : List (String × Output)
  Runs : Runs
deriving DecidableEq, Repr, Inhabited

/-- The zero `Runs` value. -/
def Runs.zero : Runs := ⟨"", [], "", "", "", "", [], [], "", "", "", "", ""⟩

/-- Tag-driven encode of `Manifest` (`name`, `description`, `runs` mandatory;
`author`, `branding`, `inputs`, `outputs` `omitempty`). -/
def manifestMarshal (m : Manifest) : Except String Yaml := do
  let runsY ← runsMarshal m.Runs
  .ok (.map (reqField "name" (encStr m.Name)
    ++ optField "author" (encStr m.Author) (m.Author ≠ "")
    ++ reqField "description" (encStr m.Description)
    ++ optField "branding" (brandingMarshal m.Branding) (m.Branding ≠ ⟨"", ""⟩)
    ++ optField "inputs" (.map (m.Inputs.map (fun kv => (kv.1, inputMarshal kv.2))))
        (m.Inputs ≠ [])
    ++ optField "outputs" (.map (m.Outputs.map (fun kv => (kv.1, outputMarshal kv.2))))
        (m.Outputs ≠ [])
    ++ reqField "runs" runsY))

/-- Tag-driven decode of `Manifest`. -/
def manifestUnmarshal : Yaml → Except String Manifest
  | .map pairs => do
    let nm ← fieldD (alookup "name" pairs) "" decStr
    let au ← fieldD (alookup "author" pairs) "" decStr
    let de ← fieldD (alookup "description" pairs) "" decStr
    let br ← fieldD (alookup "branding" pairs) ⟨"", ""⟩ brandingUnmarshal
    let inp ← fieldD (alookup "inputs" pairs) [] (decPairs inputUnmarshal)
    let out ← fieldD (alookup "outputs" pairs) [] (decPairs outputUnmarshal)
    let rn ← fieldD (alookup "runs" pairs) Runs.zero runsUnmarshal
    .ok ⟨nm, au, de, br, inp, out, rn⟩
  | _ => .error "cannot unmarshal into Manifest"

/-! ### Validity predicates for the amended round-trip claim -/

/-- Side conditions on a `Uses` under which the scalar shorthand
round-trips: a value with an empty ref must have a non-empty name free of
`'@'` (so the re-split does not fire); a value with a non-empty ref must
have a non-empty name and a ref free of `'@'` (so the re-split cuts at the
separator that encode introduced); and the comment must be unchanged by the
printable filter of encode and the trim of decode. -/
def UsesOk (u : Uses) : Prop :=
  (u.Ref = "" → u.Name ≠ "" ∧ '@' ∉ u.Name.data)
  ∧ (u.Ref ≠ "" → u.Name ≠ "" ∧ '@' ∉ u.Ref.data)
  ∧ trimHashSpace (filterPrintable u.Annot) = u.Annot

instance (u : Uses) : Decidable (UsesOk u) := by
  unfold UsesOk
  infer_instance

/-- A step's `uses` is either the zero value (encoded as the empty scalar,
decoded back to zero) or a valid shorthand. -/
def StepUsesOk (u : Uses) : Prop := u = ⟨"", "", ""⟩ ∨ UsesOk u

instance (u : Uses) : Decidable (StepUsesOk u) := by
  unfold StepUsesOk
  infer_instance

/-- Side condition on a `Matrix` under which its codec round-trips: no axis
may be named `include` or `exclude` (the decoder would extract it). -/
def MatrixOk (m : Matrix) : Prop :=
  alookup "include" m.Matrix = none ∧ alookup "exclude" m.Matrix = none

instance (m : Matrix) : Decidable (MatrixOk m) := by
  unfold MatrixOk
  infer_instance

/-- Validity of a `Job`: its steps' `uses` values and its strategy matrix
are round-trip safe. -/
def JobOk (j : Job) : Prop :=
  (∀ s ∈ j.Steps, StepUsesOk s.Uses) ∧ MatrixOk j.Strategy.Matrix

instance (j : Job) : Decidable (JobOk j) := by
  unfold JobOk
  infer_instance

/-- Validity of a `Workflow`: every job is valid. -/
def WorkflowOk (w : Workflow) : Prop := ∀ kv ∈ w.Jobs, JobOk kv.2

instance (w : Workflow) : Decidable (WorkflowOk w) := by
  unfold WorkflowOk
  infer_instance

/-- Validity of a `Manifest`: every composite step's `uses` is round-trip
safe. -/
def ManifestOk (m : Manifest) : Prop := ∀ s ∈ m.Runs.Steps, StepUsesOk s.Uses

instance (m : Manifest) : Decidable (ManifestOk m) := by
  unfold ManifestOk
  infer_instance

/-- One scope of the mapping branch as a plain string pair. -/
def optStr (k v : String) : List (String × String) :=
  if v ≠ "none" then [(k, v)] else []

/-- The string pairs underlying `permPairs`. -/
def permStrList (p : Permissions) : List (String × String) :=
  optStr "actions" p.Actions ++ optStr "attestations" p.Attestations
    ++ optStr "checks" p.Checks ++ optStr "contents" p.Contents
    ++ optStr "deployments" p.Deployments ++ optStr "discussions" p.Discussions
    ++ optStr "id-token" p.IdToken ++ optStr "issues" p.Issues
    ++ optStr "models" p.Models ++ optStr "packages" p.Packages
    ++ optStr "pages" p.Pages ++ optStr "pull-requests" p.PullRequests
    ++ optStr "security-events" p.SecurityEvents ++ optStr "statuses" p.Statuses

end Gha

namespace Gha

/-! ## Helper lemmas for the `uses:` split -/

theorem lastAtIdx_eq_none {l : List Char} (h : '@' ∉ l) : lastAtIdx l = none := by
  induction l with
  | nil => rfl
  | cons c rest ih =>
    simp only [List.mem_cons, not_or] at h
    simp [lastAtIdx, ih h.2, h.1, Ne.symm h.1]

theorem lastAtIdx_append_at {l₁ l₂ : List Char} (h : '@' ∉ l₂) :
    lastAtIdx (l₁ ++ '@' :: l₂) = some l₁.length := by
  induction l₁ with
  | nil => simp [lastAtIdx, lastAtIdx_eq_none h]
  | cons c rest ih => simp [lastAtIdx, ih]

theorem lastAtIdx_isSome_of_mem {l : List Char} (h : '@' ∈ l) :
    (lastAtIdx l).isSome := by
  induction l with
  | nil => simp at h
  | cons c rest ih =>
    rcases List.mem_cons.mp h with h₁ | h₂
    · cases hr : lastAtIdx rest <;> simp [lastAtIdx, hr, ← h₁]
    · have := ih h₂
      cases hr : lastAtIdx rest <;> simp [lastAtIdx, hr] <;> simp [hr] at this

theorem data_ne_nil {s : String} (h : s ≠ "") : s.data ≠ [] := by
  intro hd
  exact h (by cases s; simp at hd; simp [hd])

/-- Decoding the scalar `name ++ "@" ++ ref` splits back at the separator
whenever the ref is non-empty and free of `'@'` and the name is
non-empty. -/
theorem usesUnmarshalY_split (name ref c : String) (hn : name ≠ "") (hr : ref ≠ "")
    (hra : '@' ∉ ref.data) :
    usesUnmarshalY (.str (name ++ "@" ++ ref) c) = .ok ⟨name, ref, trimHashSpace c⟩ := by
  have hdata : (name ++ "@" ++ ref).data = name.data ++ '@' :: ref.data := by
    simp [String.data_append]
  have hne : (name ++ "@" ++ ref) ≠ "" := by
    intro h
    have h₂ : (name ++ "@" ++ ref).data = [] := by rw [h]
    rw [hdata] at h₂
    simp at h₂
  have hidx : lastAtIdx (name ++ "@" ++ ref).data = some name.data.length := by
    rw [hdata]; exact lastAtIdx_append_at hra
  have hn0 : 0 < name.data.length := List.length_pos.mpr (data_ne_nil hn)
  have hr0 : 0 < ref.data.length := List.length_pos.mpr (data_ne_nil hr)
  have hlen : (name ++ "@" ++ ref).data.length
      = name.data.length + 1 + ref.data.length := by
    rw [hdata]
    simp only [List.length_append, List.length_cons]
    omega
  have hcond : ¬(name.data.length = 0 ∨
      name.data.length = (name ++ "@" ++ ref).data.length - 1) := by
    rw [hlen]; omega
  have htake : (name ++ "@" ++ ref).data.take name.data.length = name.data := by
    rw [hdata]; exact List.take_left name.data _
  have hdrop : (name ++ "@" ++ ref).data.drop (name.data.length + 1) = ref.data := by
    rw [hdata,
      show name.data ++ '@' :: ref.data = (name.data ++ ['@']) ++ ref.data by simp]
    exact List.drop_left' (by simp)
  simp only [usesUnmarshalY, if_neg hne, hidx, if_neg hcond, htake, hdrop]

/-- Decoding a non-empty scalar containing no `'@'` keeps the whole value as
the name. -/
theorem usesUnmarshalY_noAt (v c : String) (hv : v ≠ "") (ha : '@' ∉ v.data) :
    usesUnmarshalY (.str v c) = .ok ⟨v, "", trimHashSpace c⟩ := by
  simp only [usesUnmarshalY, if_neg hv, lastAtIdx_eq_none ha]

/-! ## Claim C5: decoding a `uses:` scalar splits on the last `'@'` -/

/-- Claim C5, amended: for every NON-EMPTY `name` without `'@'` and non-empty
`ref` without `'@'`, decoding `name ++ "@" ++ ref` succeeds with exactly that
name and ref; decoding any scalar whose last `'@'` sits at position 0 or at
the final index is an error; and decoding a non-empty scalar with no `'@'`
yields the whole value as the name with an empty ref.  (The original claim
also allowed `name = ""`, refuted by `uses_split_claim_cex`.) -/
theorem uses_split_amended :
    (∀ (name ref c : String), name ≠ "" → '@' ∉ name.data → ref ≠ "" →
      '@' ∉ ref.data →
      usesUnmarshalY (.str (name ++ "@" ++ ref) c) = .ok ⟨name, ref, trimHashSpace c⟩)
    ∧ (∀ (v c : String),
      lastAtIdx v.data = some 0 ∨ lastAtIdx v.data = some (v.data.length - 1) →
      ∃ e, usesUnmarshalY (.str v c) = .error e)
    ∧ (∀ (v c : String), v ≠ "" → '@' ∉ v.data →
      usesUnmarshalY (.str v c) = .ok ⟨v, "", trimHashSpace c⟩) := by
  refine ⟨?_, ?_, ?_⟩
  · intro name ref c hn hna hr hra
    exact usesUnmarshalY_split name ref c hn hr hra
  · intro v c h
    have hv : v ≠ "" := by
      intro hv
      subst hv
      simp [lastAtIdx] at h
    rcases h with h | h
    · refine ⟨"invalid uses value " ++ v, ?_⟩
      simp only [usesUnmarshalY, if_neg hv, h]
      simp
    · refine ⟨"invalid uses value " ++ v, ?_⟩
      simp only [usesUnmarshalY, if_neg hv, h]
      simp
  · intro v c hv ha
    exact usesUnmarshalY_noAt v c hv ha

/-- Witness for `uses_split_amended` at concrete inputs. -/
theorem uses_split_amended_witness :
    usesUnmarshalY (.str ("actions/checkout" ++ "@" ++ "v3") "") =
      .ok ⟨"actions/checkout", "v3", ""⟩
    ∧ (∃ e, usesUnmarshalY (.str "@x" "") = .error e)
    ∧ usesUnmarshalY (.str "./local" "") = .ok ⟨"./local", "", ""⟩ :=
  ⟨uses_split_amended.1 "actions/checkout" "v3" "" (by decide) (by decide)
      (by decide) (by decide),
   uses_split_amended.2.1 "@x" "" (by decide),
   uses_split_amended.2.2 "./local" "" (by decide) (by decide)⟩

/-- Counterexample to claim C5 as stated: with the empty `name` (which
contains no `'@'`) and the non-empty ref `"r"`, decoding `"" ++ "@" ++ "r"`
does not succeed with name `""` and ref `"r"`; it is an error, because the
last `'@'` of `"@r"` is at position 0. -/
theorem uses_split_claim_cex :
    ('@' ∉ ("" : String).data) ∧ ("r" : String) ≠ "" ∧ ('@' ∉ ("r" : String).data)
    ∧ usesUnmarshalY (.str ("" ++ "@" ++ "r") "") ≠ .ok ⟨"", "r", ""⟩
    ∧ usesUnmarshalY (.str ("" ++ "@" ++ "r") "") = .error "invalid uses value @r" := by
  refine ⟨by decide, by decide, by decide, ?_, by rfl⟩
  intro hok
  rw [show usesUnmarshalY (.str ("" ++ "@" ++ "r") "") =
      .error "invalid uses value @r" from rfl] at hok
  exact Except.noConfusion hok

/-! ## Claim C6: encoding with empty ref and non-empty name emits the name -/

/-- Claim C6: `Uses.MarshalYAML` on a value with non-empty name and empty ref
succeeds, emitting the name alone (no `'@'`, no ref) with the
printable-filtered comment. -/
theorem uses_encode_ref_empty (u : Uses) (h₁ : u.Name ≠ "") (h₂ : u.Ref = "") :
    usesMarshal u = .ok (.str u.Name (filterPrintable u.Annot)) := by
  simp [usesMarshal, h₁, h₂]

/-- Witness for `uses_encode_ref_empty`. -/
theorem uses_encode_ref_empty_witness :
    usesMarshal ⟨"actions/checkout", "", "note"⟩ = .ok (.str "actions/checkout" "note") :=
  uses_encode_ref_empty ⟨"actions/checkout", "", "note"⟩ (by decide) rfl

/-! ## Claim C7: encode errors exactly on a ref without a name -/

/-- Claim C7: encoding a `Uses` with empty name and non-empty ref is an
error, and encoding any `Uses` satisfying the model invariant (a non-empty
ref implies a non-empty name) succeeds. -/
theorem uses_encode_total (u : Uses) :
    (u.Name = "" → u.Ref ≠ "" → ∃ e, usesMarshal u = .error e)
    ∧ ((u.Ref ≠ "" → u.Name ≠ "") → ∃ y, usesMarshal u = .ok y) := by
  constructor
  · intro h₁ h₂
    exact ⟨"missing name value", by simp [usesMarshal, h₁, h₂]⟩
  · intro hinv
    by_cases hn : u.Name = ""
    · by_cases hr : u.Ref = ""
      · exact ⟨.str "" "", by simp [usesMarshal, hn, hr]⟩
      · exact absurd hn (hinv hr)
    · refine ⟨.str (if u.Ref ≠ "" then u.Name ++ "@" ++ u.Ref else u.Name)
        (filterPrintable u.Annot), ?_⟩
      simp [usesMarshal, hn]

/-- Witness for `uses_encode_total`. -/
theorem uses_encode_total_witness :
    (∃ e, usesMarshal ⟨"", "v1", ""⟩ = .error e)
    ∧ (∃ y, usesMarshal ⟨"a", "v1", ""⟩ = .ok y) :=
  ⟨(uses_encode_total ⟨"", "v1", ""⟩).1 rfl (by decide),
   (uses_encode_total ⟨"a", "v1", ""⟩).2 (fun _ => by decide)⟩

/-! ## Claim C10: the empty scalar decodes to the zero `Uses` -/

/-- Claim C10: decoding the empty scalar as a `Uses` succeeds with the zero
value, whatever the line comment, and every decode error of a scalar happens
only for a non-empty scalar value. -/
theorem uses_decode_empty :
    (∀ c, usesUnmarshalY (.str "" c) = .ok ⟨"", "", ""⟩)
    ∧ (∀ v c e, usesUnmarshalY (.str v c) = .error e → v ≠ "") := by
  constructor
  · intro c; rfl
  · intro v c e h hv
    subst hv
    simp [usesUnmarshalY] at h

/-- Witness for `uses_decode_empty`. -/
theorem uses_decode_empty_witness :
    usesUnmarshalY (.str "" "# note") = .ok ⟨"", "", ""⟩ ∧ ("@" : String) ≠ "" :=
  ⟨uses_decode_empty.1 "# note",
   uses_decode_empty.2 "@" "" "invalid uses value @" (by rfl)⟩

/-! ## Matrix include step (claim C2) -/

theorem opt_beq_eq (o : Option Yaml) (v : Yaml) :
    (match o with
      | some got => Yaml.beq got v
      | none => false) = decide (o = some v) := by
  cases o with
  | none => simp
  | some a =>
    cases hb : Yaml.beq a v
    · have hne : a ≠ v := fun h => by
        rw [h] at hb
        rw [(Yaml.beq_iff v v).mpr rfl] at hb
        cases hb
      simp only [Option.some.injEq]
      rw [hb]
      simp [hne]
    · have heq : a = v := (Yaml.beq_iff a v).mp hb
      simp only [Option.some.injEq]
      rw [hb]
      simp [heq]

theorem rowMatch_eq (entry inc : Row) :
    rowMatchesInclude entry inc = amendedRowMatch entry inc := by
  refine Bool.eq_iff_iff.mpr ?_
  simp only [rowMatchesInclude, amendedRowMatch, opt_beq_eq, List.all_eq_true,
    decide_eq_true_eq]

theorem patchFirst_eq (inc : Row) : ∀ ws : List Row,
    patchFirst inc ws
      = match ws.findIdx? (fun row => amendedRowMatch row inc) with
        | some i => some (ws.set i (mergeRow inc (ws.getD i [])))
        | none => none
  | [] => rfl
  | entry :: rest => by
    rw [patchFirst, List.findIdx?_cons, rowMatch_eq]
    cases hm : amendedRowMatch entry inc
    · rw [if_neg (by simp), patchFirst_eq inc rest, List.findIdx?_succ]
      cases hf : rest.findIdx? (fun row => amendedRowMatch row inc) with
      | none => simp
      | some i => simp
    · rw [if_pos rfl]
      simp

theorem foldl_include_step_eq : ∀ (includes : List Row) (st : List Row × List Row),
    includes.foldl
      (fun st inc =>
        match patchFirst inc st.1 with
        | some r => (r, st.2)
        | none => (st.1, st.2 ++ [inc])) st
    = includes.foldl
      (fun st inc =>
        let r := amendedPatch st.1 inc
        if r.2 then (r.1, st.2) else (st.1, st.2 ++ [inc])) st
  | [], _ => rfl
  | inc :: includes, st => by
    rw [List.foldl_cons, List.foldl_cons]
    have hstep : (match patchFirst inc st.1 with
        | some r => (r, st.2)
        | none => (st.1, st.2 ++ [inc]))
        = (let r := amendedPatch st.1 inc
           if r.2 then (r.1, st.2) else (st.1, st.2 ++ [inc])) := by
      rw [patchFirst_eq]
      unfold amendedPatch
      cases hf : st.1.findIdx? (fun row => amendedRowMatch row inc) <;> simp
    rw [hstep]
    exact foldl_include_step_eq includes _

/-- Claim C2, amended: an include entry matches a row exactly when EVERY KEY
OF THE ROW is present in the include entry with an equal value (keys present
only in the include entry are ignored; a key present in the row but absent
from the include entry prevents the match).  The entry is merged into the
first matching row only (include values winning); an entry matching no row is
kept aside and appended to the working set only AFTER all include entries
have been processed, so it is not a match candidate for later entries.
Stated as: the Go include step equals the search-and-replace formulation of
that wording. -/
theorem matrix_includes_amended (ws includes : List Row) :
    processIncludes ws includes = amendedIncludes ws includes := by
  unfold processIncludes amendedIncludes
  rw [foldl_include_step_eq]

/-- Counterexample to claim C2 as stated.  First divergence: with working set
`[{a: 1}]` and include entry `{b: 2}`, the keys present in both are none, so
the claim predicts a (vacuous) subset match and an in-place merge yielding
`[{a: 1, b: 2}]`; the code instead finds no match (the row key `a` is absent
from the entry) and appends the entry.  Second divergence: with an empty
working set and entries `{b: 2}` then `{b: 2, c: 3}`, the claim's immediate
append would make the first entry a row that the second entry then patches,
yielding `[{b: 2, c: 3}]`; the code defers both appends, so neither entry
sees the other. -/
theorem matrix_includes_claim_cex :
    processIncludes [[("a", .int 1)]] [[("b", .int 2)]]
      = [[("a", .int 1)], [("b", .int 2)]]
    ∧ processIncludes [[("a", .int 1)]] [[("b", .int 2)]]
      ≠ [[("a", .int 1), ("b", .int 2)]]
    ∧ processIncludes [] [[("b", .int 2)], [("b", .int 2), ("c", .int 3)]]
      = [[("b", .int 2)], [("b", .int 2), ("c", .int 3)]]
    ∧ processIncludes [] [[("b", .int 2)], [("b", .int 2), ("c", .int 3)]]
      ≠ [[("b", .int 2), ("c", .int 3)]] := by
  refine ⟨by decide, by decide, by decide, by decide⟩

/-! ## Matrix exclude step (claim C3) -/

theorem foldl_eraseIdx_succ {α : Type} : ∀ (idxs : List Nat) (x : α) (l : List α),
    (idxs.map (fun i => i + 1)).foldl (fun acc i => acc.eraseIdx i) (x :: l)
      = x :: idxs.foldl (fun acc i => acc.eraseIdx i) l
  | [], _, _ => rfl
  | i :: idxs, x, l => by
    rw [List.map_cons, List.foldl_cons, List.foldl_cons, List.eraseIdx_cons_succ]
    exact foldl_eraseIdx_succ idxs x _

theorem remove_desc_filter {α : Type} (p : α → Bool) : ∀ l : List α,
    ((l.enum.filter (fun q => p q.2)).map Prod.fst).reverse.foldl
        (fun acc i => acc.eraseIdx i) l
      = l.filter (fun a => !p a)
  | [] => rfl
  | x :: l => by
    rw [List.enum_cons, ← List.map_fst_add_enum_eq_enumFrom l 1]
    have hsnd : ∀ q : Nat × α, (Prod.map (fun i => i + 1) id q).2 = q.2 := by
      intro q; rfl
    cases hx : p x
    · rw [List.filter_cons_of_neg (by simp [hx])]
      rw [List.filter_map]
      rw [show ((fun q : Nat × α => p q.2) ∘ Prod.map (fun i => i + 1) id)
          = (fun q : Nat × α => p q.2) from funext (fun q => by simp [hsnd])]
      rw [List.map_map]
      rw [show (Prod.fst ∘ Prod.map (fun i : Nat => i + 1) id)
          = ((fun i => i + 1) ∘ Prod.fst) from funext (fun q => rfl)]
      rw [← List.map_map]
      rw [show ((((l.enum.filter (fun q => p q.2)).map Prod.fst).map (fun i => i + 1)).reverse
            = (((l.enum.filter (fun q => p q.2)).map Prod.fst).reverse).map (fun i => i + 1))
          from List.reverse_map _ _]
      rw [foldl_eraseIdx_succ]
      rw [remove_desc_filter p l]
      rw [List.filter_cons_of_pos (by simp [hx])]
    · rw [List.filter_cons_of_pos (by simp [hx])]
      rw [List.map_cons, List.reverse_cons]
      rw [List.filter_map]
      rw [show ((fun q : Nat × α => p q.2) ∘ Prod.map (fun i => i + 1) id)
          = (fun q : Nat × α => p q.2) from funext (fun q => by simp [hsnd])]
      rw [List.map_map]
      rw [show (Prod.fst ∘ Prod.map (fun i : Nat => i + 1) id)
          = ((fun i => i + 1) ∘ Prod.fst) from funext (fun q => rfl)]
      rw [← List.map_map]
      rw [show ((((l.enum.filter (fun q => p q.2)).map Prod.fst).map (fun i => i + 1)).reverse
            = (((l.enum.filter (fun q => p q.2)).map Prod.fst).reverse).map (fun i => i + 1))
          from List.reverse_map _ _]
      rw [List.foldl_append, foldl_eraseIdx_succ]
      rw [remove_desc_filter p l]
      rw [show ((0 : Nat), x).1 = (0 : Nat) from rfl]
      rw [List.foldl_cons, List.foldl_nil, List.eraseIdx_cons_zero]
      rw [List.filter_cons_of_neg (by simp [hx])]

theorem processExclude_eq_filter (exc : Row) (ws : List Row) :
    processExclude ws exc = ws.filter (fun row => !rowMatchesExclude exc row) := by
  unfold processExclude
  exact remove_desc_filter (fun row => rowMatchesExclude exc row) ws

/-- Claim C3: a row matches an exclude entry exactly when every key/value
pair of the entry is present in the row (a partial-key filter: row keys
absent from the entry are ignored); processing the exclude entries removes,
for every entry in list order, every matching row, keeping the surviving
rows in their original relative order — equivalently, the result is the
order-preserving filter dropping the rows matched by some entry.  The second part instantiates the spec example: axes
`os: [macos-latest, windows-latest]` and `version: [12, 14, 16]` (iterated in
declared order) with exclude `[{os: windows-latest, version: 16}]` yield
exactly the five other rows, in order. -/
theorem matrix_excludes_filter :
    (∀ exc row : Row, rowMatchesExclude exc row
        = decide (∀ kv ∈ exc, alookup kv.1 row = some kv.2))
    ∧ (∀ ws excludes : List Row,
      processExcludes ws excludes
        = ws.filter (fun row => !(excludes.any (fun exc => rowMatchesExclude exc row))))
    ∧ matrixUnmarshal (.map
        [("os", .seq [.str "macos-latest" "", .str "windows-latest" ""]),
         ("version", .seq [.int 12, .int 14, .int 16]),
         ("exclude", .seq [.map [("os", .str "windows-latest" ""), ("version", .int 16)]])])
      = .ok [[("os", .str "macos-latest" ""), ("version", .int 12)],
             [("os", .str "windows-latest" ""), ("version", .int 12)],
             [("os", .str "macos-latest" ""), ("version", .int 14)],
             [("os", .str "windows-latest" ""), ("version", .int 14)],
             [("os", .str "macos-latest" ""), ("version", .int 16)]] := by
  refine ⟨?_, ?_, ?_⟩
  · intro exc row
    refine Bool.eq_iff_iff.mpr ?_
    simp only [rowMatchesExclude, opt_beq_eq, List.all_eq_true, decide_eq_true_eq]
  · intro ws excludes
    induction excludes generalizing ws with
    | nil => simp [processExcludes]
    | cons e excludes ih =>
      have h₁ : processExcludes ws (e :: excludes)
          = processExcludes (processExclude ws e) excludes := rfl
      rw [h₁, ih, processExclude_eq_filter, List.filter_filter]
      congr 1
      funext row
      simp [Bool.and_comm]
  · rfl

/-! ## Matrix axis iteration order (claim C4) -/

/-- Claim C4 fails on the code: the axes reach `Matrix.UnmarshalYAML` as a Go
map and are iterated with `range` (src/workflow.go line 337), whose order is
unspecified, and the output row sequence depends on that order.  The same
two-axis mapping `os: [macos, windows], version: [12, 14]`, presented in its
two possible iteration orders (the pair lists are permutations of each
other), produces two different output row sequences. -/
theorem matrix_axes_order_dependent :
    ([("os", Yaml.seq [.str "macos" "", .str "windows" ""]),
      ("version", Yaml.seq [.int 12, .int 14])].Perm
     [("version", Yaml.seq [.int 12, .int 14]),
      ("os", Yaml.seq [.str "macos" "", .str "windows" ""])])
    ∧ expandAxes [("os", .seq [.str "macos" "", .str "windows" ""]),
                  ("version", .seq [.int 12, .int 14])]
      = .ok [[("os", .str "macos" ""), ("version", .int 12)],
             [("os", .str "windows" ""), ("version", .int 12)],
             [("os", .str "macos" ""), ("version", .int 14)],
             [("os", .str "windows" ""), ("version", .int 14)]]
    ∧ expandAxes [("version", .seq [.int 12, .int 14]),
                  ("os", .seq [.str "macos" "", .str "windows" ""])]
      = .ok [[("version", .int 12), ("os", .str "macos" "")],
             [("version", .int 14), ("os", .str "macos" "")],
             [("version", .int 12), ("os", .str "windows" "")],
             [("version", .int 14), ("os", .str "windows" "")]]
    ∧ ([[("os", Yaml.str "macos" ""), ("version", Yaml.int 12)],
        [("os", Yaml.str "windows" ""), ("version", Yaml.int 12)],
        [("os", Yaml.str "macos" ""), ("version", Yaml.int 14)],
        [("os", Yaml.str "windows" ""), ("version", Yaml.int 14)]] : List Row)
      ≠ [[("version", .int 12), ("os", .str "macos" "")],
         [("version", .int 14), ("os", .str "macos" "")],
         [("version", .int 12), ("os", .str "windows" "")],
         [("version", .int 14), ("os", .str "windows" "")]] := by
  refine ⟨List.Perm.swap _ _ _, rfl, rfl, by decide⟩

/-! ## Bare scalar axis values (claim C9) -/

theorem expandAxes_step_wrap (init : List Row) (k : String) (v : Yaml) :
    (do
      let vs ← axisValues (wrapBareStr (k, v)).1 (wrapBareStr (k, v)).2
      pure (expandAxis (wrapBareStr (k, v)).1 vs init) : Except String (List Row))
    = (do
      let vs ← axisValues k v
      pure (expandAxis k vs init)) := by
  cases v <;> simp [wrapBareStr, axisValues]

theorem foldlM_axes_wrap : ∀ (axes : List (String × Yaml)) (init : List Row),
    (axes.map wrapBareStr).foldlM
      (fun result kv => do
        let vs ← axisValues kv.1 kv.2
        pure (expandAxis kv.1 vs result))
      init
    = axes.foldlM
      (fun result kv => do
        let vs ← axisValues kv.1 kv.2
        pure (expandAxis kv.1 vs result))
      init
  | [], _ => rfl
  | (k, v) :: axes, init => by
    rw [List.map_cons, List.foldlM_cons, List.foldlM_cons]
    rw [expandAxes_step_wrap init k v]
    cases h : axisValues k v with
    | error e => rfl
    | ok vs => exact foldlM_axes_wrap axes (expandAxis k vs init)

/-- Claim C9, amended: a bare STRING scalar axis value is treated as the
one-element list of that scalar (expansion is unchanged when every bare
string axis value is replaced by its singleton list); a bare non-string
scalar axis value (integer or boolean) is an error rather than a singleton
list. -/
theorem matrix_scalar_axis_amended :
    (∀ (k s c : String), axisValues k (.str s c) = .ok [.str s c])
    ∧ (∀ axes : List (String × Yaml),
        expandAxes (axes.map wrapBareStr) = expandAxes axes)
    ∧ (∀ (k : String) (i : Int),
        axisValues k (.int i) = .error ("invalid matrix entry " ++ k))
    ∧ (∀ (k : String) (b : Bool),
        axisValues k (.bool b) = .error ("invalid matrix entry " ++ k)) := by
  refine ⟨fun k s c => rfl, ?_, fun k i => rfl, fun k b => rfl⟩
  intro axes
  unfold expandAxes
  rw [foldlM_axes_wrap]
  congr 1
  cases axes <;> simp

/-- Counterexample to claim C9 as stated: an axis whose bare scalar value is
the integer 12 is not treated as a one-element list — decoding the matrix
errors out — while the same axis written as a one-element list (or as the
bare STRING scalar `"12"`) succeeds. -/
theorem matrix_scalar_axis_claim_cex :
    matrixUnmarshal (.map [("version", .int 12)])
      = .error "invalid matrix entry version"
    ∧ matrixUnmarshal (.map [("version", .seq [.int 12])])
      = .ok [[("version", .int 12)]]
    ∧ matrixUnmarshal (.map [("version", .str "12" "")])
      = .ok [[("version", .str "12" "")]] := by
  exact ⟨rfl, rfl, rfl⟩

/-! ## Association-list lookup lemmas for conditionally emitted fields -/

theorem alookup_nil {β : Type} (k : String) :
    alookup k ([] : List (String × β)) = none := rfl

theorem alookup_optF_ne {β : Type} {k k₁ : String} (h : k ≠ k₁) (c : Prop)
    [Decidable c] (v : β) (rest : List (String × β)) :
    alookup k ((if c then [(k₁, v)] else []) ++ rest) = alookup k rest := by
  split_ifs with hc
  · simp [alookup, h]
  · simp

theorem alookup_optF_eq {β : Type} (k : String) (c : Prop) [Decidable c]
    (v : β) (rest : List (String × β)) :
    alookup k ((if c then [(k, v)] else []) ++ rest)
      = if c then some v else alookup k rest := by
  split_ifs with hc
  · simp [alookup]
  · simp

theorem alookup_optF_ne₁ {β : Type} {k k₁ : String} (h : k ≠ k₁) (c : Prop)
    [Decidable c] (v : β) :
    alookup k (if c then [(k₁, v)] else []) = none := by
  split_ifs with hc
  · simp [alookup, h]
  · rfl

theorem alookup_optF_eq₁ {β : Type} (k : String) (c : Prop) [Decidable c] (v : β) :
    alookup k (if c then [(k, v)] else []) = if c then some v else none := by
  split_ifs with hc
  · simp [alookup]
  · rfl

/-! ## Permissions collapse (claim C8) -/

theorem alookup_optScope_ne {k k₁ : String} (h : k ≠ k₁) (v : String)
    (rest : List (String × Yaml)) :
    alookup k (optScope k₁ v ++ rest) = alookup k rest := by
  unfold optScope
  split_ifs with hc
  · simp [alookup, h]
  · simp

theorem alookup_optScope_eq (k v : String) (rest : List (String × Yaml)) :
    alookup k (optScope k v ++ rest)
      = if v = "none" then alookup k rest else some (.str v "") := by
  unfold optScope
  split_ifs with hc hd <;> simp_all [alookup]

theorem alookup_optScope_ne₁ {k k₁ : String} (h : k ≠ k₁) (v : String) :
    alookup k (optScope k₁ v) = none := by
  unfold optScope
  split_ifs with hc
  · simp [alookup, h]
  · rfl

theorem alookup_optScope_eq₁ (k v : String) :
    alookup k (optScope k v) = if v = "none" then none else some (.str v "") := by
  unfold optScope
  split_ifs with hc hd <;> simp_all [alookup]

theorem permsAll_write_not_read (p : Permissions) (hw : permsAll p "write" = true) :
    p = Permissions.allScopes "write" := by
  simp only [permsAll, Bool.and_eq_true, beq_iff_eq] at hw
  obtain ⟨⟨⟨⟨⟨⟨⟨⟨⟨⟨⟨⟨⟨h₁, h₂⟩, h₃⟩, h₄⟩, h₅⟩, h₆⟩, h₇⟩, h₈⟩, h₉⟩, h₁₀⟩,
    h₁₁⟩, h₁₂⟩, h₁₃⟩, h₁₄⟩ := hw
  cases p
  simp_all [Permissions.allScopes]

/-- Claim C8: a `Permissions` value with all 14 scopes `"read"` encodes as
the scalar `read-all`; all `"write"` as `write-all`; any other value as the
mapping containing exactly the scopes whose value differs from `"none"`
(each present scope carrying its value).  Consequently decoding `read-all`
and re-encoding yields the scalar `read-all`, and decoding a mapping with
all 14 scopes `"write"` and re-encoding yields `write-all`. -/
theorem permissions_collapse :
    (∀ p : Permissions, permsAll p "read" = true → permsMarshal p = .str "read-all" "")
    ∧ (∀ p : Permissions, permsAll p "write" = true → permsMarshal p = .str "write-all" "")
    ∧ (∀ p : Permissions, permsAll p "read" = false → permsAll p "write" = false →
        permsMarshal p = .map (permPairs p)
        ∧ ∀ kv ∈ scopeGetters,
            alookup kv.1 (permPairs p)
              = if kv.2 p = "none" then none else some (.str (kv.2 p) ""))
    ∧ (permsUnmarshal (.str "read-all" "") = .ok (Permissions.allScopes "read")
       ∧ permsMarshal (Permissions.allScopes "read") = .str "read-all" "")
    ∧ (permsUnmarshal (.map
          [("actions", .str "write" ""), ("attestations", .str "write" ""),
           ("checks", .str "write" ""), ("contents", .str "write" ""),
           ("deployments", .str "write" ""), ("discussions", .str "write" ""),
           ("id-token", .str "write" ""), ("issues", .str "write" ""),
           ("models", .str "write" ""), ("packages", .str "write" ""),
           ("pages", .str "write" ""), ("pull-requests", .str "write" ""),
           ("security-events", .str "write" ""), ("statuses", .str "write" "")])
         = .ok (Permissions.allScopes "write")
       ∧ permsMarshal (Permissions.allScopes "write") = .str "write-all" "") := by
  refine ⟨?_, ?_, ?_, ⟨rfl, rfl⟩, ⟨by rfl, rfl⟩⟩
  · intro p h
    simp [permsMarshal, h]
  · intro p hw
    rw [permsAll_write_not_read p hw]
    rfl
  · intro p hr hw
    refine ⟨by simp [permsMarshal, hr, hw], ?_⟩
    intro kv hkv
    fin_cases hkv
    · show alookup "actions" (permPairs p)
          = if p.Actions = "none" then none else some (.str (p.Actions) "")
      simp only [permPairs, List.append_assoc]
      rw [alookup_optScope_eq,
        alookup_optScope_ne,
        alookup_optScope_ne,
        alookup_optScope_ne,
        alookup_optScope_ne,
        alookup_optScope_ne,
        alookup_optScope_ne,
        alookup_optScope_ne,
        alookup_optScope_ne,
        alookup_optScope_ne,
        alookup_optScope_ne,
        alookup_optScope_ne,
        alookup_optScope_ne,
        alookup_optScope_ne₁] <;> decide
    · show alookup "attestations" (permPairs p)
          = if p.Attestations = "none" then none else some (.str (p.Attestations) "")
      simp only [permPairs, List.append_assoc]
      rw [alookup_optScope_ne,
        alookup_optScope_eq,
        alookup_optScope_ne,
        alookup_optScope_ne,
        alookup_optScope_ne,
        alookup_optScope_ne,
        alookup_optScope_ne,
        alookup_optScope_ne,
        alookup_optScope_ne,
        alookup_optScope_ne,
        alookup_optScope_ne,
        alookup_optScope_ne,
        alookup_optScope_ne,
        alookup_optScope_ne₁] <;> decide
    · show alookup "checks" (permPairs p)
          = if p.Checks = "none" then none else some (.str (p.Checks) "")
      simp only [permPairs, List.append_assoc]
      rw [alookup_optScope_ne,
        alookup_optScope_ne,
        alookup_optScope_eq,
        alookup_optScope_ne,
        alookup_optScope_ne,
        alookup_optScope_ne,
        alookup_optScope_ne,
        alookup_optScope_ne,
        alookup_optScope_ne,
        alookup_optScope_ne,
        alookup_optScope_ne,
        alookup_optScope_ne,
        alookup_optScope_ne,
        alookup_optScope_ne₁] <;> decide
    · show alookup "contents" (permPairs p)
          = if p.Contents = "none" then none else some (.str (p.Contents) "")
      simp only [permPairs, List.append_assoc]
      rw [alookup_optScope_ne,
        alookup_optScope_ne,
        alookup_optScope_ne,
        alookup_optScope_eq,
        alookup_optScope_ne,
        alookup_optScope_ne,
        alookup_optScope_ne,
        alookup_optScope_ne,
        alookup_optScope_ne,
        alookup_optScope_ne,
        alookup_optScope_ne,
        alookup_optScope_ne,
        alookup_optScope_ne,
        alookup_optScope_ne₁] <;> decide
    · show alookup "deployments" (permPairs p)
          = if p.Deployments = "none" then none else some (.str (p.Deployments) "")
      simp only [permPairs, List.append_assoc]
      rw [alookup_optScope_ne,
        alookup_optScope_ne,
        alookup_optScope_ne,
        alookup_optScope_ne,
        alookup_optScope_eq,
        alookup_optScope_ne,
        alookup_optScope_ne,
        alookup_optScope_ne,
        alookup_optScope_ne,
        alookup_optScope_ne,
        alookup_optScope_ne,
        alookup_optScope_ne,
        alookup_optScope_ne,
        alookup_optScope_ne₁] <;> decide
    · show alookup "discussions" (permPairs p)
          = if p.Discussions = "none" then none else some (.str (p.Discussions) "")
      simp only [permPairs, List.append_assoc]
      rw [alookup_optScope_ne,
        alookup_optScope_ne,
        alookup_optScope_ne,
        alookup_optScope_ne,
        alookup_optScope_ne,
        alookup_optScope_eq,
        alookup_optScope_ne,
        alookup_optScope_ne,
        alookup_optScope_ne,
        alookup_optScope_ne,
        alookup_optScope_ne,
        alookup_optScope_ne,
        alookup_optScope_ne,
        alookup_optScope_ne₁] <;> decide
    · show alookup "id-token" (permPairs p)
          = if p.IdToken = "none" then none else some (.str (p.IdToken) "")
      simp only [permPairs, List.append_assoc]
      rw [alookup_optScope_ne,
        alookup_optScope_ne,
        alookup_optScope_ne,
        alookup_optScope_ne,
        alookup_optScope_ne,
        alookup_optScope_ne,
        alookup_optScope_eq,
        alookup_optScope_ne,
        alookup_optScope_ne,
        alookup_optScope_ne,
        alookup_optScope_ne,
        alookup_optScope_ne,
        alookup_optScope_ne,
        alookup_optScope_ne₁] <;> decide
    · show alookup "issues" (permPairs p)
          = if p.Issues = "none" then none else some (.str (p.Issues) "")
      simp only [permPairs, List.append_assoc]
      rw [alookup_optScope_ne,
        alookup_optScope_ne,
        alookup_optScope_ne,
        alookup_optScope_ne,
        alookup_optScope_ne,
        alookup_optScope_ne,
        alookup_optScope_ne,
        alookup_optScope_eq,
        alookup_optScope_ne,
        alookup_optScope_ne,
        alookup_optScope_ne,
        alookup_optScope_ne,
        alookup_optScope_ne,
        alookup_optScope_ne₁] <;> decide
    · show alookup "models" (permPairs p)
          = if p.Models = "none" then none else some (.str (p.Models) "")
      simp only [permPairs, List.append_assoc]
      rw [alookup_optScope_ne,
        alookup_optScope_ne,
        alookup_optScope_ne,
        alookup_optScope_ne,
        alookup_optScope_ne,
        alookup_optScope_ne,
        alookup_optScope_ne,
        alookup_optScope_ne,
        alookup_optScope_eq,
        alookup_optScope_ne,
        alookup_optScope_ne,
        alookup_optScope_ne,
        alookup_optScope_ne,
        alookup_optScope_ne₁] <;> decide
    · show alookup "packages" (permPairs p)
          = if p.Packages = "none" then none else some (.str (p.Packages) "")
      simp only [permPairs, List.append_assoc]
      rw [alookup_optScope_ne,
        alookup_optScope_ne,
        alookup_optScope_ne,
        alookup_optScope_ne,
        alookup_optScope_ne,
        alookup_optScope_ne,
        alookup_optScope_ne,
        alookup_optScope_ne,
        alookup_optScope_ne,
        alookup_optScope_eq,
        alookup_optScope_ne,
        alookup_optScope_ne,
        alookup_optScope_ne,
        alookup_optScope_ne₁] <;> decide
    · show alookup "pages" (permPairs p)
          = if p.Pages = "none" then none else some (.str (p.Pages) "")
      simp only [permPairs, List.append_assoc]
      rw [alookup_optScope_ne,
        alookup_optScope_ne,
        alookup_optScope_ne,
        alookup_optScope_ne,
        alookup_optScope_ne,
        alookup_optScope_ne,
        alookup_optScope_ne,
        alookup_optScope_ne,
        alookup_optScope_ne,
        alookup_optScope_ne,
        alookup_optScope_eq,
        alookup_optScope_ne,
        alookup_optScope_ne,
        alookup_optScope_ne₁] <;> decide
    · show alookup "pull-requests" (permPairs p)
          = if p.PullRequests = "none" then none else some (.str (p.PullRequests) "")
      simp only [permPairs, List.append_assoc]
      rw [alookup_optScope_ne,
        alookup_optScope_ne,
        alookup_optScope_ne,
        alookup_optScope_ne,
        alookup_optScope_ne,
        alookup_optScope_ne,
        alookup_optScope_ne,
        alookup_optScope_ne,
        alookup_optScope_ne,
        alookup_optScope_ne,
        alookup_optScope_ne,
        alookup_optScope_eq,
        alookup_optScope_ne,
        alookup_optScope_ne₁] <;> decide
    · show alookup "security-events" (permPairs p)
          = if p.SecurityEvents = "none" then none else some (.str (p.SecurityEvents) "")
      simp only [permPairs, List.append_assoc]
      rw [alookup_optScope_ne,
        alookup_optScope_ne,
        alookup_optScope_ne,
        alookup_optScope_ne,
        alookup_optScope_ne,
        alookup_optScope_ne,
        alookup_optScope_ne,
        alookup_optScope_ne,
        alookup_optScope_ne,
        alookup_optScope_ne,
        alookup_optScope_ne,
        alookup_optScope_ne,
        alookup_optScope_eq,
        alookup_optScope_ne₁] <;> decide
    · show alookup "statuses" (permPairs p)
          = if p.Statuses = "none" then none else some (.str (p.Statuses) "")
      simp only [permPairs, List.append_assoc]
      rw [alookup_optScope_ne,
        alookup_optScope_ne,
        alookup_optScope_ne,
        alookup_optScope_ne,
        alookup_optScope_ne,
        alookup_optScope_ne,
        alookup_optScope_ne,
        alookup_optScope_ne,
        alookup_optScope_ne,
        alookup_optScope_ne,
        alookup_optScope_ne,
        alookup_optScope_ne,
        alookup_optScope_ne,
        alookup_optScope_eq₁] <;> decide

/-- Witness for `permissions_collapse` at concrete values. -/
theorem permissions_collapse_witness :
    permsMarshal (Permissions.allScopes "read") = .str "read-all" ""
    ∧ permsMarshal (Permissions.allScopes "write") = .str "write-all" ""
    ∧ permsMarshal ⟨"write", "none", "none", "none", "none", "none", "none",
        "none", "none", "none", "none", "none", "none", "none"⟩
      = .map (permPairs ⟨"write", "none", "none", "none", "none", "none", "none",
          "none", "none", "none", "none", "none", "none", "none"⟩)
    ∧ alookup "actions" (permPairs ⟨"write", "none", "none", "none", "none", "none",
        "none", "none", "none", "none", "none", "none", "none", "none"⟩)
      = some (.str "write" "") :=
  ⟨permissions_collapse.1 (Permissions.allScopes "read") (by decide),
   permissions_collapse.2.1 (Permissions.allScopes "write") (by decide),
   (permissions_collapse.2.2.1 ⟨"write", "none", "none", "none", "none", "none",
      "none", "none", "none", "none", "none", "none", "none", "none"⟩
      (by decide) (by decide)).1,
   (permissions_collapse.2.2.1 ⟨"write", "none", "none", "none", "none", "none",
      "none", "none", "none", "none", "none", "none", "none", "none"⟩
      (by decide) (by decide)).2
     ("actions", Permissions.Actions) (by unfold scopeGetters; exact List.mem_cons_self _ _)⟩

/-! ## Round-trip infrastructure (claim C1) -/

theorem ok_bind {α β : Type} (a : α) (f : α → Except String β) :
    (Except.ok a >>= f) = f a := rfl

theorem error_bind {α β : Type} (e : String) (f : α → Except String β) :
    ((Except.error e : Except String α) >>= f) = .error e := rfl

theorem fieldD_opt {α : Type} (c : Prop) [Decidable c] (y : Yaml) (z : α)
    (d : Yaml → Except String α) :
    fieldD (if c then some y else none) z d = if c then d y else .ok z := by
  split_ifs <;> rfl

theorem ite_ne_collapse {α β : Type} [DecidableEq α] (f : α → β) (v z : α) :
    (if v ≠ z then f v else f z) = f v := by
  split_ifs with h
  · rfl
  · rw [of_not_not h]

theorem strmap_rt : ∀ l : List (String × String), decodeStrMap (encStrMap l) = .ok l
  | [] => rfl
  | (k, v) :: l => by
    have ih := strmap_rt l
    simp only [decodeStrMap, encStrMap] at ih ⊢
    rw [List.map_cons, List.mapM_cons, ih]
    rfl

theorem strlist_rt : ∀ l : List String, decStrList (encStrList l) = .ok l
  | [] => rfl
  | s :: l => by
    have ih := strlist_rt l
    simp only [decStrList, encStrList] at ih ⊢
    rw [List.map_cons, List.mapM_cons, ih]
    rfl

theorem intlist_rt : ∀ l : List Int, decIntList (encIntList l) = .ok l
  | [] => rfl
  | i :: l => by
    have ih := intlist_rt l
    simp only [decIntList, encIntList] at ih ⊢
    rw [List.map_cons, List.mapM_cons, ih]
    rfl

theorem mapM_rt {α : Type} (enc : α → Except String Yaml) (dec : Yaml → Except String α) :
    ∀ l : List α, (∀ x ∈ l, (enc x >>= dec) = .ok x) →
    ∃ ys, l.mapM enc = .ok ys ∧ ys.mapM dec = .ok l
  | [], _ => ⟨[], rfl, rfl⟩
  | x :: l, h => by
    obtain ⟨ys, hys, hdec⟩ :=
      mapM_rt enc dec l (fun a ha => h a (List.mem_cons_of_mem _ ha))
    have hx := h x (List.mem_cons_self _ _)
    cases he : enc x with
    | error e =>
      rw [he, error_bind] at hx
      exact absurd hx (by simp)
    | ok y =>
      rw [he, ok_bind] at hx
      refine ⟨y :: ys, ?_, ?_⟩
      · rw [List.mapM_cons, he, ok_bind, hys, ok_bind]
        rfl
      · rw [List.mapM_cons, hx, ok_bind, hdec, ok_bind]
        rfl

theorem encPairsM_rt {α : Type} (enc : α → Except String Yaml)
    (dec : Yaml → Except String α) :
    ∀ l : List (String × α), (∀ kv ∈ l, (enc kv.2 >>= dec) = .ok kv.2) →
    ∃ ys, encPairsM enc l = .ok ys ∧ decPairs dec (.map ys) = .ok l
  | [], _ => ⟨[], rfl, rfl⟩
  | (k, x) :: l, h => by
    obtain ⟨ys, hys, hdec⟩ :=
      encPairsM_rt enc dec l (fun a ha => h a (List.mem_cons_of_mem _ ha))
    have hx := h (k, x) (List.mem_cons_self _ _)
    cases he : enc x with
    | error e =>
      rw [he, error_bind] at hx
      exact absurd hx (by simp)
    | ok y =>
      rw [he, ok_bind] at hx
      refine ⟨(k, y) :: ys, ?_, ?_⟩
      · unfold encPairsM at hys ⊢
        rw [List.mapM_cons]
        simp only [he, ok_bind]
        rw [hys]
        rfl
      · simp only [decPairs] at hdec ⊢
        rw [List.mapM_cons]
        simp only [ok_bind, hx]
        rw [hdec]
        rfl

theorem decPairs_map_rt {α : Type} (enc : α → Yaml) (dec : Yaml → Except String α)
    (hx : ∀ x, dec (enc x) = .ok x) :
    ∀ l : List (String × α),
      decPairs dec (.map (l.map (fun kv => (kv.1, enc kv.2)))) = .ok l
  | [] => rfl
  | (k, x) :: l => by
    have ih := decPairs_map_rt enc dec hx l
    simp only [decPairs] at ih ⊢
    rw [List.map_cons, List.mapM_cons]
    simp only [ok_bind, hx]
    rw [ih]
    rfl

/-! ## Round-trip of the individual codecs -/

theorem uses_rt (u : Uses) (h : UsesOk u) :
    (usesMarshal u >>= usesUnmarshalY) = .ok u := by
  obtain ⟨h₁, h₂, h₃⟩ := h
  by_cases hr : u.Ref = ""
  · obtain ⟨hn, hna⟩ := h₁ hr
    have hm : usesMarshal u = .ok (.str u.Name (filterPrintable u.Annot)) := by
      simp [usesMarshal, hn, hr]
    rw [hm, ok_bind, usesUnmarshalY_noAt u.Name (filterPrintable u.Annot) hn hna, h₃,
      ← hr]
  · obtain ⟨hn, hra⟩ := h₂ hr
    have hm : usesMarshal u
        = .ok (.str (u.Name ++ "@" ++ u.Ref) (filterPrintable u.Annot)) := by
      simp [usesMarshal, hn, hr]
    rw [hm, ok_bind,
      usesUnmarshalY_split u.Name u.Ref (filterPrintable u.Annot) hn hr hra, h₃]

theorem uses_rt_step (u : Uses) (h : StepUsesOk u) :
    (usesMarshal u >>= usesUnmarshalY) = .ok u := by
  rcases h with h | h
  · subst h; rfl
  · exact uses_rt u h

theorem uses_rt_ex (u : Uses) (h : StepUsesOk u) :
    ∃ y, usesMarshal u = .ok y ∧ usesUnmarshalY y = .ok u := by
  have hb := uses_rt_step u h
  cases he : usesMarshal u with
  | error e =>
    rw [he, error_bind] at hb
    exact absurd hb (by simp)
  | ok y =>
    rw [he, ok_bind] at hb
    exact ⟨y, rfl, hb⟩

theorem alookup_req_eq {β : Type} (k : String) (v : β) (rest : List (String × β)) :
    alookup k ([(k, v)] ++ rest) = some v := by
  simp [alookup]

theorem alookup_req_ne {β : Type} {k k₁ : String} (h : k ≠ k₁) (v : β)
    (rest : List (String × β)) :
    alookup k ([(k₁, v)] ++ rest) = alookup k rest := by
  simp [alookup, h]

theorem alookup_req_eq₁ {β : Type} (k : String) (v : β) :
    alookup k [(k, v)] = some v := by
  simp [alookup]

theorem alookup_req_ne₁ {β : Type} {k k₁ : String} (h : k ≠ k₁) (v : β) :
    alookup k [(k₁, v)] = none := by
  simp [alookup, h]

theorem fieldD_some {α : Type} (y : Yaml) (z : α) (d : Yaml → Except String α) :
    fieldD (some y) z d = d y := rfl

theorem concurrency_rt (c : Concurrency) :
    concurrencyUnmarshal (concurrencyMarshal c) = .ok c := by
  unfold concurrencyMarshal concurrencyUnmarshal
  simp only [optField]
  rw [alookup_optF_eq]
  rw [alookup_optF_ne (by decide), alookup_optF_eq₁]
  rw [alookup_optF_ne₁ (by decide)]
  rw [fieldD_opt, fieldD_opt]
  simp only [decBool, decStr, encStr]
  rw [ite_ne_collapse (fun b => (Except.ok b : Except String Bool)) c.CancelInProgress false]
  rw [ite_ne_collapse (fun s => (Except.ok s : Except String String)) c.Group ""]
  rfl

theorem defaultsRun_rt (d : DefaultsRun) :
    defaultsRunUnmarshal (defaultsRunMarshal d) = .ok d := by
  unfold defaultsRunMarshal defaultsRunUnmarshal
  simp only [optField, reqField, List.append_assoc]
  rw [alookup_optF_eq]
  rw [alookup_optF_ne₁ (show ("shell" : String) ≠ "working-directory" by decide)]
  rw [alookup_optF_ne (show ("working-directory" : String) ≠ "shell" by decide)]
  rw [alookup_optF_eq₁]
  simp only [fieldD_opt, fieldD_some]
  simp only [encStr, decStr, decBool, decInt]
  rw [ite_ne_collapse (fun v => (Except.ok v : Except String (String))) (d.Shell) ("")]
  rw [ite_ne_collapse (fun v => (Except.ok v : Except String (String))) (d.WorkingDirectory) ("")]
  rfl

theorem defaults_rt (d : Defaults) :
    defaultsUnmarshal (defaultsMarshal d) = .ok d := by
  unfold defaultsMarshal defaultsUnmarshal
  simp only [optField, reqField, List.append_assoc]
  rw [alookup_optF_eq₁]
  simp only [fieldD_opt, fieldD_some]
  rw [defaultsRun_rt d.Run]
  rw [ite_ne_collapse (fun v => (Except.ok v : Except String (DefaultsRun))) (d.Run) ((⟨"", ""⟩ : DefaultsRun))]
  rfl

theorem branding_rt (b : Branding) :
    brandingUnmarshal (brandingMarshal b) = .ok b := by
  unfold brandingMarshal brandingUnmarshal
  simp only [optField, reqField, List.append_assoc]
  rw [alookup_req_eq]
  rw [alookup_req_ne (show ("icon" : String) ≠ "color" by decide)]
  rw [alookup_req_eq₁]
  simp only [fieldD_opt, fieldD_some]
  simp only [encStr, decStr, decBool, decInt]
  rfl

theorem output_rt (o : Output) :
    outputUnmarshal (outputMarshal o) = .ok o := by
  unfold outputMarshal outputUnmarshal
  simp only [optField, reqField, List.append_assoc]
  rw [alookup_req_eq]
  rw [alookup_req_ne (show ("value" : String) ≠ "description" by decide)]
  rw [alookup_req_eq₁]
  simp only [fieldD_opt, fieldD_some]
  simp only [encStr, decStr, decBool, decInt]
  rfl

theorem input_rt (i : Input) :
    inputUnmarshal (inputMarshal i) = .ok i := by
  unfold inputMarshal inputUnmarshal
  simp only [optField, reqField, List.append_assoc]
  rw [alookup_req_eq]
  rw [alookup_req_ne (show ("default" : String) ≠ "description" by decide)]
  rw [alookup_optF_eq]
  rw [alookup_optF_ne (show ("default" : String) ≠ "required" by decide)]
  rw [alookup_optF_ne₁ (show ("default" : String) ≠ "deprecationMessage" by decide)]
  rw [alookup_req_ne (show ("required" : String) ≠ "description" by decide)]
  rw [alookup_optF_ne (show ("required" : String) ≠ "default" by decide)]
  rw [alookup_optF_eq]
  rw [alookup_optF_ne₁ (show ("required" : String) ≠ "deprecationMessage" by decide)]
  rw [alookup_req_ne (show ("deprecationMessage" : String) ≠ "description" by decide)]
  rw [alookup_optF_ne (show ("deprecationMessage" : String) ≠ "default" by decide)]
  rw [alookup_optF_ne (show ("deprecationMessage" : String) ≠ "required" by decide)]
  rw [alookup_optF_eq₁]
  simp only [fieldD_opt, fieldD_some]
  simp only [encStr, decStr, decBool, decInt]
  rw [ite_ne_collapse (fun v => (Except.ok v : Except String (String))) (i.Default) ("")]
  rw [ite_ne_collapse (fun v => (Except.ok v : Except String (Bool))) (i.Required) (false)]
  rw [ite_ne_collapse (fun v => (Except.ok v : Except String (String))) (i.DeprecationMessage) ("")]
  rfl

theorem serviceCredentials_rt (c : ServiceCredentials) :
    serviceCredentialsUnmarshal (serviceCredentialsMarshal c) = .ok c := by
  unfold serviceCredentialsMarshal serviceCredentialsUnmarshal
  simp only [optField, reqField, List.append_assoc]
  rw [alookup_req_eq]
  rw [alookup_req_ne (show ("password" : String) ≠ "username" by decide)]
  rw [alookup_req_eq₁]
  simp only [fieldD_opt, fieldD_some]
  simp only [encStr, decStr, decBool, decInt]
  rfl

theorem service_rt (s : Service) :
    serviceUnmarshal (serviceMarshal s) = .ok s := by
  unfold serviceMarshal serviceUnmarshal
  simp only [optField, reqField, List.append_assoc]
  rw [alookup_req_eq]
  rw [alookup_req_ne (show ("credentials" : String) ≠ "image" by decide)]
  rw [alookup_optF_eq]
  rw [alookup_optF_ne (show ("credentials" : String) ≠ "env" by decide)]
  rw [alookup_optF_ne (show ("credentials" : String) ≠ "ports" by decide)]
  rw [alookup_optF_ne (show ("credentials" : String) ≠ "volumes" by decide)]
  rw [alookup_optF_ne₁ (show ("credentials" : String) ≠ "options" by decide)]
  rw [alookup_req_ne (show ("env" : String) ≠ "image" by decide)]
  rw [alookup_optF_ne (show ("env" : String) ≠ "credentials" by decide)]
  rw [alookup_optF_eq]
  rw [alookup_optF_ne (show ("env" : String) ≠ "ports" by decide)]
  rw [alookup_optF_ne (show ("env" : String) ≠ "volumes" by decide)]
  rw [alookup_optF_ne₁ (show ("env" : String) ≠ "options" by decide)]
  rw [alookup_req_ne (show ("ports" : String) ≠ "image" by decide)]
  rw [alookup_optF_ne (show ("ports" : String) ≠ "credentials" by decide)]
  rw [alookup_optF_ne (show ("ports" : String) ≠ "env" by decide)]
  rw [alookup_optF_eq]
  rw [alookup_optF_ne (show ("ports" : String) ≠ "volumes" by decide)]
  rw [alookup_optF_ne₁ (show ("ports" : String) ≠ "options" by decide)]
  rw [alookup_req_ne (show ("volumes" : String) ≠ "image" by decide)]
  rw [alookup_optF_ne (show ("volumes" : String) ≠ "credentials" by decide)]
  rw [alookup_optF_ne (show ("volumes" : String) ≠ "env" by decide)]
  rw [alookup_optF_ne (show ("volumes" : String) ≠ "ports" by decide)]
  rw [alookup_optF_eq]
  rw [alookup_optF_ne₁ (show ("volumes" : String) ≠ "options" by decide)]
  rw [alookup_req_ne (show ("options" : String) ≠ "image" by decide)]
  rw [alookup_optF_ne (show ("options" : String) ≠ "credentials" by decide)]
  rw [alookup_optF_ne (show ("options" : String) ≠ "env" by decide)]
  rw [alookup_optF_ne (show ("options" : String) ≠ "ports" by decide)]
  rw [alookup_optF_ne (show ("options" : String) ≠ "volumes" by decide)]
  rw [alookup_optF_eq₁]
  simp only [fieldD_opt, fieldD_some]
  rw [serviceCredentials_rt s.Credentials]
  rw [strmap_rt s.Env]
  rw [intlist_rt s.Ports]
  rw [strlist_rt s.Volumes]
  simp only [encStr, decStr, decBool, decInt]
  rw [ite_ne_collapse (fun v => (Except.ok v : Except String (ServiceCredentials))) (s.Credentials) ((⟨"", ""⟩ : ServiceCredentials))]
  rw [ite_ne_collapse (fun v => (Except.ok v : Except String (List (String × String)))) (s.Env) ([])]
  rw [ite_ne_collapse (fun v => (Except.ok v : Except String (List Int))) (s.Ports) ([])]
  rw [ite_ne_collapse (fun v => (Except.ok v : Except String (List String))) (s.Volumes) ([])]
  rw [ite_ne_collapse (fun v => (Except.ok v : Except String (String))) (s.Options) ("")]
  rfl


theorem permsAll_eq (p : Permissions) (s : String) (hw : permsAll p s = true) :
    p = Permissions.allScopes s := by
  simp only [permsAll, Bool.and_eq_true, beq_iff_eq] at hw
  obtain ⟨⟨⟨⟨⟨⟨⟨⟨⟨⟨⟨⟨⟨h₁, h₂⟩, h₃⟩, h₄⟩, h₅⟩, h₆⟩, h₇⟩, h₈⟩, h₉⟩, h₁₀⟩,
    h₁₁⟩, h₁₂⟩, h₁₃⟩, h₁₄⟩ := hw
  cases p
  simp_all [Permissions.allScopes]

theorem applyScope_resolve {l : List (String × String)} {k v : String} {c : Prop}
    [Decidable c] (hl : alookup k l = if c then some v else none) :
    applyScope l k = if c then v else "none" := by
  unfold applyScope
  rw [hl]
  split_ifs <;> rfl

theorem permPairs_eq (p : Permissions) :
    Yaml.map (permPairs p) = encStrMap (permStrList p) := by
  unfold permPairs permStrList encStrMap optScope optStr
  simp [apply_ite (List.map (fun kv : String × String => (kv.1, Yaml.str kv.2 "")))]

theorem alookup_append_none {β : Type} (k : String) :
    ∀ l₁ : List (String × β), alookup k l₁ = none →
      ∀ l₂, alookup k (l₁ ++ l₂) = alookup k l₂
  | [], _, l₂ => rfl
  | (k₁, v) :: rest, h, l₂ => by
    by_cases hk : k = k₁
    · rw [alookup, if_pos hk] at h
      cases h
    · rw [alookup, if_neg hk] at h
      rw [List.cons_append, alookup, if_neg hk]
      exact alookup_append_none k rest h l₂

theorem alookup_append_some {β : Type} (k : String) {v : β} :
    ∀ l₁ : List (String × β), alookup k l₁ = some v →
      ∀ l₂, alookup k (l₁ ++ l₂) = some v
  | [], h, l₂ => by cases h
  | (k₁, w) :: rest, h, l₂ => by
    by_cases hk : k = k₁
    · rw [alookup, if_pos hk] at h
      rw [List.cons_append, alookup, if_pos hk]
      exact h
    · rw [alookup, if_neg hk] at h
      rw [List.cons_append, alookup, if_neg hk]
      exact alookup_append_some k rest h l₂

theorem aerase_none {β : Type} (k : String) :
    ∀ l : List (String × β), alookup k l = none → aerase k l = l
  | [], _ => rfl
  | (k₁, v) :: rest, h => by
    by_cases hk : k = k₁
    · rw [alookup, if_pos hk] at h
      cases h
    · rw [alookup, if_neg hk] at h
      rw [aerase, if_neg hk, aerase_none k rest h]

theorem aerase_append {β : Type} (k : String) :
    ∀ l₁ l₂ : List (String × β), aerase k (l₁ ++ l₂) = aerase k l₁ ++ aerase k l₂
  | [], l₂ => rfl
  | (k₁, v) :: rest, l₂ => by
    by_cases hk : k = k₁
    · rw [List.cons_append, aerase, if_pos hk, aerase, if_pos hk]
      exact aerase_append k rest l₂
    · rw [List.cons_append, aerase, if_neg hk, aerase, if_neg hk, aerase_append k rest l₂]
      rfl

theorem aupsert_none {β : Type} (k : String) (v : β) :
    ∀ l : List (String × β), alookup k l = none → aupsert k v l = l ++ [(k, v)]
  | [], _ => rfl
  | (k₁, w) :: rest, h => by
    by_cases hk : k = k₁
    · rw [alookup, if_pos hk] at h
      cases h
    · rw [alookup, if_neg hk] at h
      rw [aupsert, if_neg hk, aupsert_none k v rest h]
      rfl

theorem mapM_map_rows (f : Yaml → Except String Row) (hf : ∀ m, f (.map m) = .ok m) :
    ∀ rows : List Row, (rows.map Yaml.map).mapM f = .ok rows
  | [] => rfl
  | r :: rows => by
    rw [List.map_cons, List.mapM_cons, hf, ok_bind, mapM_map_rows f hf rows]
    rfl

theorem extractRows_none (k : String) (raw : List (String × Yaml))
    (h : alookup k raw = none) :
    extractRows k raw = .ok ([], raw) := by
  simp only [extractRows, h]

theorem extractRows_found (k : String) (raw : List (String × Yaml)) (rows : List Row)
    (h : alookup k raw = some (.seq (rows.map Yaml.map))) :
    extractRows k raw = .ok (rows, aerase k raw) := by
  simp only [extractRows, h]
  rw [mapM_map_rows _ (fun m => rfl) rows]
  rfl

theorem matrixS_rt (m : Matrix) (h : MatrixOk m) :
    matrixStructUnmarshal (matrixStructMarshal m) = .ok m := by
  obtain ⟨hi, he⟩ := h
  obtain ⟨ax, incl, excl⟩ := m
  simp only [MatrixOk] at hi he
  unfold matrixStructMarshal
  simp only []
  by_cases hI : incl.isEmpty
  · rw [if_pos hI]
    have hIe : incl = [] := List.isEmpty_iff.mp hI
    by_cases hE : excl.isEmpty
    · rw [if_pos hE]
      have hEe : excl = [] := List.isEmpty_iff.mp hE
      simp only [matrixStructUnmarshal]
      rw [extractRows_none "include" _ hi, ok_bind, extractRows_none "exclude" _ he,
        ok_bind, hIe, hEe]
    · rw [if_neg hE]
      rw [aupsert_none "exclude" _ ax he]
      simp only [matrixStructUnmarshal]
      have hfi : alookup "include" (ax ++ [("exclude", Yaml.seq (excl.map Yaml.map))])
          = none := by
        rw [alookup_append_none "include" ax hi]
        exact alookup_req_ne₁ (by decide) _
      rw [extractRows_none "include" _ hfi, ok_bind]
      have hfe : alookup "exclude" (ax ++ [("exclude", Yaml.seq (excl.map Yaml.map))])
          = some (.seq (excl.map Yaml.map)) := by
        rw [alookup_append_none "exclude" ax he]
        exact alookup_req_eq₁ _ _
      rw [extractRows_found "exclude" _ excl hfe, ok_bind]
      rw [aerase_append, aerase_none "exclude" ax he]
      have hz : aerase "exclude" [("exclude", Yaml.seq (excl.map Yaml.map))]
          = ([] : List (String × Yaml)) := by
        simp [aerase]
      rw [hz, List.append_nil, hIe]
  · rw [if_neg hI]
    rw [aupsert_none "include" _ ax hi]
    by_cases hE : excl.isEmpty
    · rw [if_pos hE]
      have hEe : excl = [] := List.isEmpty_iff.mp hE
      simp only [matrixStructUnmarshal]
      have hfi : alookup "include" (ax ++ [("include", Yaml.seq (incl.map Yaml.map))])
          = some (.seq (incl.map Yaml.map)) := by
        rw [alookup_append_none "include" ax hi]
        exact alookup_req_eq₁ _ _
      rw [extractRows_found "include" _ incl hfi, ok_bind]
      rw [aerase_append, aerase_none "include" ax hi]
      have hz : aerase "include" [("include", Yaml.seq (incl.map Yaml.map))]
          = ([] : List (String × Yaml)) := by
        simp [aerase]
      rw [hz, List.append_nil]
      rw [extractRows_none "exclude" _ he, ok_bind, hEe]
    · rw [if_neg hE]
      have hle : alookup "exclude" (ax ++ [("include", Yaml.seq (incl.map Yaml.map))])
          = none := by
        rw [alookup_append_none "exclude" ax he]
        exact alookup_req_ne₁ (by decide) _
      rw [aupsert_none "exclude" _ _ hle]
      simp only [matrixStructUnmarshal]
      have hfi : alookup "include"
          ((ax ++ [("include", Yaml.seq (incl.map Yaml.map))])
            ++ [("exclude", Yaml.seq (excl.map Yaml.map))])
          = some (.seq (incl.map Yaml.map)) := by
        apply alookup_append_some
        rw [alookup_append_none "include" ax hi]
        exact alookup_req_eq₁ _ _
      rw [extractRows_found "include" _ incl hfi, ok_bind]
      rw [aerase_append, aerase_append, aerase_none "include" ax hi]
      have hz₁ : aerase "include" [("include", Yaml.seq (incl.map Yaml.map))]
          = ([] : List (String × Yaml)) := by
        simp [aerase]
      have hz₂ : aerase "include" [("exclude", Yaml.seq (excl.map Yaml.map))]
          = [("exclude", Yaml.seq (excl.map Yaml.map))] := by
        simp [aerase]
      rw [hz₁, hz₂, List.append_nil]
      have hfe : alookup "exclude" (ax ++ [("exclude", Yaml.seq (excl.map Yaml.map))])
          = some (.seq (excl.map Yaml.map)) := by
        rw [alookup_append_none "exclude" ax he]
        exact alookup_req_eq₁ _ _
      rw [extractRows_found "exclude" _ excl hfe, ok_bind]
      rw [aerase_append, aerase_none "exclude" ax he]
      have hz₃ : aerase "exclude" [("exclude", Yaml.seq (excl.map Yaml.map))]
          = ([] : List (String × Yaml)) := by
        simp [aerase]
      rw [hz₃, List.append_nil]

theorem perms_rt (p : Permissions) : permsUnmarshal (permsMarshal p) = .ok p := by
  unfold permsMarshal
  split_ifs with hr hw
  · rw [permsAll_eq p "read" hr]
    rfl
  · rw [permsAll_eq p "write" hw]
    rfl
  · simp only [permsUnmarshal]
    rw [permPairs_eq, strmap_rt, ok_bind]
    have ha1 : applyScope (permStrList p) "actions" = p.Actions := by
      have hl : alookup "actions" (permStrList p)
          = if p.Actions ≠ "none" then some p.Actions else none := by
        simp only [permStrList, optStr, List.append_assoc]
        rw [alookup_optF_eq]
        rw [alookup_optF_ne (show ("actions" : String) ≠ "attestations" by decide)]
        rw [alookup_optF_ne (show ("actions" : String) ≠ "checks" by decide)]
        rw [alookup_optF_ne (show ("actions" : String) ≠ "contents" by decide)]
        rw [alookup_optF_ne (show ("actions" : String) ≠ "deployments" by decide)]
        rw [alookup_optF_ne (show ("actions" : String) ≠ "discussions" by decide)]
        rw [alookup_optF_ne (show ("actions" : String) ≠ "id-token" by decide)]
        rw [alookup_optF_ne (show ("actions" : String) ≠ "issues" by decide)]
        rw [alookup_optF_ne (show ("actions" : String) ≠ "models" by decide)]
        rw [alookup_optF_ne (show ("actions" : String) ≠ "packages" by decide)]
        rw [alookup_optF_ne (show ("actions" : String) ≠ "pages" by decide)]
        rw [alookup_optF_ne (show ("actions" : String) ≠ "pull-requests" by decide)]
        rw [alookup_optF_ne (show ("actions" : String) ≠ "security-events" by decide)]
        rw [alookup_optF_ne₁ (show ("actions" : String) ≠ "statuses" by decide)]
      rw [applyScope_resolve hl]
      split_ifs with hc
      · rfl
      · exact (of_not_not hc).symm
    have ha2 : applyScope (permStrList p) "attestations" = p.Attestations := by
      have hl : alookup "attestations" (permStrList p)
          = if p.Attestations ≠ "none" then some p.Attestations else none := by
        simp only [permStrList, optStr, List.append_assoc]
        rw [alookup_optF_ne (show ("attestations" : String) ≠ "actions" by decide)]
        rw [alookup_optF_eq]
        rw [alookup_optF_ne (show ("attestations" : String) ≠ "checks" by decide)]
        rw [alookup_optF_ne (show ("attestations" : String) ≠ "contents" by decide)]
        rw [alookup_optF_ne (show ("attestations" : String) ≠ "deployments" by decide)]
        rw [alookup_optF_ne (show ("attestations" : String) ≠ "discussions" by decide)]
        rw [alookup_optF_ne (show ("attestations" : String) ≠ "id-token" by decide)]
        rw [alookup_optF_ne (show ("attestations" : String) ≠ "issues" by decide)]
        rw [alookup_optF_ne (show ("attestations" : String) ≠ "models" by decide)]
        rw [alookup_optF_ne (show ("attestations" : String) ≠ "packages" by decide)]
        rw [alookup_optF_ne (show ("attestations" : String) ≠ "pages" by decide)]
        rw [alookup_optF_ne (show ("attestations" : String) ≠ "pull-requests" by decide)]
        rw [alookup_optF_ne (show ("attestations" : String) ≠ "security-events" by decide)]
        rw [alookup_optF_ne₁ (show ("attestations" : String) ≠ "statuses" by decide)]
      rw [applyScope_resolve hl]
      split_ifs with hc
      · rfl
      · exact (of_not_not hc).symm
    have ha3 : applyScope (permStrList p) "checks" = p.Checks := by
      have hl : alookup "checks" (permStrList p)
          = if p.Checks ≠ "none" then some p.Checks else none := by
        simp only [permStrList, optStr, List.append_assoc]
        rw [alookup_optF_ne (show ("checks" : String) ≠ "actions" by decide)]
        rw [alookup_optF_ne (show ("checks" : String) ≠ "attestations" by decide)]
        rw [alookup_optF_eq]
        rw [alookup_optF_ne (show ("checks" : String) ≠ "contents" by decide)]
        rw [alookup_optF_ne (show ("checks" : String) ≠ "deployments" by decide)]
        rw [alookup_optF_ne (show ("checks" : String) ≠ "discussions" by decide)]
        rw [alookup_optF_ne (show ("checks" : String) ≠ "id-token" by decide)]
        rw [alookup_optF_ne (show ("checks" : String) ≠ "issues" by decide)]
        rw [alookup_optF_ne (show ("checks" : String) ≠ "models" by decide)]
        rw [alookup_optF_ne (show ("checks" : String) ≠ "packages" by decide)]
        rw [alookup_optF_ne (show ("checks" : String) ≠ "pages" by decide)]
        rw [alookup_optF_ne (show ("checks" : String) ≠ "pull-requests" by decide)]
        rw [alookup_optF_ne (show ("checks" : String) ≠ "security-events" by decide)]
        rw [alookup_optF_ne₁ (show ("checks" : String) ≠ "statuses" by decide)]
      rw [applyScope_resolve hl]
      split_ifs with hc
      · rfl
      · exact (of_not_not hc).symm
    have ha4 : applyScope (permStrList p) "contents" = p.Contents := by
      have hl : alookup "contents" (permStrList p)
          = if p.Contents ≠ "none" then some p.Contents else none := by
        simp only [permStrList, optStr, List.append_assoc]
        rw [alookup_optF_ne (show ("contents" : String) ≠ "actions" by decide)]
        rw [alookup_optF_ne (show ("contents" : String) ≠ "attestations" by decide)]
        rw [alookup_optF_ne (show ("contents" : String) ≠ "checks" by decide)]
        rw [alookup_optF_eq]
        rw [alookup_optF_ne (show ("contents" : String) ≠ "deployments" by decide)]
        rw [alookup_optF_ne (show ("contents" : String) ≠ "discussions" by decide)]
        rw [alookup_optF_ne (show ("contents" : String) ≠ "id-token" by decide)]
        rw [alookup_optF_ne (show ("contents" : String) ≠ "issues" by decide)]
        rw [alookup_optF_ne (show ("contents" : String) ≠ "models" by decide)]
        rw [alookup_optF_ne (show ("contents" : String) ≠ "packages" by decide)]
        rw [alookup_optF_ne (show ("contents" : String) ≠ "pages" by decide)]
        rw [alookup_optF_ne (show ("contents" : String) ≠ "pull-requests" by decide)]
        rw [alookup_optF_ne (show ("contents" : String) ≠ "security-events" by decide)]
        rw [alookup_optF_ne₁ (show ("contents" : String) ≠ "statuses" by decide)]
      rw [applyScope_resolve hl]
      split_ifs with hc
      · rfl
      · exact (of_not_not hc).symm
    have ha5 : applyScope (permStrList p) "deployments" = p.Deployments := by
      have hl : alookup "deployments" (permStrList p)
          = if p.Deployments ≠ "none" then some p.Deployments else none := by
        simp only [permStrList, optStr, List.append_assoc]
        rw [alookup_optF_ne (show ("deployments" : String) ≠ "actions" by decide)]
        rw [alookup_optF_ne (show ("deployments" : String) ≠ "attestations" by decide)]
        rw [alookup_optF_ne (show ("deployments" : String) ≠ "checks" by decide)]
        rw [alookup_optF_ne (show ("deployments" : String) ≠ "contents" by decide)]
        rw [alookup_optF_eq]
        rw [alookup_optF_ne (show ("deployments" : String) ≠ "discussions" by decide)]
        rw [alookup_optF_ne (show ("deployments" : String) ≠ "id-token" by decide)]
        rw [alookup_optF_ne (show ("deployments" : String) ≠ "issues" by decide)]
        rw [alookup_optF_ne (show ("deployments" : String) ≠ "models" by decide)]
        rw [alookup_optF_ne (show ("deployments" : String) ≠ "packages" by decide)]
        rw [alookup_optF_ne (show ("deployments" : String) ≠ "pages" by decide)]
        rw [alookup_optF_ne (show ("deployments" : String) ≠ "pull-requests" by decide)]
        rw [alookup_optF_ne (show ("deployments" : String) ≠ "security-events" by decide)]
        rw [alookup_optF_ne₁ (show ("deployments" : String) ≠ "statuses" by decide)]
      rw [applyScope_resolve hl]
      split_ifs with hc
      · rfl
      · exact (of_not_not hc).symm
    have ha6 : applyScope (permStrList p) "discussions" = p.Discussions := by
      have hl : alookup "discussions" (permStrList p)
          = if p.Discussions ≠ "none" then some p.Discussions else none := by
        simp only [permStrList, optStr, List.append_assoc]
        rw [alookup_optF_ne (show ("discussions" : String) ≠ "actions" by decide)]
        rw [alookup_optF_ne (show ("discussions" : String) ≠ "attestations" by decide)]
        rw [alookup_optF_ne (show ("discussions" : String) ≠ "checks" by decide)]
        rw [alookup_optF_ne (show ("discussions" : String) ≠ "contents" by decide)]
        rw [alookup_optF_ne (show ("discussions" : String) ≠ "deployments" by decide)]
        rw [alookup_optF_eq]
        rw [alookup_optF_ne (show ("discussions" : String) ≠ "id-token" by decide)]
        rw [alookup_optF_ne (show ("discussions" : String) ≠ "issues" by decide)]
        rw [alookup_optF_ne (show ("discussions" : String) ≠ "models" by decide)]
        rw [alookup_optF_ne (show ("discussions" : String) ≠ "packages" by decide)]
        rw [alookup_optF_ne (show ("discussions" : String) ≠ "pages" by decide)]
        rw [alookup_optF_ne (show ("discussions" : String) ≠ "pull-requests" by decide)]
        rw [alookup_optF_ne (show ("discussions" : String) ≠ "security-events" by decide)]
        rw [alookup_optF_ne₁ (show ("discussions" : String) ≠ "statuses" by decide)]
      rw [applyScope_resolve hl]
      split_ifs with hc
      · rfl
      · exact (of_not_not hc).symm
    have ha7 : applyScope (permStrList p) "id-token" = p.IdToken := by
      have hl : alookup "id-token" (permStrList p)
          = if p.IdToken ≠ "none" then some p.IdToken else none := by
        simp only [permStrList, optStr, List.append_assoc]
        rw [alookup_optF_ne (show ("id-token" : String) ≠ "actions" by decide)]
        rw [alookup_optF_ne (show ("id-token" : String) ≠ "attestations" by decide)]
        rw [alookup_optF_ne (show ("id-token" : String) ≠ "checks" by decide)]
        rw [alookup_optF_ne (show ("id-token" : String) ≠ "contents" by decide)]
        rw [alookup_optF_ne (show ("id-token" : String) ≠ "deployments" by decide)]
        rw [alookup_optF_ne (show ("id-token" : String) ≠ "discussions" by decide)]
        rw [alookup_optF_eq]
        rw [alookup_optF_ne (show ("id-token" : String) ≠ "issues" by decide)]
        rw [alookup_optF_ne (show ("id-token" : String) ≠ "models" by decide)]
        rw [alookup_optF_ne (show ("id-token" : String) ≠ "packages" by decide)]
        rw [alookup_optF_ne (show ("id-token" : String) ≠ "pages" by decide)]
        rw [alookup_optF_ne (show ("id-token" : String) ≠ "pull-requests" by decide)]
        rw [alookup_optF_ne (show ("id-token" : String) ≠ "security-events" by decide)]
        rw [alookup_optF_ne₁ (show ("id-token" : String) ≠ "statuses" by decide)]
      rw [applyScope_resolve hl]
      split_ifs with hc
      · rfl
      · exact (of_not_not hc).symm
    have ha8 : applyScope (permStrList p) "issues" = p.Issues := by
      have hl : alookup "issues" (permStrList p)
          = if p.Issues ≠ "none" then some p.Issues else none := by
        simp only [permStrList, optStr, List.append_assoc]
        rw [alookup_optF_ne (show ("issues" : String) ≠ "actions" by decide)]
        rw [alookup_optF_ne (show ("issues" : String) ≠ "attestations" by decide)]
        rw [alookup_optF_ne (show ("issues" : String) ≠ "checks" by decide)]
        rw [alookup_optF_ne (show ("issues" : String) ≠ "contents" by decide)]
        rw [alookup_optF_ne (show ("issues" : String) ≠ "deployments" by decide)]
        rw [alookup_optF_ne (show ("issues" : String) ≠ "discussions" by decide)]
        rw [alookup_optF_ne (show ("issues" : String) ≠ "id-token" by decide)]
        rw [alookup_optF_eq]
        rw [alookup_optF_ne (show ("issues" : String) ≠ "models" by decide)]
        rw [alookup_optF_ne (show ("issues" : String) ≠ "packages" by decide)]
        rw [alookup_optF_ne (show ("issues" : String) ≠ "pages" by decide)]
        rw [alookup_optF_ne (show ("issues" : String) ≠ "pull-requests" by decide)]
        rw [alookup_optF_ne (show ("issues" : String) ≠ "security-events" by decide)]
        rw [alookup_optF_ne₁ (show ("issues" : String) ≠ "statuses" by decide)]
      rw [applyScope_resolve hl]
      split_ifs with hc
      · rfl
      · exact (of_not_not hc).symm
    have ha9 : applyScope (permStrList p) "models" = p.Models := by
      have hl : alookup "models" (permStrList p)
          = if p.Models ≠ "none" then some p.Models else none := by
        simp only [permStrList, optStr, List.append_assoc]
        rw [alookup_optF_ne (show ("models" : String) ≠ "actions" by decide)]
        rw [alookup_optF_ne (show ("models" : String) ≠ "attestations" by decide)]
        rw [alookup_optF_ne (show ("models" : String) ≠ "checks" by decide)]
        rw [alookup_optF_ne (show ("models" : String) ≠ "contents" by decide)]
        rw [alookup_optF_ne (show ("models" : String) ≠ "deployments" by decide)]
        rw [alookup_optF_ne (show ("models" : String) ≠ "discussions" by decide)]
        rw [alookup_optF_ne (show ("models" : String) ≠ "id-token" by decide)]
        rw [alookup_optF_ne (show ("models" : String) ≠ "issues" by decide)]
        rw [alookup_optF_eq]
        rw [alookup_optF_ne (show ("models" : String) ≠ "packages" by decide)]
        rw [alookup_optF_ne (show ("models" : String) ≠ "pages" by decide)]
        rw [alookup_optF_ne (show ("models" : String) ≠ "pull-requests" by decide)]
        rw [alookup_optF_ne (show ("models" : String) ≠ "security-events" by decide)]
        rw [alookup_optF_ne₁ (show ("models" : String) ≠ "statuses" by decide)]
      rw [applyScope_resolve hl]
      split_ifs with hc
      · rfl
      · exact (of_not_not hc).symm
    have ha10 : applyScope (permStrList p) "packages" = p.Packages := by
      have hl : alookup "packages" (permStrList p)
          = if p.Packages ≠ "none" then some p.Packages else none := by
        simp only [permStrList, optStr, List.append_assoc]
        rw [alookup_optF_ne (show ("packages" : String) ≠ "actions" by decide)]
        rw [alookup_optF_ne (show ("packages" : String) ≠ "attestations" by decide)]
        rw [alookup_optF_ne (show ("packages" : String) ≠ "checks" by decide)]
        rw [alookup_optF_ne (show ("packages" : String) ≠ "contents" by decide)]
        rw [alookup_optF_ne (show ("packages" : String) ≠ "deployments" by decide)]
        rw [alookup_optF_ne (show ("packages" : String) ≠ "discussions" by decide)]
        rw [alookup_optF_ne (show ("packages" : String) ≠ "id-token" by decide)]
        rw [alookup_optF_ne (show ("packages" : String) ≠ "issues" by decide)]
        rw [alookup_optF_ne (show ("packages" : String) ≠ "models" by decide)]
        rw [alookup_optF_eq]
        rw [alookup_optF_ne (show ("packages" : String) ≠ "pages" by decide)]
        rw [alookup_optF_ne (show ("packages" : String) ≠ "pull-requests" by decide)]
        rw [alookup_optF_ne (show ("packages" : String) ≠ "security-events" by decide)]
        rw [alookup_optF_ne₁ (show ("packages" : String) ≠ "statuses" by decide)]
      rw [applyScope_resolve hl]
      split_ifs with hc
      · rfl
      · exact (of_not_not hc).symm
    have ha11 : applyScope (permStrList p) "pages" = p.Pages := by
      have hl : alookup "pages" (permStrList p)
          = if p.Pages ≠ "none" then some p.Pages else none := by
        simp only [permStrList, optStr, List.append_assoc]
        rw [alookup_optF_ne (show ("pages" : String) ≠ "actions" by decide)]
        rw [alookup_optF_ne (show ("pages" : String) ≠ "attestations" by decide)]
        rw [alookup_optF_ne (show ("pages" : String) ≠ "checks" by decide)]
        rw [alookup_optF_ne (show ("pages" : String) ≠ "contents" by decide)]
        rw [alookup_optF_ne (show ("pages" : String) ≠ "deployments" by decide)]
        rw [alookup_optF_ne (show ("pages" : String) ≠ "discussions" by decide)]
        rw [alookup_optF_ne (show ("pages" : String) ≠ "id-token" by decide)]
        rw [alookup_optF_ne (show ("pages" : String) ≠ "issues" by decide)]
        rw [alookup_optF_ne (show ("pages" : String) ≠ "models" by decide)]
        rw [alookup_optF_ne (show ("pages" : String) ≠ "packages" by decide)]
        rw [alookup_optF_eq]
        rw [alookup_optF_ne (show ("pages" : String) ≠ "pull-requests" by decide)]
        rw [alookup_optF_ne (show ("pages" : String) ≠ "security-events" by decide)]
        rw [alookup_optF_ne₁ (show ("pages" : String) ≠ "statuses" by decide)]
      rw [applyScope_resolve hl]
      split_ifs with hc
      · rfl
      · exact (of_not_not hc).symm
    have ha12 : applyScope (permStrList p) "pull-requests" = p.PullRequests := by
      have hl : alookup "pull-requests" (permStrList p)
          = if p.PullRequests ≠ "none" then some p.PullRequests else none := by
        simp only [permStrList, optStr, List.append_assoc]
        rw [alookup_optF_ne (show ("pull-requests" : String) ≠ "actions" by decide)]
        rw [alookup_optF_ne (show ("pull-requests" : String) ≠ "attestations" by decide)]
        rw [alookup_optF_ne (show ("pull-requests" : String) ≠ "checks" by decide)]
        rw [alookup_optF_ne (show ("pull-requests" : String) ≠ "contents" by decide)]
        rw [alookup_optF_ne (show ("pull-requests" : String) ≠ "deployments" by decide)]
        rw [alookup_optF_ne (show ("pull-requests" : String) ≠ "discussions" by decide)]
        rw [alookup_optF_ne (show ("pull-requests" : String) ≠ "id-token" by decide)]
        rw [alookup_optF_ne (show ("pull-requests" : String) ≠ "issues" by decide)]
        rw [alookup_optF_ne (show ("pull-requests" : String) ≠ "models" by decide)]
        rw [alookup_optF_ne (show ("pull-requests" : String) ≠ "packages" by decide)]
        rw [alookup_optF_ne (show ("pull-requests" : String) ≠ "pages" by decide)]
        rw [alookup_optF_eq]
        rw [alookup_optF_ne (show ("pull-requests" : String) ≠ "security-events" by decide)]
        rw [alookup_optF_ne₁ (show ("pull-requests" : String) ≠ "statuses" by decide)]
      rw [applyScope_resolve hl]
      split_ifs with hc
      · rfl
      · exact (of_not_not hc).symm
    have ha13 : applyScope (permStrList p) "security-events" = p.SecurityEvents := by
      have hl : alookup "security-events" (permStrList p)
          = if p.SecurityEvents ≠ "none" then some p.SecurityEvents else none := by
        simp only [permStrList, optStr, List.append_assoc]
        rw [alookup_optF_ne (show ("security-events" : String) ≠ "actions" by decide)]
        rw [alookup_optF_ne (show ("security-events" : String) ≠ "attestations" by decide)]
        rw [alookup_optF_ne (show ("security-events" : String) ≠ "checks" by decide)]
        rw [alookup_optF_ne (show ("security-events" : String) ≠ "contents" by decide)]
        rw [alookup_optF_ne (show ("security-events" : String) ≠ "deployments" by decide)]
        rw [alookup_optF_ne (show ("security-events" : String) ≠ "discussions" by decide)]
        rw [alookup_optF_ne (show ("security-events" : String) ≠ "id-token" by decide)]
        rw [alookup_optF_ne (show ("security-events" : String) ≠ "issues" by decide)]
        rw [alookup_optF_ne (show ("security-events" : String) ≠ "models" by decide)]
        rw [alookup_optF_ne (show ("security-events" : String) ≠ "packages" by decide)]
        rw [alookup_optF_ne (show ("security-events" : String) ≠ "pages" by decide)]
        rw [alookup_optF_ne (show ("security-events" : String) ≠ "pull-requests" by decide)]
        rw [alookup_optF_eq]
        rw [alookup_optF_ne₁ (show ("security-events" : String) ≠ "statuses" by decide)]
      rw [applyScope_resolve hl]
      split_ifs with hc
      · rfl
      · exact (of_not_not hc).symm
    have ha14 : applyScope (permStrList p) "statuses" = p.Statuses := by
      have hl : alookup "statuses" (permStrList p)
          = if p.Statuses ≠ "none" then some p.Statuses else none := by
        simp only [permStrList, optStr, List.append_assoc]
        rw [alookup_optF_ne (show ("statuses" : String) ≠ "actions" by decide)]
        rw [alookup_optF_ne (show ("statuses" : String) ≠ "attestations" by decide)]
        rw [alookup_optF_ne (show ("statuses" : String) ≠ "checks" by decide)]
        rw [alookup_optF_ne (show ("statuses" : String) ≠ "contents" by decide)]
        rw [alookup_optF_ne (show ("statuses" : String) ≠ "deployments" by decide)]
        rw [alookup_optF_ne (show ("statuses" : String) ≠ "discussions" by decide)]
        rw [alookup_optF_ne (show ("statuses" : String) ≠ "id-token" by decide)]
        rw [alookup_optF_ne (show ("statuses" : String) ≠ "issues" by decide)]
        rw [alookup_optF_ne (show ("statuses" : String) ≠ "models" by decide)]
        rw [alookup_optF_ne (show ("statuses" : String) ≠ "packages" by decide)]
        rw [alookup_optF_ne (show ("statuses" : String) ≠ "pages" by decide)]
        rw [alookup_optF_ne (show ("statuses" : String) ≠ "pull-requests" by decide)]
        rw [alookup_optF_ne (show ("statuses" : String) ≠ "security-events" by decide)]
        rw [alookup_optF_eq₁]
      rw [applyScope_resolve hl]
      split_ifs with hc
      · rfl
      · exact (of_not_not hc).symm
    rw [ha1, ha2, ha3, ha4, ha5, ha6, ha7, ha8, ha9, ha10, ha11, ha12, ha13, ha14]


theorem step_rt (s : Step) (h : StepUsesOk s.Uses) :
    (stepMarshal s >>= stepUnmarshal) = .ok s := by
  obtain ⟨uy, hmE, hmD⟩ := uses_rt_ex s.Uses h
  unfold stepMarshal
  rw [hmE, ok_bind, ok_bind]
  simp only [stepUnmarshal]
  simp only [optField, reqField, List.append_assoc]
  rw [alookup_req_eq]
  rw [alookup_req_ne (show ("env" : String) ≠ "with" by decide)]
  rw [alookup_req_eq]
  rw [alookup_req_ne (show ("name" : String) ≠ "with" by decide)]
  rw [alookup_req_ne (show ("name" : String) ≠ "env" by decide)]
  rw [alookup_req_eq]
  rw [alookup_req_ne (show ("run" : String) ≠ "with" by decide)]
  rw [alookup_req_ne (show ("run" : String) ≠ "env" by decide)]
  rw [alookup_req_ne (show ("run" : String) ≠ "name" by decide)]
  rw [alookup_req_eq]
  rw [alookup_req_ne (show ("shell" : String) ≠ "with" by decide)]
  rw [alookup_req_ne (show ("shell" : String) ≠ "env" by decide)]
  rw [alookup_req_ne (show ("shell" : String) ≠ "name" by decide)]
  rw [alookup_req_ne (show ("shell" : String) ≠ "run" by decide)]
  rw [alookup_req_eq]
  rw [alookup_req_ne (show ("uses" : String) ≠ "with" by decide)]
  rw [alookup_req_ne (show ("uses" : String) ≠ "env" by decide)]
  rw [alookup_req_ne (show ("uses" : String) ≠ "name" by decide)]
  rw [alookup_req_ne (show ("uses" : String) ≠ "run" by decide)]
  rw [alookup_req_ne (show ("uses" : String) ≠ "shell" by decide)]
  rw [alookup_req_eq₁]
  simp only [fieldD_opt, fieldD_some]
  rw [strmap_rt s.With, strmap_rt s.Env]
  rw [hmD]
  simp only [encStr, decStr, decBool, decInt]
  rfl

theorem steps_rt_ex (l : List Step) (h : ∀ s ∈ l, StepUsesOk s.Uses) :
    ∃ y, encSteps l = .ok y ∧ decSteps y = .ok l := by
  obtain ⟨ys, h₁, h₂⟩ := mapM_rt stepMarshal stepUnmarshal l (fun s hs => step_rt s (h s hs))
  refine ⟨.seq ys, ?_, ?_⟩
  · unfold encSteps
    rw [h₁]
    rfl
  · simp only [decSteps]
    exact h₂

theorem environment_rt (e : Environment) :
    environmentUnmarshal (environmentMarshal e) = .ok e := by
  unfold environmentMarshal
  split_ifs with hu
  · simp only [environmentUnmarshal]
    rw [← hu]
  · simp only [environmentUnmarshal]
    have hd : decodeStrMap (.map [("name", .str e.Name ""), ("url", .str e.Url "")])
        = .ok [("name", e.Name), ("url", e.Url)] := rfl
    rw [hd]
    simp [alookup]

theorem strategy_rt (s : Strategy) (h : MatrixOk s.Matrix) :
    strategyUnmarshal (strategyMarshal s) = .ok s := by
  unfold strategyMarshal strategyUnmarshal
  simp only [optField, reqField, List.append_assoc]
  rw [alookup_optF_eq]
  rw [alookup_optF_ne (show ("matrix" : String) ≠ "fail-fast" by decide)]
  rw [alookup_optF_ne₁ (show ("matrix" : String) ≠ "max-parallel" by decide)]
  rw [alookup_optF_ne (show ("fail-fast" : String) ≠ "matrix" by decide)]
  rw [alookup_optF_eq]
  rw [alookup_optF_ne₁ (show ("fail-fast" : String) ≠ "max-parallel" by decide)]
  rw [alookup_optF_ne (show ("max-parallel" : String) ≠ "matrix" by decide)]
  rw [alookup_optF_ne (show ("max-parallel" : String) ≠ "fail-fast" by decide)]
  rw [alookup_optF_eq₁]
  simp only [fieldD_opt, fieldD_some]
  rw [matrixS_rt s.Matrix h]
  simp only [encStr, decStr, decBool, decInt]
  rw [ite_ne_collapse (fun v => (Except.ok v : Except String Matrix)) s.Matrix (⟨[], [], []⟩ : Matrix)]
  rw [ite_ne_collapse (fun v => (Except.ok v : Except String Bool)) s.FailFast false]
  rw [ite_ne_collapse (fun v => (Except.ok v : Except String Int)) s.MaxParallel 0]
  rfl


theorem bind_rt_ex {α : Type} {m : Except String Yaml} {dec : Yaml → Except String α}
    {x : α} (hb : (m >>= dec) = .ok x) : ∃ y, m = .ok y ∧ dec y = .ok x := by
  cases he : m with
  | error e =>
    rw [he, error_bind] at hb
    exact absurd hb (by simp)
  | ok y =>
    rw [he, ok_bind] at hb
    exact ⟨y, rfl, hb⟩

theorem job_rt (j : Job) (h : JobOk j) :
    (jobMarshal j >>= jobUnmarshal) = .ok j := by
  obtain ⟨ys, hysE, hysD⟩ := steps_rt_ex j.Steps h.1
  unfold jobMarshal
  rw [hysE, ok_bind, ok_bind]
  simp only [jobUnmarshal]
  simp only [optField, reqField, List.append_assoc]
  rw [alookup_optF_eq]
  rw [alookup_optF_ne (show ("name" : String) ≠ "environment" by decide)]
  rw [alookup_optF_ne (show ("name" : String) ≠ "continue-on-error" by decide)]
  rw [alookup_optF_ne (show ("name" : String) ≠ "timeout-minutes" by decide)]
  rw [alookup_optF_ne (show ("name" : String) ≠ "if" by decide)]
  rw [alookup_optF_ne (show ("name" : String) ≠ "needs" by decide)]
  rw [alookup_optF_ne (show ("name" : String) ≠ "concurrency" by decide)]
  rw [alookup_optF_ne (show ("name" : String) ≠ "defaults" by decide)]
  rw [alookup_optF_ne (show ("name" : String) ≠ "strategy" by decide)]
  rw [alookup_optF_ne (show ("name" : String) ≠ "services" by decide)]
  rw [alookup_optF_ne (show ("name" : String) ≠ "outputs" by decide)]
  rw [alookup_optF_ne (show ("name" : String) ≠ "permissions" by decide)]
  rw [alookup_optF_ne (show ("name" : String) ≠ "env" by decide)]
  rw [alookup_optF_ne (show ("name" : String) ≠ "steps" by decide)]
  rw [alookup_optF_ne (show ("name" : String) ≠ "uses" by decide)]
  rw [alookup_optF_ne₁ (show ("name" : String) ≠ "with" by decide)]
  rw [alookup_optF_ne (show ("environment" : String) ≠ "name" by decide)]
  rw [alookup_optF_eq]
  rw [alookup_optF_ne (show ("environment" : String) ≠ "continue-on-error" by decide)]
  rw [alookup_optF_ne (show ("environment" : String) ≠ "timeout-minutes" by decide)]
  rw [alookup_optF_ne (show ("environment" : String) ≠ "if" by decide)]
  rw [alookup_optF_ne (show ("environment" : String) ≠ "needs" by decide)]
  rw [alookup_optF_ne (show ("environment" : String) ≠ "concurrency" by decide)]
  rw [alookup_optF_ne (show ("environment" : String) ≠ "defaults" by decide)]
  rw [alookup_optF_ne (show ("environment" : String) ≠ "strategy" by decide)]
  rw [alookup_optF_ne (show ("environment" : String) ≠ "services" by decide)]
  rw [alookup_optF_ne (show ("environment" : String) ≠ "outputs" by decide)]
  rw [alookup_optF_ne (show ("environment" : String) ≠ "permissions" by decide)]
  rw [alookup_optF_ne (show ("environment" : String) ≠ "env" by decide)]
  rw [alookup_optF_ne (show ("environment" : String) ≠ "steps" by decide)]
  rw [alookup_optF_ne (show ("environment" : String) ≠ "uses" by decide)]
  rw [alookup_optF_ne₁ (show ("environment" : String) ≠ "with" by decide)]
  rw [alookup_optF_ne (show ("continue-on-error" : String) ≠ "name" by decide)]
  rw [alookup_optF_ne (show ("continue-on-error" : String) ≠ "environment" by decide)]
  rw [alookup_optF_eq]
  rw [alookup_optF_ne (show ("continue-on-error" : String) ≠ "timeout-minutes" by decide)]
  rw [alookup_optF_ne (show ("continue-on-error" : String) ≠ "if" by decide)]
  rw [alookup_optF_ne (show ("continue-on-error" : String) ≠ "needs" by decide)]
  rw [alookup_optF_ne (show ("continue-on-error" : String) ≠ "concurrency" by decide)]
  rw [alookup_optF_ne (show ("continue-on-error" : String) ≠ "defaults" by decide)]
  rw [alookup_optF_ne (show ("continue-on-error" : String) ≠ "strategy" by decide)]
  rw [alookup_optF_ne (show ("continue-on-error" : String) ≠ "services" by decide)]
  rw [alookup_optF_ne (show ("continue-on-error" : String) ≠ "outputs" by decide)]
  rw [alookup_optF_ne (show ("continue-on-error" : String) ≠ "permissions" by decide)]
  rw [alookup_optF_ne (show ("continue-on-error" : String) ≠ "env" by decide)]
  rw [alookup_optF_ne (show ("continue-on-error" : String) ≠ "steps" by decide)]
  rw [alookup_optF_ne (show ("continue-on-error" : String) ≠ "uses" by decide)]
  rw [alookup_optF_ne₁ (show ("continue-on-error" : String) ≠ "with" by decide)]
  rw [alookup_optF_ne (show ("timeout-minutes" : String) ≠ "name" by decide)]
  rw [alookup_optF_ne (show ("timeout-minutes" : String) ≠ "environment" by decide)]
  rw [alookup_optF_ne (show ("timeout-minutes" : String) ≠ "continue-on-error" by decide)]
  rw [alookup_optF_eq]
  rw [alookup_optF_ne (show ("timeout-minutes" : String) ≠ "if" by decide)]
  rw [alookup_optF_ne (show ("timeout-minutes" : String) ≠ "needs" by decide)]
  rw [alookup_optF_ne (show ("timeout-minutes" : String) ≠ "concurrency" by decide)]
  rw [alookup_optF_ne (show ("timeout-minutes" : String) ≠ "defaults" by decide)]
  rw [alookup_optF_ne (show ("timeout-minutes" : String) ≠ "strategy" by decide)]
  rw [alookup_optF_ne (show ("timeout-minutes" : String) ≠ "services" by decide)]
  rw [alookup_optF_ne (show ("timeout-minutes" : String) ≠ "outputs" by decide)]
  rw [alookup_optF_ne (show ("timeout-minutes" : String) ≠ "permissions" by decide)]
  rw [alookup_optF_ne (show ("timeout-minutes" : String) ≠ "env" by decide)]
  rw [alookup_optF_ne (show ("timeout-minutes" : String) ≠ "steps" by decide)]
  rw [alookup_optF_ne (show ("timeout-minutes" : String) ≠ "uses" by decide)]
  rw [alookup_optF_ne₁ (show ("timeout-minutes" : String) ≠ "with" by decide)]
  rw [alookup_optF_ne (show ("if" : String) ≠ "name" by decide)]
  rw [alookup_optF_ne (show ("if" : String) ≠ "environment" by decide)]
  rw [alookup_optF_ne (show ("if" : String) ≠ "continue-on-error" by decide)]
  rw [alookup_optF_ne (show ("if" : String) ≠ "timeout-minutes" by decide)]
  rw [alookup_optF_eq]
  rw [alookup_optF_ne (show ("if" : String) ≠ "needs" by decide)]
  rw [alookup_optF_ne (show ("if" : String) ≠ "concurrency" by decide)]
  rw [alookup_optF_ne (show ("if" : String) ≠ "defaults" by decide)]
  rw [alookup_optF_ne (show ("if" : String) ≠ "strategy" by decide)]
  rw [alookup_optF_ne (show ("if" : String) ≠ "services" by decide)]
  rw [alookup_optF_ne (show ("if" : String) ≠ "outputs" by decide)]
  rw [alookup_optF_ne (show ("if" : String) ≠ "permissions" by decide)]
  rw [alookup_optF_ne (show ("if" : String) ≠ "env" by decide)]
  rw [alookup_optF_ne (show ("if" : String) ≠ "steps" by decide)]
  rw [alookup_optF_ne (show ("if" : String) ≠ "uses" by decide)]
  rw [alookup_optF_ne₁ (show ("if" : String) ≠ "with" by decide)]
  rw [alookup_optF_ne (show ("needs" : String) ≠ "name" by decide)]
  rw [alookup_optF_ne (show ("needs" : String) ≠ "environment" by decide)]
  rw [alookup_optF_ne (show ("needs" : String) ≠ "continue-on-error" by decide)]
  rw [alookup_optF_ne (show ("needs" : String) ≠ "timeout-minutes" by decide)]
  rw [alookup_optF_ne (show ("needs" : String) ≠ "if" by decide)]
  rw [alookup_optF_eq]
  rw [alookup_optF_ne (show ("needs" : String) ≠ "concurrency" by decide)]
  rw [alookup_optF_ne (show ("needs" : String) ≠ "defaults" by decide)]
  rw [alookup_optF_ne (show ("needs" : String) ≠ "strategy" by decide)]
  rw [alookup_optF_ne (show ("needs" : String) ≠ "services" by decide)]
  rw [alookup_optF_ne (show ("needs" : String) ≠ "outputs" by decide)]
  rw [alookup_optF_ne (show ("needs" : String) ≠ "permissions" by decide)]
  rw [alookup_optF_ne (show ("needs" : String) ≠ "env" by decide)]
  rw [alookup_optF_ne (show ("needs" : String) ≠ "steps" by decide)]
  rw [alookup_optF_ne (show ("needs" : String) ≠ "uses" by decide)]
  rw [alookup_optF_ne₁ (show ("needs" : String) ≠ "with" by decide)]
  rw [alookup_optF_ne (show ("concurrency" : String) ≠ "name" by decide)]
  rw [alookup_optF_ne (show ("concurrency" : String) ≠ "environment" by decide)]
  rw [alookup_optF_ne (show ("concurrency" : String) ≠ "continue-on-error" by decide)]
  rw [alookup_optF_ne (show ("concurrency" : String) ≠ "timeout-minutes" by decide)]
  rw [alookup_optF_ne (show ("concurrency" : String) ≠ "if" by decide)]
  rw [alookup_optF_ne (show ("concurrency" : String) ≠ "needs" by decide)]
  rw [alookup_optF_eq]
  rw [alookup_optF_ne (show ("concurrency" : String) ≠ "defaults" by decide)]
  rw [alookup_optF_ne (show ("concurrency" : String) ≠ "strategy" by decide)]
  rw [alookup_optF_ne (show ("concurrency" : String) ≠ "services" by decide)]
  rw [alookup_optF_ne (show ("concurrency" : String) ≠ "outputs" by decide)]
  rw [alookup_optF_ne (show ("concurrency" : String) ≠ "permissions" by decide)]
  rw [alookup_optF_ne (show ("concurrency" : String) ≠ "env" by decide)]
  rw [alookup_optF_ne (show ("concurrency" : String) ≠ "steps" by decide)]
  rw [alookup_optF_ne (show ("concurrency" : String) ≠ "uses" by decide)]
  rw [alookup_optF_ne₁ (show ("concurrency" : String) ≠ "with" by decide)]
  rw [alookup_optF_ne (show ("defaults" : String) ≠ "name" by decide)]
  rw [alookup_optF_ne (show ("defaults" : String) ≠ "environment" by decide)]
  rw [alookup_optF_ne (show ("defaults" : String) ≠ "continue-on-error" by decide)]
  rw [alookup_optF_ne (show ("defaults" : String) ≠ "timeout-minutes" by decide)]
  rw [alookup_optF_ne (show ("defaults" : String) ≠ "if" by decide)]
  rw [alookup_optF_ne (show ("defaults" : String) ≠ "needs" by decide)]
  rw [alookup_optF_ne (show ("defaults" : String) ≠ "concurrency" by decide)]
  rw [alookup_optF_eq]
  rw [alookup_optF_ne (show ("defaults" : String) ≠ "strategy" by decide)]
  rw [alookup_optF_ne (show ("defaults" : String) ≠ "services" by decide)]
  rw [alookup_optF_ne (show ("defaults" : String) ≠ "outputs" by decide)]
  rw [alookup_optF_ne (show ("defaults" : String) ≠ "permissions" by decide)]
  rw [alookup_optF_ne (show ("defaults" : String) ≠ "env" by decide)]
  rw [alookup_optF_ne (show ("defaults" : String) ≠ "steps" by decide)]
  rw [alookup_optF_ne (show ("defaults" : String) ≠ "uses" by decide)]
  rw [alookup_optF_ne₁ (show ("defaults" : String) ≠ "with" by decide)]
  rw [alookup_optF_ne (show ("strategy" : String) ≠ "name" by decide)]
  rw [alookup_optF_ne (show ("strategy" : String) ≠ "environment" by decide)]
  rw [alookup_optF_ne (show ("strategy" : String) ≠ "continue-on-error" by decide)]
  rw [alookup_optF_ne (show ("strategy" : String) ≠ "timeout-minutes" by decide)]
  rw [alookup_optF_ne (show ("strategy" : String) ≠ "if" by decide)]
  rw [alookup_optF_ne (show ("strategy" : String) ≠ "needs" by decide)]
  rw [alookup_optF_ne (show ("strategy" : String) ≠ "concurrency" by decide)]
  rw [alookup_optF_ne (show ("strategy" : String) ≠ "defaults" by decide)]
  rw [alookup_optF_eq]
  rw [alookup_optF_ne (show ("strategy" : String) ≠ "services" by decide)]
  rw [alookup_optF_ne (show ("strategy" : String) ≠ "outputs" by decide)]
  rw [alookup_optF_ne (show ("strategy" : String) ≠ "permissions" by decide)]
  rw [alookup_optF_ne (show ("strategy" : String) ≠ "env" by decide)]
  rw [alookup_optF_ne (show ("strategy" : String) ≠ "steps" by decide)]
  rw [alookup_optF_ne (show ("strategy" : String) ≠ "uses" by decide)]
  rw [alookup_optF_ne₁ (show ("strategy" : String) ≠ "with" by decide)]
  rw [alookup_optF_ne (show ("services" : String) ≠ "name" by decide)]
  rw [alookup_optF_ne (show ("services" : String) ≠ "environment" by decide)]
  rw [alookup_optF_ne (show ("services" : String) ≠ "continue-on-error" by decide)]
  rw [alookup_optF_ne (show ("services" : String) ≠ "timeout-minutes" by decide)]
  rw [alookup_optF_ne (show ("services" : String) ≠ "if" by decide)]
  rw [alookup_optF_ne (show ("services" : String) ≠ "needs" by decide)]
  rw [alookup_optF_ne (show ("services" : String) ≠ "concurrency" by decide)]
  rw [alookup_optF_ne (show ("services" : String) ≠ "defaults" by decide)]
  rw [alookup_optF_ne (show ("services" : String) ≠ "strategy" by decide)]
  rw [alookup_optF_eq]
  rw [alookup_optF_ne (show ("services" : String) ≠ "outputs" by decide)]
  rw [alookup_optF_ne (show ("services" : String) ≠ "permissions" by decide)]
  rw [alookup_optF_ne (show ("services" : String) ≠ "env" by decide)]
  rw [alookup_optF_ne (show ("services" : String) ≠ "steps" by decide)]
  rw [alookup_optF_ne (show ("services" : String) ≠ "uses" by decide)]
  rw [alookup_optF_ne₁ (show ("services" : String) ≠ "with" by decide)]
  rw [alookup_optF_ne (show ("outputs" : String) ≠ "name" by decide)]
  rw [alookup_optF_ne (show ("outputs" : String) ≠ "environment" by decide)]
  rw [alookup_optF_ne (show ("outputs" : String) ≠ "continue-on-error" by decide)]
  rw [alookup_optF_ne (show ("outputs" : String) ≠ "timeout-minutes" by decide)]
  rw [alookup_optF_ne (show ("outputs" : String) ≠ "if" by decide)]
  rw [alookup_optF_ne (show ("outputs" : String) ≠ "needs" by decide)]
  rw [alookup_optF_ne (show ("outputs" : String) ≠ "concurrency" by decide)]
  rw [alookup_optF_ne (show ("outputs" : String) ≠ "defaults" by decide)]
  rw [alookup_optF_ne (show ("outputs" : String) ≠ "strategy" by decide)]
  rw [alookup_optF_ne (show ("outputs" : String) ≠ "services" by decide)]
  rw [alookup_optF_eq]
  rw [alookup_optF_ne (show ("outputs" : String) ≠ "permissions" by decide)]
  rw [alookup_optF_ne (show ("outputs" : String) ≠ "env" by decide)]
  rw [alookup_optF_ne (show ("outputs" : String) ≠ "steps" by decide)]
  rw [alookup_optF_ne (show ("outputs" : String) ≠ "uses" by decide)]
  rw [alookup_optF_ne₁ (show ("outputs" : String) ≠ "with" by decide)]
  rw [alookup_optF_ne (show ("permissions" : String) ≠ "name" by decide)]
  rw [alookup_optF_ne (show ("permissions" : String) ≠ "environment" by decide)]
  rw [alookup_optF_ne (show ("permissions" : String) ≠ "continue-on-error" by decide)]
  rw [alookup_optF_ne (show ("permissions" : String) ≠ "timeout-minutes" by decide)]
  rw [alookup_optF_ne (show ("permissions" : String) ≠ "if" by decide)]
  rw [alookup_optF_ne (show ("permissions" : String) ≠ "needs" by decide)]
  rw [alookup_optF_ne (show ("permissions" : String) ≠ "concurrency" by decide)]
  rw [alookup_optF_ne (show ("permissions" : String) ≠ "defaults" by decide)]
  rw [alookup_optF_ne (show ("permissions" : String) ≠ "strategy" by decide)]
  rw [alookup_optF_ne (show ("permissions" : String) ≠ "services" by decide)]
  rw [alookup_optF_ne (show ("permissions" : String) ≠ "outputs" by decide)]
  rw [alookup_optF_eq]
  rw [alookup_optF_ne (show ("permissions" : String) ≠ "env" by decide)]
  rw [alookup_optF_ne (show ("permissions" : String) ≠ "steps" by decide)]
  rw [alookup_optF_ne (show ("permissions" : String) ≠ "uses" by decide)]
  rw [alookup_optF_ne₁ (show ("permissions" : String) ≠ "with" by decide)]
  rw [alookup_optF_ne (show ("env" : String) ≠ "name" by decide)]
  rw [alookup_optF_ne (show ("env" : String) ≠ "environment" by decide)]
  rw [alookup_optF_ne (show ("env" : String) ≠ "continue-on-error" by decide)]
  rw [alookup_optF_ne (show ("env" : String) ≠ "timeout-minutes" by decide)]
  rw [alookup_optF_ne (show ("env" : String) ≠ "if" by decide)]
  rw [alookup_optF_ne (show ("env" : String) ≠ "needs" by decide)]
  rw [alookup_optF_ne (show ("env" : String) ≠ "concurrency" by decide)]
  rw [alookup_optF_ne (show ("env" : String) ≠ "defaults" by decide)]
  rw [alookup_optF_ne (show ("env" : String) ≠ "strategy" by decide)]
  rw [alookup_optF_ne (show ("env" : String) ≠ "services" by decide)]
  rw [alookup_optF_ne (show ("env" : String) ≠ "outputs" by decide)]
  rw [alookup_optF_ne (show ("env" : String) ≠ "permissions" by decide)]
  rw [alookup_optF_eq]
  rw [alookup_optF_ne (show ("env" : String) ≠ "steps" by decide)]
  rw [alookup_optF_ne (show ("env" : String) ≠ "uses" by decide)]
  rw [alookup_optF_ne₁ (show ("env" : String) ≠ "with" by decide)]
  rw [alookup_optF_ne (show ("steps" : String) ≠ "name" by decide)]
  rw [alookup_optF_ne (show ("steps" : String) ≠ "environment" by decide)]
  rw [alookup_optF_ne (show ("steps" : String) ≠ "continue-on-error" by decide)]
  rw [alookup_optF_ne (show ("steps" : String) ≠ "timeout-minutes" by decide)]
  rw [alookup_optF_ne (show ("steps" : String) ≠ "if" by decide)]
  rw [alookup_optF_ne (show ("steps" : String) ≠ "needs" by decide)]
  rw [alookup_optF_ne (show ("steps" : String) ≠ "concurrency" by decide)]
  rw [alookup_optF_ne (show ("steps" : String) ≠ "defaults" by decide)]
  rw [alookup_optF_ne (show ("steps" : String) ≠ "strategy" by decide)]
  rw [alookup_optF_ne (show ("steps" : String) ≠ "services" by decide)]
  rw [alookup_optF_ne (show ("steps" : String) ≠ "outputs" by decide)]
  rw [alookup_optF_ne (show ("steps" : String) ≠ "permissions" by decide)]
  rw [alookup_optF_ne (show ("steps" : String) ≠ "env" by decide)]
  rw [alookup_optF_eq]
  rw [alookup_optF_ne (show ("steps" : String) ≠ "uses" by decide)]
  rw [alookup_optF_ne₁ (show ("steps" : String) ≠ "with" by decide)]
  rw [alookup_optF_ne (show ("uses" : String) ≠ "name" by decide)]
  rw [alookup_optF_ne (show ("uses" : String) ≠ "environment" by decide)]
  rw [alookup_optF_ne (show ("uses" : String) ≠ "continue-on-error" by decide)]
  rw [alookup_optF_ne (show ("uses" : String) ≠ "timeout-minutes" by decide)]
  rw [alookup_optF_ne (show ("uses" : String) ≠ "if" by decide)]
  rw [alookup_optF_ne (show ("uses" : String) ≠ "needs" by decide)]
  rw [alookup_optF_ne (show ("uses" : String) ≠ "concurrency" by decide)]
  rw [alookup_optF_ne (show ("uses" : String) ≠ "defaults" by decide)]
  rw [alookup_optF_ne (show ("uses" : String) ≠ "strategy" by decide)]
  rw [alookup_optF_ne (show ("uses" : String) ≠ "services" by decide)]
  rw [alookup_optF_ne (show ("uses" : String) ≠ "outputs" by decide)]
  rw [alookup_optF_ne (show ("uses" : String) ≠ "permissions" by decide)]
  rw [alookup_optF_ne (show ("uses" : String) ≠ "env" by decide)]
  rw [alookup_optF_ne (show ("uses" : String) ≠ "steps" by decide)]
  rw [alookup_optF_eq]
  rw [alookup_optF_ne₁ (show ("uses" : String) ≠ "with" by decide)]
  rw [alookup_optF_ne (show ("with" : String) ≠ "name" by decide)]
  rw [alookup_optF_ne (show ("with" : String) ≠ "environment" by decide)]
  rw [alookup_optF_ne (show ("with" : String) ≠ "continue-on-error" by decide)]
  rw [alookup_optF_ne (show ("with" : String) ≠ "timeout-minutes" by decide)]
  rw [alookup_optF_ne (show ("with" : String) ≠ "if" by decide)]
  rw [alookup_optF_ne (show ("with" : String) ≠ "needs" by decide)]
  rw [alookup_optF_ne (show ("with" : String) ≠ "concurrency" by decide)]
  rw [alookup_optF_ne (show ("with" : String) ≠ "defaults" by decide)]
  rw [alookup_optF_ne (show ("with" : String) ≠ "strategy" by decide)]
  rw [alookup_optF_ne (show ("with" : String) ≠ "services" by decide)]
  rw [alookup_optF_ne (show ("with" : String) ≠ "outputs" by decide)]
  rw [alookup_optF_ne (show ("with" : String) ≠ "permissions" by decide)]
  rw [alookup_optF_ne (show ("with" : String) ≠ "env" by decide)]
  rw [alookup_optF_ne (show ("with" : String) ≠ "steps" by decide)]
  rw [alookup_optF_ne (show ("with" : String) ≠ "uses" by decide)]
  rw [alookup_optF_eq₁]
  simp only [fieldD_opt, fieldD_some]
  rw [environment_rt j.Environment]
  rw [strlist_rt j.Needs]
  rw [concurrency_rt j.Concurrency]
  rw [defaults_rt j.Defaults]
  rw [strategy_rt j.Strategy h.2]
  rw [decPairs_map_rt serviceMarshal serviceUnmarshal service_rt j.Services]
  rw [strmap_rt j.Outputs]
  rw [perms_rt j.Permissions]
  rw [strmap_rt j.Env]
  rw [hysD]
  rw [strmap_rt j.With]
  simp only [encStr, decStr, decBool, decInt]
  rw [ite_ne_collapse (fun v => (Except.ok v : Except String (String))) (j.Name) ("")]
  rw [ite_ne_collapse (fun v => (Except.ok v : Except String (Environment))) (j.Environment) ((⟨"", ""⟩ : Environment))]
  rw [ite_ne_collapse (fun v => (Except.ok v : Except String (Bool))) (j.ContinueOnError) (false)]
  rw [ite_ne_collapse (fun v => (Except.ok v : Except String (Int))) (j.TimeoutMinutes) (0)]
  rw [ite_ne_collapse (fun v => (Except.ok v : Except String (String))) (j.If) ("")]
  rw [ite_ne_collapse (fun v => (Except.ok v : Except String (List String))) (j.Needs) ([])]
  rw [ite_ne_collapse (fun v => (Except.ok v : Except String (Concurrency))) (j.Concurrency) ((⟨false, ""⟩ : Concurrency))]
  rw [ite_ne_collapse (fun v => (Except.ok v : Except String (Defaults))) (j.Defaults) ((⟨⟨"", ""⟩⟩ : Defaults))]
  rw [ite_ne_collapse (fun v => (Except.ok v : Except String (Strategy))) (j.Strategy) ((⟨⟨[], [], []⟩, false, 0⟩ : Strategy))]
  rw [ite_ne_collapse (fun v => (Except.ok v : Except String (List (String × Service)))) (j.Services) ([])]
  rw [ite_ne_collapse (fun v => (Except.ok v : Except String (List (String × String)))) (j.Outputs) ([])]
  rw [ite_ne_collapse (fun v => (Except.ok v : Except String (Permissions))) (j.Permissions) (Permissions.allScopes "")]
  rw [ite_ne_collapse (fun v => (Except.ok v : Except String (List (String × String)))) (j.Env) ([])]
  rw [ite_ne_collapse (fun v => (Except.ok v : Except String (List Step))) (j.Steps) ([])]
  rw [ite_ne_collapse (fun v => (Except.ok v : Except String (String))) (j.Uses) ("")]
  rw [ite_ne_collapse (fun v => (Except.ok v : Except String (List (String × String)))) (j.With) ([])]
  rfl

theorem workflow_rt (w : Workflow) (h : WorkflowOk w) :
    (workflowMarshal w >>= workflowUnmarshal) = .ok w := by
  obtain ⟨ys, hE, hD⟩ := encPairsM_rt jobMarshal jobUnmarshal w.Jobs
    (fun kv hkv => job_rt kv.2 (h kv hkv))
  unfold workflowMarshal
  rw [hE, ok_bind, ok_bind]
  simp only [workflowUnmarshal]
  simp only [optField, reqField, List.append_assoc]
  rw [alookup_optF_eq]
  rw [alookup_optF_ne (show ("name" : String) ≠ "run-name" by decide)]
  rw [alookup_optF_ne (show ("name" : String) ≠ "permissions" by decide)]
  rw [alookup_optF_ne (show ("name" : String) ≠ "concurrency" by decide)]
  rw [alookup_optF_ne (show ("name" : String) ≠ "defaults" by decide)]
  rw [alookup_optF_ne (show ("name" : String) ≠ "env" by decide)]
  rw [alookup_req_ne₁ (show ("name" : String) ≠ "jobs" by decide)]
  rw [alookup_optF_ne (show ("run-name" : String) ≠ "name" by decide)]
  rw [alookup_optF_eq]
  rw [alookup_optF_ne (show ("run-name" : String) ≠ "permissions" by decide)]
  rw [alookup_optF_ne (show ("run-name" : String) ≠ "concurrency" by decide)]
  rw [alookup_optF_ne (show ("run-name" : String) ≠ "defaults" by decide)]
  rw [alookup_optF_ne (show ("run-name" : String) ≠ "env" by decide)]
  rw [alookup_req_ne₁ (show ("run-name" : String) ≠ "jobs" by decide)]
  rw [alookup_optF_ne (show ("permissions" : String) ≠ "name" by decide)]
  rw [alookup_optF_ne (show ("permissions" : String) ≠ "run-name" by decide)]
  rw [alookup_optF_eq]
  rw [alookup_optF_ne (show ("permissions" : String) ≠ "concurrency" by decide)]
  rw [alookup_optF_ne (show ("permissions" : String) ≠ "defaults" by decide)]
  rw [alookup_optF_ne (show ("permissions" : String) ≠ "env" by decide)]
  rw [alookup_req_ne₁ (show ("permissions" : String) ≠ "jobs" by decide)]
  rw [alookup_optF_ne (show ("concurrency" : String) ≠ "name" by decide)]
  rw [alookup_optF_ne (show ("concurrency" : String) ≠ "run-name" by decide)]
  rw [alookup_optF_ne (show ("concurrency" : String) ≠ "permissions" by decide)]
  rw [alookup_optF_eq]
  rw [alookup_optF_ne (show ("concurrency" : String) ≠ "defaults" by decide)]
  rw [alookup_optF_ne (show ("concurrency" : String) ≠ "env" by decide)]
  rw [alookup_req_ne₁ (show ("concurrency" : String) ≠ "jobs" by decide)]
  rw [alookup_optF_ne (show ("defaults" : String) ≠ "name" by decide)]
  rw [alookup_optF_ne (show ("defaults" : String) ≠ "run-name" by decide)]
  rw [alookup_optF_ne (show ("defaults" : String) ≠ "permissions" by decide)]
  rw [alookup_optF_ne (show ("defaults" : String) ≠ "concurrency" by decide)]
  rw [alookup_optF_eq]
  rw [alookup_optF_ne (show ("defaults" : String) ≠ "env" by decide)]
  rw [alookup_req_ne₁ (show ("defaults" : String) ≠ "jobs" by decide)]
  rw [alookup_optF_ne (show ("env" : String) ≠ "name" by decide)]
  rw [alookup_optF_ne (show ("env" : String) ≠ "run-name" by decide)]
  rw [alookup_optF_ne (show ("env" : String) ≠ "permissions" by decide)]
  rw [alookup_optF_ne (show ("env" : String) ≠ "concurrency" by decide)]
  rw [alookup_optF_ne (show ("env" : String) ≠ "defaults" by decide)]
  rw [alookup_optF_eq]
  rw [alookup_req_ne₁ (show ("env" : String) ≠ "jobs" by decide)]
  rw [alookup_optF_ne (show ("jobs" : String) ≠ "name" by decide)]
  rw [alookup_optF_ne (show ("jobs" : String) ≠ "run-name" by decide)]
  rw [alookup_optF_ne (show ("jobs" : String) ≠ "permissions" by decide)]
  rw [alookup_optF_ne (show ("jobs" : String) ≠ "concurrency" by decide)]
  rw [alookup_optF_ne (show ("jobs" : String) ≠ "defaults" by decide)]
  rw [alookup_optF_ne (show ("jobs" : String) ≠ "env" by decide)]
  rw [alookup_req_eq₁]
  simp only [fieldD_opt, fieldD_some]
  rw [perms_rt w.Permissions]
  rw [concurrency_rt w.Concurrency]
  rw [defaults_rt w.Defaults]
  rw [strmap_rt w.Env]
  rw [hD]
  simp only [encStr, decStr, decBool, decInt]
  rw [ite_ne_collapse (fun v => (Except.ok v : Except String (String))) (w.Name) ("")]
  rw [ite_ne_collapse (fun v => (Except.ok v : Except String (String))) (w.RunName) ("")]
  rw [ite_ne_collapse (fun v => (Except.ok v : Except String (Permissions))) (w.Permissions) (Permissions.allScopes "")]
  rw [ite_ne_collapse (fun v => (Except.ok v : Except String (Concurrency))) (w.Concurrency) ((⟨false, ""⟩ : Concurrency))]
  rw [ite_ne_collapse (fun v => (Except.ok v : Except String (Defaults))) (w.Defaults) ((⟨⟨"", ""⟩⟩ : Defaults))]
  rw [ite_ne_collapse (fun v => (Except.ok v : Except String (List (String × String)))) (w.Env) ([])]
  rfl

theorem runs_rt (r : Runs) (h : ∀ s ∈ r.Steps, StepUsesOk s.Uses) :
    (runsMarshal r >>= runsUnmarshal) = .ok r := by
  obtain ⟨ys, hysE, hysD⟩ := steps_rt_ex r.Steps h
  unfold runsMarshal
  rw [hysE, ok_bind, ok_bind]
  simp only [runsUnmarshal]
  simp only [optField, reqField, List.append_assoc]
  rw [alookup_req_eq]
  rw [alookup_req_ne (show ("steps" : String) ≠ "using" by decide)]
  rw [alookup_optF_eq]
  rw [alookup_optF_ne (show ("steps" : String) ≠ "image" by decide)]
  rw [alookup_optF_ne (show ("steps" : String) ≠ "pre-entrypoint" by decide)]
  rw [alookup_optF_ne (show ("steps" : String) ≠ "entrypoint" by decide)]
  rw [alookup_optF_ne (show ("steps" : String) ≠ "post-entrypoint" by decide)]
  rw [alookup_optF_ne (show ("steps" : String) ≠ "args" by decide)]
  rw [alookup_optF_ne (show ("steps" : String) ≠ "env" by decide)]
  rw [alookup_optF_ne (show ("steps" : String) ≠ "pre" by decide)]
  rw [alookup_optF_ne (show ("steps" : String) ≠ "pre-if" by decide)]
  rw [alookup_optF_ne (show ("steps" : String) ≠ "main" by decide)]
  rw [alookup_optF_ne (show ("steps" : String) ≠ "post" by decide)]
  rw [alookup_optF_ne₁ (show ("steps" : String) ≠ "post-if" by decide)]
  rw [alookup_req_ne (show ("image" : String) ≠ "using" by decide)]
  rw [alookup_optF_ne (show ("image" : String) ≠ "steps" by decide)]
  rw [alookup_optF_eq]
  rw [alookup_optF_ne (show ("image" : String) ≠ "pre-entrypoint" by decide)]
  rw [alookup_optF_ne (show ("image" : String) ≠ "entrypoint" by decide)]
  rw [alookup_optF_ne (show ("image" : String) ≠ "post-entrypoint" by decide)]
  rw [alookup_optF_ne (show ("image" : String) ≠ "args" by decide)]
  rw [alookup_optF_ne (show ("image" : String) ≠ "env" by decide)]
  rw [alookup_optF_ne (show ("image" : String) ≠ "pre" by decide)]
  rw [alookup_optF_ne (show ("image" : String) ≠ "pre-if" by decide)]
  rw [alookup_optF_ne (show ("image" : String) ≠ "main" by decide)]
  rw [alookup_optF_ne (show ("image" : String) ≠ "post" by decide)]
  rw [alookup_optF_ne₁ (show ("image" : String) ≠ "post-if" by decide)]
  rw [alookup_req_ne (show ("pre-entrypoint" : String) ≠ "using" by decide)]
  rw [alookup_optF_ne (show ("pre-entrypoint" : String) ≠ "steps" by decide)]
  rw [alookup_optF_ne (show ("pre-entrypoint" : String) ≠ "image" by decide)]
  rw [alookup_optF_eq]
  rw [alookup_optF_ne (show ("pre-entrypoint" : String) ≠ "entrypoint" by decide)]
  rw [alookup_optF_ne (show ("pre-entrypoint" : String) ≠ "post-entrypoint" by decide)]
  rw [alookup_optF_ne (show ("pre-entrypoint" : String) ≠ "args" by decide)]
  rw [alookup_optF_ne (show ("pre-entrypoint" : String) ≠ "env" by decide)]
  rw [alookup_optF_ne (show ("pre-entrypoint" : String) ≠ "pre" by decide)]
  rw [alookup_optF_ne (show ("pre-entrypoint" : String) ≠ "pre-if" by decide)]
  rw [alookup_optF_ne (show ("pre-entrypoint" : String) ≠ "main" by decide)]
  rw [alookup_optF_ne (show ("pre-entrypoint" : String) ≠ "post" by decide)]
  rw [alookup_optF_ne₁ (show ("pre-entrypoint" : String) ≠ "post-if" by decide)]
  rw [alookup_req_ne (show ("entrypoint" : String) ≠ "using" by decide)]
  rw [alookup_optF_ne (show ("entrypoint" : String) ≠ "steps" by decide)]
  rw [alookup_optF_ne (show ("entrypoint" : String) ≠ "image" by decide)]
  rw [alookup_optF_ne (show ("entrypoint" : String) ≠ "pre-entrypoint" by decide)]
  rw [alookup_optF_eq]
  rw [alookup_optF_ne (show ("entrypoint" : String) ≠ "post-entrypoint" by decide)]
  rw [alookup_optF_ne (show ("entrypoint" : String) ≠ "args" by decide)]
  rw [alookup_optF_ne (show ("entrypoint" : String) ≠ "env" by decide)]
  rw [alookup_optF_ne (show ("entrypoint" : String) ≠ "pre" by decide)]
  rw [alookup_optF_ne (show ("entrypoint" : String) ≠ "pre-if" by decide)]
  rw [alookup_optF_ne (show ("entrypoint" : String) ≠ "main" by decide)]
  rw [alookup_optF_ne (show ("entrypoint" : String) ≠ "post" by decide)]
  rw [alookup_optF_ne₁ (show ("entrypoint" : String) ≠ "post-if" by decide)]
  rw [alookup_req_ne (show ("post-entrypoint" : String) ≠ "using" by decide)]
  rw [alookup_optF_ne (show ("post-entrypoint" : String) ≠ "steps" by decide)]
  rw [alookup_optF_ne (show ("post-entrypoint" : String) ≠ "image" by decide)]
  rw [alookup_optF_ne (show ("post-entrypoint" : String) ≠ "pre-entrypoint" by decide)]
  rw [alookup_optF_ne (show ("post-entrypoint" : String) ≠ "entrypoint" by decide)]
  rw [alookup_optF_eq]
  rw [alookup_optF_ne (show ("post-entrypoint" : String) ≠ "args" by decide)]
  rw [alookup_optF_ne (show ("post-entrypoint" : String) ≠ "env" by decide)]
  rw [alookup_optF_ne (show ("post-entrypoint" : String) ≠ "pre" by decide)]
  rw [alookup_optF_ne (show ("post-entrypoint" : String) ≠ "pre-if" by decide)]
  rw [alookup_optF_ne (show ("post-entrypoint" : String) ≠ "main" by decide)]
  rw [alookup_optF_ne (show ("post-entrypoint" : String) ≠ "post" by decide)]
  rw [alookup_optF_ne₁ (show ("post-entrypoint" : String) ≠ "post-if" by decide)]
  rw [alookup_req_ne (show ("args" : String) ≠ "using" by decide)]
  rw [alookup_optF_ne (show ("args" : String) ≠ "steps" by decide)]
  rw [alookup_optF_ne (show ("args" : String) ≠ "image" by decide)]
  rw [alookup_optF_ne (show ("args" : String) ≠ "pre-entrypoint" by decide)]
  rw [alookup_optF_ne (show ("args" : String) ≠ "entrypoint" by decide)]
  rw [alookup_optF_ne (show ("args" : String) ≠ "post-entrypoint" by decide)]
  rw [alookup_optF_eq]
  rw [alookup_optF_ne (show ("args" : String) ≠ "env" by decide)]
  rw [alookup_optF_ne (show ("args" : String) ≠ "pre" by decide)]
  rw [alookup_optF_ne (show ("args" : String) ≠ "pre-if" by decide)]
  rw [alookup_optF_ne (show ("args" : String) ≠ "main" by decide)]
  rw [alookup_optF_ne (show ("args" : String) ≠ "post" by decide)]
  rw [alookup_optF_ne₁ (show ("args" : String) ≠ "post-if" by decide)]
  rw [alookup_req_ne (show ("env" : String) ≠ "using" by decide)]
  rw [alookup_optF_ne (show ("env" : String) ≠ "steps" by decide)]
  rw [alookup_optF_ne (show ("env" : String) ≠ "image" by decide)]
  rw [alookup_optF_ne (show ("env" : String) ≠ "pre-entrypoint" by decide)]
  rw [alookup_optF_ne (show ("env" : String) ≠ "entrypoint" by decide)]
  rw [alookup_optF_ne (show ("env" : String) ≠ "post-entrypoint" by decide)]
  rw [alookup_optF_ne (show ("env" : String) ≠ "args" by decide)]
  rw [alookup_optF_eq]
  rw [alookup_optF_ne (show ("env" : String) ≠ "pre" by decide)]
  rw [alookup_optF_ne (show ("env" : String) ≠ "pre-if" by decide)]
  rw [alookup_optF_ne (show ("env" : String) ≠ "main" by decide)]
  rw [alookup_optF_ne (show ("env" : String) ≠ "post" by decide)]
  rw [alookup_optF_ne₁ (show ("env" : String) ≠ "post-if" by decide)]
  rw [alookup_req_ne (show ("pre" : String) ≠ "using" by decide)]
  rw [alookup_optF_ne (show ("pre" : String) ≠ "steps" by decide)]
  rw [alookup_optF_ne (show ("pre" : String) ≠ "image" by decide)]
  rw [alookup_optF_ne (show ("pre" : String) ≠ "pre-entrypoint" by decide)]
  rw [alookup_optF_ne (show ("pre" : String) ≠ "entrypoint" by decide)]
  rw [alookup_optF_ne (show ("pre" : String) ≠ "post-entrypoint" by decide)]
  rw [alookup_optF_ne (show ("pre" : String) ≠ "args" by decide)]
  rw [alookup_optF_ne (show ("pre" : String) ≠ "env" by decide)]
  rw [alookup_optF_eq]
  rw [alookup_optF_ne (show ("pre" : String) ≠ "pre-if" by decide)]
  rw [alookup_optF_ne (show ("pre" : String) ≠ "main" by decide)]
  rw [alookup_optF_ne (show ("pre" : String) ≠ "post" by decide)]
  rw [alookup_optF_ne₁ (show ("pre" : String) ≠ "post-if" by decide)]
  rw [alookup_req_ne (show ("pre-if" : String) ≠ "using" by decide)]
  rw [alookup_optF_ne (show ("pre-if" : String) ≠ "steps" by decide)]
  rw [alookup_optF_ne (show ("pre-if" : String) ≠ "image" by decide)]
  rw [alookup_optF_ne (show ("pre-if" : String) ≠ "pre-entrypoint" by decide)]
  rw [alookup_optF_ne (show ("pre-if" : String) ≠ "entrypoint" by decide)]
  rw [alookup_optF_ne (show ("pre-if" : String) ≠ "post-entrypoint" by decide)]
  rw [alookup_optF_ne (show ("pre-if" : String) ≠ "args" by decide)]
  rw [alookup_optF_ne (show ("pre-if" : String) ≠ "env" by decide)]
  rw [alookup_optF_ne (show ("pre-if" : String) ≠ "pre" by decide)]
  rw [alookup_optF_eq]
  rw [alookup_optF_ne (show ("pre-if" : String) ≠ "main" by decide)]
  rw [alookup_optF_ne (show ("pre-if" : String) ≠ "post" by decide)]
  rw [alookup_optF_ne₁ (show ("pre-if" : String) ≠ "post-if" by decide)]
  rw [alookup_req_ne (show ("main" : String) ≠ "using" by decide)]
  rw [alookup_optF_ne (show ("main" : String) ≠ "steps" by decide)]
  rw [alookup_optF_ne (show ("main" : String) ≠ "image" by decide)]
  rw [alookup_optF_ne (show ("main" : String) ≠ "pre-entrypoint" by decide)]
  rw [alookup_optF_ne (show ("main" : String) ≠ "entrypoint" by decide)]
  rw [alookup_optF_ne (show ("main" : String) ≠ "post-entrypoint" by decide)]
  rw [alookup_optF_ne (show ("main" : String) ≠ "args" by decide)]
  rw [alookup_optF_ne (show ("main" : String) ≠ "env" by decide)]
  rw [alookup_optF_ne (show ("main" : String) ≠ "pre" by decide)]
  rw [alookup_optF_ne (show ("main" : String) ≠ "pre-if" by decide)]
  rw [alookup_optF_eq]
  rw [alookup_optF_ne (show ("main" : String) ≠ "post" by decide)]
  rw [alookup_optF_ne₁ (show ("main" : String) ≠ "post-if" by decide)]
  rw [alookup_req_ne (show ("post" : String) ≠ "using" by decide)]
  rw [alookup_optF_ne (show ("post" : String) ≠ "steps" by decide)]
  rw [alookup_optF_ne (show ("post" : String) ≠ "image" by decide)]
  rw [alookup_optF_ne (show ("post" : String) ≠ "pre-entrypoint" by decide)]
  rw [alookup_optF_ne (show ("post" : String) ≠ "entrypoint" by decide)]
  rw [alookup_optF_ne (show ("post" : String) ≠ "post-entrypoint" by decide)]
  rw [alookup_optF_ne (show ("post" : String) ≠ "args" by decide)]
  rw [alookup_optF_ne (show ("post" : String) ≠ "env" by decide)]
  rw [alookup_optF_ne (show ("post" : String) ≠ "pre" by decide)]
  rw [alookup_optF_ne (show ("post" : String) ≠ "pre-if" by decide)]
  rw [alookup_optF_ne (show ("post" : String) ≠ "main" by decide)]
  rw [alookup_optF_eq]
  rw [alookup_optF_ne₁ (show ("post" : String) ≠ "post-if" by decide)]
  rw [alookup_req_ne (show ("post-if" : String) ≠ "using" by decide)]
  rw [alookup_optF_ne (show ("post-if" : String) ≠ "steps" by decide)]
  rw [alookup_optF_ne (show ("post-if" : String) ≠ "image" by decide)]
  rw [alookup_optF_ne (show ("post-if" : String) ≠ "pre-entrypoint" by decide)]
  rw [alookup_optF_ne (show ("post-if" : String) ≠ "entrypoint" by decide)]
  rw [alookup_optF_ne (show ("post-if" : String) ≠ "post-entrypoint" by decide)]
  rw [alookup_optF_ne (show ("post-if" : String) ≠ "args" by decide)]
  rw [alookup_optF_ne (show ("post-if" : String) ≠ "env" by decide)]
  rw [alookup_optF_ne (show ("post-if" : String) ≠ "pre" by decide)]
  rw [alookup_optF_ne (show ("post-if" : String) ≠ "pre-if" by decide)]
  rw [alookup_optF_ne (show ("post-if" : String) ≠ "main" by decide)]
  rw [alookup_optF_ne (show ("post-if" : String) ≠ "post" by decide)]
  rw [alookup_optF_eq₁]
  simp only [fieldD_opt, fieldD_some]
  rw [hysD]
  rw [strlist_rt r.Args]
  rw [strmap_rt r.Env]
  simp only [encStr, decStr, decBool, decInt]
  rw [ite_ne_collapse (fun v => (Except.ok v : Except String (List Step))) (r.Steps) ([])]
  rw [ite_ne_collapse (fun v => (Except.ok v : Except String (String))) (r.Image) ("")]
  rw [ite_ne_collapse (fun v => (Except.ok v : Except String (String))) (r.PreEntrypoint) ("")]
  rw [ite_ne_collapse (fun v => (Except.ok v : Except String (String))) (r.Entrypoint) ("")]
  rw [ite_ne_collapse (fun v => (Except.ok v : Except String (String))) (r.PostEntrypoint) ("")]
  rw [ite_ne_collapse (fun v => (Except.ok v : Except String (List String))) (r.Args) ([])]
  rw [ite_ne_collapse (fun v => (Except.ok v : Except String (List (String × String)))) (r.Env) ([])]
  rw [ite_ne_collapse (fun v => (Except.ok v : Except String (String))) (r.Pre) ("")]
  rw [ite_ne_collapse (fun v => (Except.ok v : Except String (String))) (r.PreIf) ("")]
  rw [ite_ne_collapse (fun v => (Except.ok v : Except String (String))) (r.Main) ("")]
  rw [ite_ne_collapse (fun v => (Except.ok v : Except String (String))) (r.Post) ("")]
  rw [ite_ne_collapse (fun v => (Except.ok v : Except String (String))) (r.PostIf) ("")]
  rfl

theorem manifest_rt (m : Manifest) (h : ManifestOk m) :
    (manifestMarshal m >>= manifestUnmarshal) = .ok m := by
  obtain ⟨ry, hrE, hrD⟩ := bind_rt_ex (runs_rt m.Runs h)
  unfold manifestMarshal
  rw [hrE, ok_bind, ok_bind]
  simp only [manifestUnmarshal]
  simp only [optField, reqField, List.append_assoc]
  rw [alookup_req_eq]
  rw [alookup_req_ne (show ("author" : String) ≠ "name" by decide)]
  rw [alookup_optF_eq]
  rw [alookup_req_ne (show ("author" : String) ≠ "description" by decide)]
  rw [alookup_optF_ne (show ("author" : String) ≠ "branding" by decide)]
  rw [alookup_optF_ne (show ("author" : String) ≠ "inputs" by decide)]
  rw [alookup_optF_ne (show ("author" : String) ≠ "outputs" by decide)]
  rw [alookup_req_ne₁ (show ("author" : String) ≠ "runs" by decide)]
  rw [alookup_req_ne (show ("description" : String) ≠ "name" by decide)]
  rw [alookup_optF_ne (show ("description" : String) ≠ "author" by decide)]
  rw [alookup_req_eq]
  rw [alookup_req_ne (show ("branding" : String) ≠ "name" by decide)]
  rw [alookup_optF_ne (show ("branding" : String) ≠ "author" by decide)]
  rw [alookup_req_ne (show ("branding" : String) ≠ "description" by decide)]
  rw [alookup_optF_eq]
  rw [alookup_optF_ne (show ("branding" : String) ≠ "inputs" by decide)]
  rw [alookup_optF_ne (show ("branding" : String) ≠ "outputs" by decide)]
  rw [alookup_req_ne₁ (show ("branding" : String) ≠ "runs" by decide)]
  rw [alookup_req_ne (show ("inputs" : String) ≠ "name" by decide)]
  rw [alookup_optF_ne (show ("inputs" : String) ≠ "author" by decide)]
  rw [alookup_req_ne (show ("inputs" : String) ≠ "description" by decide)]
  rw [alookup_optF_ne (show ("inputs" : String) ≠ "branding" by decide)]
  rw [alookup_optF_eq]
  rw [alookup_optF_ne (show ("inputs" : String) ≠ "outputs" by decide)]
  rw [alookup_req_ne₁ (show ("inputs" : String) ≠ "runs" by decide)]
  rw [alookup_req_ne (show ("outputs" : String) ≠ "name" by decide)]
  rw [alookup_optF_ne (show ("outputs" : String) ≠ "author" by decide)]
  rw [alookup_req_ne (show ("outputs" : String) ≠ "description" by decide)]
  rw [alookup_optF_ne (show ("outputs" : String) ≠ "branding" by decide)]
  rw [alookup_optF_ne (show ("outputs" : String) ≠ "inputs" by decide)]
  rw [alookup_optF_eq]
  rw [alookup_req_ne₁ (show ("outputs" : String) ≠ "runs" by decide)]
  rw [alookup_req_ne (show ("runs" : String) ≠ "name" by decide)]
  rw [alookup_optF_ne (show ("runs" : String) ≠ "author" by decide)]
  rw [alookup_req_ne (show ("runs" : String) ≠ "description" by decide)]
  rw [alookup_optF_ne (show ("runs" : String) ≠ "branding" by decide)]
  rw [alookup_optF_ne (show ("runs" : String) ≠ "inputs" by decide)]
  rw [alookup_optF_ne (show ("runs" : String) ≠ "outputs" by decide)]
  rw [alookup_req_eq₁]
  simp only [fieldD_opt, fieldD_some]
  rw [branding_rt m.Branding]
  rw [decPairs_map_rt inputMarshal inputUnmarshal input_rt m.Inputs]
  rw [decPairs_map_rt outputMarshal outputUnmarshal output_rt m.Outputs]
  rw [hrD]
  simp only [encStr, decStr, decBool, decInt]
  rw [ite_ne_collapse (fun v => (Except.ok v : Except String (String))) (m.Author) ("")]
  rw [ite_ne_collapse (fun v => (Except.ok v : Except String (Branding))) (m.Branding) ((⟨"", ""⟩ : Branding))]
  rw [ite_ne_collapse (fun v => (Except.ok v : Except String (List (String × Input)))) (m.Inputs) ([])]
  rw [ite_ne_collapse (fun v => (Except.ok v : Except String (List (String × Output)))) (m.Outputs) ([])]
  rfl


/-- Claim C1, amended: decoding the result of encoding is the identity,
field-wise, for Manifest, Workflow, Job, Step, Uses, Permissions,
Concurrency, Environment and Matrix of the marshaler-bearing generation
(src/unnamed/part_003, src/unnamed/part_007, src/manifest.go), PROVIDED
every `Uses` component satisfies `UsesOk` (its ref contains no `'@'`; with an
empty ref its name is non-empty and contains no `'@'`; its comment survives
the printable filter and the leading `#`/space trim) — inside a `Step` the
zero `Uses` is also allowed — and every `Matrix` component has no axis named
`include` or `exclude`.  Permissions, Concurrency and Environment round-trip
unconditionally.  (The original unconditional claim is refuted by
`roundtrip_claim_cex`.) -/
theorem roundtrip_amended :
    (∀ m : Manifest, ManifestOk m → (manifestMarshal m >>= manifestUnmarshal) = .ok m)
    ∧ (∀ w : Workflow, WorkflowOk w → (workflowMarshal w >>= workflowUnmarshal) = .ok w)
    ∧ (∀ j : Job, JobOk j → (jobMarshal j >>= jobUnmarshal) = .ok j)
    ∧ (∀ s : Step, StepUsesOk s.Uses → (stepMarshal s >>= stepUnmarshal) = .ok s)
    ∧ (∀ u : Uses, UsesOk u → (usesMarshal u >>= usesUnmarshalY) = .ok u)
    ∧ (∀ p : Permissions, permsUnmarshal (permsMarshal p) = .ok p)
    ∧ (∀ c : Concurrency, concurrencyUnmarshal (concurrencyMarshal c) = .ok c)
    ∧ (∀ e : Environment, environmentUnmarshal (environmentMarshal e) = .ok e)
    ∧ (∀ m : Matrix, MatrixOk m → matrixStructUnmarshal (matrixStructMarshal m) = .ok m) :=
  ⟨manifest_rt, workflow_rt, job_rt, step_rt, uses_rt, perms_rt, concurrency_rt,
   environment_rt, matrixS_rt⟩

/-- Counterexample to claim C1 as stated.  A `Uses` whose ref contains `'@'`
re-splits at the wrong place; a `Uses` with an empty ref but `'@'` in its
name splits though nothing was joined; an annotation starting with `'#'`
loses that prefix to the decoder's trim; and a `Matrix` with an axis
literally named `include` has that axis stolen by the decoder.  All four are
model values the claim quantifies over (the only exclusion being the doubly
empty `Uses`), and none round-trips field-wise. -/
theorem roundtrip_claim_cex :
    (usesMarshal ⟨"a", "b@c", ""⟩ >>= usesUnmarshalY) = .ok ⟨"a@b", "c", ""⟩
    ∧ (⟨"a@b", "c", ""⟩ : Uses) ≠ ⟨"a", "b@c", ""⟩
    ∧ (usesMarshal ⟨"a@b", "", ""⟩ >>= usesUnmarshalY) = .ok ⟨"a", "b", ""⟩
    ∧ (⟨"a", "b", ""⟩ : Uses) ≠ ⟨"a@b", "", ""⟩
    ∧ (usesMarshal ⟨"a", "v1", "#note"⟩ >>= usesUnmarshalY) = .ok ⟨"a", "v1", "note"⟩
    ∧ (⟨"a", "v1", "note"⟩ : Uses) ≠ ⟨"a", "v1", "#note"⟩
    ∧ matrixStructUnmarshal (matrixStructMarshal ⟨[("include", .seq [.map []])], [], []⟩)
      = .ok ⟨[], [[]], []⟩
    ∧ (⟨[], [[]], []⟩ : Matrix) ≠ ⟨[("include", .seq [.map []])], [], []⟩ :=
  ⟨rfl, by decide, rfl, by decide, rfl, by decide, rfl, by decide⟩

/-- Witness for `roundtrip_amended` at concrete values: a two-step composite
manifest, a workflow with one full job (matrix strategy, service, secrets-free
permissions), a valid `Uses` and a small `Matrix`. -/
theorem roundtrip_amended_witness :
    (manifestMarshal ⟨"act", "me", "desc", ⟨"blue", "rocket"⟩,
        [("level", ⟨"the level", "info", true, "old"⟩)],
        [("result", ⟨"the result", "val"⟩)],
        ⟨"composite",
         [⟨[("arg", "val")], [("SE", "1")], "checkout", "", "",
           ⟨"actions/checkout", "v4", "pinned"⟩⟩],
         "", "", "", "", [], [], "", "", "", "", ""⟩⟩
      >>= manifestUnmarshal)
      = .ok ⟨"act", "me", "desc", ⟨"blue", "rocket"⟩,
        [("level", ⟨"the level", "info", true, "old"⟩)],
        [("result", ⟨"the result", "val"⟩)],
        ⟨"composite",
         [⟨[("arg", "val")], [("SE", "1")], "checkout", "", "",
           ⟨"actions/checkout", "v4", "pinned"⟩⟩],
         "", "", "", "", [], [], "", "", "", "", ""⟩⟩
    ∧ (workflowMarshal ⟨"CI", "", Permissions.allScopes "read", ⟨true, "group"⟩,
        ⟨⟨"bash", "/src"⟩⟩, [("K", "V")],
        [("build", ⟨"Build", ⟨"prod", "https://x"⟩, true, 5, "cond", ["a"],
          ⟨false, ""⟩, ⟨⟨"", ""⟩⟩,
          ⟨⟨[("os", .seq [.str "linux" ""])], [[("shape", .str "circle" "")]], []⟩,
            true, 2⟩,
          [("db", ⟨"redis", ⟨"u", "p"⟩, [("A", "B")], [8080], ["v:/v"], "--opt"⟩)],
          [("o", "v")], Permissions.allScopes "write", [("E", "1")],
          [⟨[], [], "run it", "make", "sh", ⟨"", "", ""⟩⟩], "", []⟩)]⟩
      >>= workflowUnmarshal)
      = .ok ⟨"CI", "", Permissions.allScopes "read", ⟨true, "group"⟩,
        ⟨⟨"bash", "/src"⟩⟩, [("K", "V")],
        [("build", ⟨"Build", ⟨"prod", "https://x"⟩, true, 5, "cond", ["a"],
          ⟨false, ""⟩, ⟨⟨"", ""⟩⟩,
          ⟨⟨[("os", .seq [.str "linux" ""])], [[("shape", .str "circle" "")]], []⟩,
            true, 2⟩,
          [("db", ⟨"redis", ⟨"u", "p"⟩, [("A", "B")], [8080], ["v:/v"], "--opt"⟩)],
          [("o", "v")], Permissions.allScopes "write", [("E", "1")],
          [⟨[], [], "run it", "make", "sh", ⟨"", "", ""⟩⟩], "", []⟩)]⟩
    ∧ (usesMarshal ⟨"actions/checkout", "v4", "pinned"⟩ >>= usesUnmarshalY)
      = .ok ⟨"actions/checkout", "v4", "pinned"⟩
    ∧ matrixStructUnmarshal (matrixStructMarshal
        ⟨[("os", .seq [.str "linux" ""])], [[("shape", .str "circle" "")]], []⟩)
      = .ok ⟨[("os", .seq [.str "linux" ""])], [[("shape", .str "circle" "")]], []⟩ :=
  ⟨roundtrip_amended.1 _ (by decide),
   roundtrip_amended.2.1 _ (by decide),
   roundtrip_amended.2.2.2.2.1 _ (by decide),
   roundtrip_amended.2.2.2.2.2.2.2.2 _ (by decide)⟩

end Gha
